import Mathlib

/-!
# snapd `overlord/devicestate`: the device manager

A shallow embedding of `src/overlord/devicestate/devicemgr.go` and the
properties of it that the specification states.

Conventions of the embedding

* `time.Time` is an integer count of nanoseconds from Go's zero `Time`
  (`IsZero` is `= 0`, `Add` is `+`, `After` is `>`); `time.Duration` is a Go
  `int64` of nanoseconds, so its arithmetic wraps (`wrapInt64`).
* The state lock is not modelled: every function runs to completion on a
  value of the state, which is what holding the lock gives.
* A Go function returning `error` returns `Option Err` (`none` is `nil`);
  a function that mutates the manager, the state or a task returns the new
  value next to its result.
* Collaborators whose code is not part of `devicemgr.go` (HTTP, JSON and
  assertion codecs, the snap store, URL parsing) are fields of `Env`.
-/

set_option linter.dupNamespace false

namespace Devicestate

/-! ## Time -/

/-- Instants, in nanoseconds from Go's zero `time.Time`. -/
abbrev Time := Int

/-- Go's `time.Duration`: an `int64` number of nanoseconds. -/
abbrev Duration := Int

/-- Two's-complement reduction of an integer to the `int64` range. -/
def wrapInt64 (x : Int) : Int := (x + 2 ^ 63) % 2 ^ 64 - 2 ^ 63

/-- Go's `time.Second`. -/
def second : Duration := 1000000000

/-- Go's `time.Minute`. -/
def minute : Duration := 60 * second

/-- Go's `time.Hour`. -/
def hour : Duration := 60 * minute

/-- Multiplication of a `time.Duration` by a constant, as Go computes it. -/
def Duration.mul (d : Duration) (k : Int) : Duration := wrapInt64 (d * k)

/-- Go's `Time.IsZero`. -/
def Time.IsZero (t : Time) : Bool := t == 0

/-- Go's `Time.Add`. -/
def Time.Add (t : Time) (d : Duration) : Time := t + d

/-- Go's `Time.After`. -/
def Time.After (t u : Time) : Bool := decide (u < t)

/-! ## Errors and statuses -/

deriving instance DecidableEq for Except

/-- The Go `error` values the device manager tells apart; everything it only
passes on or formats is `other` with its message. -/
inductive Err where
  /-- `state.ErrNoState`. -/
  | ErrNoState
  /-- `asserts.ErrNotFound`. -/
  | ErrNotFound
  /-- The package variable `errPoll`. -/
  | errPoll
  /-- A `*state.Retry` with its `After` field. -/
  | Retry (After : Duration)
  /-- An error for which `asserts.IsUnaccceptedUpdate` holds. -/
  | UnacceptedUpdate (msg : String)
  /-- Any other error, such as one built by `fmt.Errorf`. -/
  | other (msg : String)
  deriving DecidableEq, Repr

/-- The text of an error (`err.Error()`, what `%v` prints). -/
def Err.Error : Err → String
  | .ErrNoState => "no state entry for key"
  | .ErrNotFound => "assertion not found"
  | .errPoll => "serial-request accepted, poll later"
  | .Retry _ => "task should be retried"
  | .UnacceptedUpdate msg => msg
  | .other msg => msg

/-- Whether an error is a `*state.Retry`. -/
def Err.isRetry : Err → Bool
  | .Retry _ => true
  | _ => false

/-- Run-time panics of the Go code that the embedding can reach. -/
inductive Panic where
  /-- A field read through a nil pointer. -/
  | nilDereference
  /-- A failed unchecked type assertion `x.(T)`. -/
  | typeAssertion
  deriving DecidableEq, Repr

/-- Modelled from the spec: the statuses of the `state` package, whose code is
not part of the sources; a new task or change reads as `DoStatus`. -/
inductive Status where
  | HoldStatus
  | DoStatus
  | DoingStatus
  | DoneStatus
  | AbortStatus
  | UndoStatus
  | UndoingStatus
  | UndoneStatus
  | ErrorStatus
  deriving DecidableEq, Repr

/-- Modelled from the spec: `Status.Ready` of the `state` package, true for the
statuses in which nothing is left to run. -/
def Status.Ready : Status → Bool
  | .DoneStatus => true
  | .UndoneStatus => true
  | .HoldStatus => true
  | .ErrorStatus => true
  | _ => false

/-! ## Assertions and the assertion database -/

/-- The headers of a model assertion that the device manager reads. -/
structure asserts.Model where
  Series : String
  BrandID : String
  Model : String
  Gadget : String
  Kernel : String
  deriving DecidableEq, Repr

/-- The headers of a serial assertion that the device manager reads;
`DeviceKeyID` is `DeviceKey().ID()`. -/
structure asserts.Serial where
  BrandID : String
  Model : String
  Serial : String
  DeviceKeyID : String
  SignKeyID : String
  deriving DecidableEq, Repr

/-- A decoded assertion, by type. -/
inductive asserts.Assertion where
  | model (a : asserts.Model)
  | serial (a : asserts.Serial)
  | accountKey (keyID : String)
  | other (typeName : String)
  deriving DecidableEq, Repr

/-- The name of the type of an assertion (`a.Type().Name`). -/
def asserts.Assertion.TypeName : asserts.Assertion → String
  | .model _ => "model"
  | .serial _ => "serial"
  | .accountKey _ => "account-key"
  | .other n => n

/-- A device private key; only the ID of its public key is observed
(`privKey.PublicKey().ID()`). -/
structure asserts.PrivateKey where
  ID : String
  deriving DecidableEq, Repr

/-- Modelled from the spec: the assertion database, which is not part of the
sources: the assertions it holds and, when set, the failure with which every
lookup returns (a backstore error other than not-found). -/
structure asserts.Database where
  assertions : List asserts.Assertion
  fault : Option Err
  deriving DecidableEq, Repr

/-- The model assertions in a list of assertions. -/
def asserts.models : List asserts.Assertion → List asserts.Model
  | [] => []
  | .model a :: rest => a :: asserts.models rest
  | _ :: rest => asserts.models rest

/-- The serial assertions in a list of assertions. -/
def asserts.serials : List asserts.Assertion → List asserts.Serial
  | [] => []
  | .serial a :: rest => a :: asserts.serials rest
  | _ :: rest => asserts.serials rest

/-- Modelled from the spec: `Find(asserts.ModelType, ...)` by the primary key
`(series, brand-id, model)`; `ErrNotFound` when no assertion matches. -/
def asserts.Database.FindModel (db : asserts.Database) (series brand model : String) :
    Except Err asserts.Model :=
  match db.fault with
  | some e => .error e
  | none =>
    match (asserts.models db.assertions).find?
        (fun a => a.Series == series && a.BrandID == brand && a.Model == model) with
    | some a => .ok a
    | none => .error .ErrNotFound

/-- Modelled from the spec: `Find(asserts.SerialType, ...)` by the primary key
`(brand-id, model, serial)`; `ErrNotFound` when no assertion matches. -/
def asserts.Database.FindSerial (db : asserts.Database) (brand model serial : String) :
    Except Err asserts.Serial :=
  match db.fault with
  | some e => .error e
  | none =>
    match (asserts.serials db.assertions).find?
        (fun a => a.BrandID == brand && a.Model == model && a.Serial == serial) with
    | some a => .ok a
    | none => .error .ErrNotFound

/-- Modelled from the spec: `FindMany(asserts.SerialType, ...)` by
`(brand-id, model, device-key-sha3-384)`: all the matching serial assertions,
`ErrNotFound` when there is none. -/
def asserts.Database.FindManySerials (db : asserts.Database) (brand model keyID : String) :
    Except Err (List asserts.Serial) :=
  match db.fault with
  | some e => .error e
  | none =>
    match (asserts.serials db.assertions).filter
        (fun a => a.BrandID == brand && a.Model == model && a.DeviceKeyID == keyID) with
    | [] => .error .ErrNotFound
    | found => .ok found

/-! ## The state: identity, tasks, changes, snaps and configuration -/

/-- The device identity, `auth.DeviceState`. -/
structure DeviceState where
  Brand : String
  Model : String
  Serial : String
  KeyID : String
  deriving DecidableEq, Repr

/-- The struct `serialSetup`, kept on the task under `serial-setup`. -/
structure serialSetup where
  SerialRequest : String
  Serial : String
  deriving DecidableEq, Repr

/-- The struct `hookstate.HookSetup`. -/
structure HookSetup where
  Snap : String
  Hook : String
  deriving DecidableEq, Repr

/-- The level of a line of a task log. -/
inductive LogLevel where
  /-- Written by `t.Logf`. -/
  | INFO
  /-- Written by `t.Errorf`. -/
  | ERROR
  deriving DecidableEq, Repr

/-- Modelled from the spec: a task of the `state` package, with what the device
manager reads or writes of it. `serialSetup` is what `t.Get("serial-setup", _)`
yields: the stored value, `ErrNoState` when none was stored, or another error
when the stored value cannot be read. -/
structure Task where
  ID : Nat
  Kind : String
  Summary : String
  Status : Status
  WaitTasks : List Nat
  Log : List (LogLevel × String)
  serialSetup : Except Err serialSetup
  hookSetup : Option HookSetup
  deriving DecidableEq, Repr

/-- Modelled from the spec: `t.SetStatus`. -/
def Task.SetStatus (t : Task) (s : Devicestate.Status) : Task := { t with Status := s }

/-- Modelled from the spec: `t.Errorf`, which adds an error line to the log. -/
def Task.Errorf (t : Task) (msg : String) : Task := { t with Log := t.Log ++ [(.ERROR, msg)] }

/-- Modelled from the spec: `t.Logf`, which adds an informational line to the log. -/
def Task.Logf (t : Task) (msg : String) : Task := { t with Log := t.Log ++ [(.INFO, msg)] }

/-- Modelled from the spec: `t.Set("serial-setup", v)`. -/
def Task.SetSerialSetup (t : Task) (v : Devicestate.serialSetup) : Task := { t with serialSetup := .ok v }

/-- Modelled from the spec: `t.WaitFor(another)`, which records once that `t`
starts only after `another`. -/
def Task.WaitFor (t another : Task) : Task :=
  if t.WaitTasks.contains another.ID then t else { t with WaitTasks := t.WaitTasks ++ [another.ID] }

/-- Modelled from the spec: a change of the `state` package: its kind, the
status `chg.Status()` reports and its tasks in the order added (the Go state
keeps the tasks in a map by ID and the change keeps their IDs). -/
structure Change where
  ID : Nat
  Kind : String
  Summary : String
  Status : Status
  Tasks : List Task
  deriving DecidableEq, Repr

/-- The type of a snap, `snap.Type`. -/
inductive snap.Type where
  | TypeApp
  | TypeGadget
  | TypeKernel
  | TypeOS
  deriving DecidableEq, Repr

/-- The fields of `snap.Info` that the device manager reads; `Hooks` lists the
names bound to a non-nil hook. -/
structure snap.Info where
  Name : String
  SnapID : String
  Typ : snap.Type
  Hooks : List String
  deriving DecidableEq, Repr

/-- The outcome of the four `tr.GetMaybe` reads of `getSerialRequestConfig` on
one snap; an option that is not set reads as the zero value. -/
structure SnapConfig where
  deviceServiceURL : Except Err String
  deviceServiceHeaders : Except Err (List (String × String))
  registrationBody : Except Err String
  registrationProposedSerial : Except Err String
  deriving DecidableEq, Repr

/-- The configuration of a snap for which nothing is set. -/
def SnapConfig.unset : SnapConfig := ⟨.ok "", .ok [], .ok "", .ok ""⟩

/-- Modelled from the spec: the shared state `state.State`, with the entries the
device manager uses. `auth` is what `auth.Device` reads, `seeded` what
`Get("seeded", _)` yields, `attemptsCache` the entry cached under
`ensureOperationalAttemptsKey`, and `gadget` and `kernel` what
`snapstate.GadgetInfo` and `snapstate.KernelInfo` return. -/
structure State where
  auth : Except Err DeviceState
  seeded : Except Err Bool
  attemptsCache : Option Int
  lastTaskId : Nat
  lastChangeId : Nat
  changes : List Change
  db : asserts.Database
  gadget : Except Err snap.Info
  kernel : Except Err snap.Info
  config : List (String × SnapConfig)
  deriving DecidableEq, Repr

/-- Modelled from the spec: `auth.Device`. -/
def auth.Device (st : State) : Except Err DeviceState := st.auth

/-- Modelled from the spec: `auth.SetDevice`, which fails as `auth.Device` does
when the stored authentication data cannot be read. -/
def auth.SetDevice (st : State) (device : DeviceState) : Option Err × State :=
  match st.auth with
  | .error e => (some e, st)
  | .ok _ => (none, { st with auth := .ok device })

/-- Modelled from the spec: `st.NewTask`: the next ID, status `DoStatus`,
nothing to wait for, an empty log and no data. The task reaches the state with
the change it is added to. -/
def State.NewTask (st : State) (kind summary : String) : Task × State :=
  let t : Task := ⟨st.lastTaskId + 1, kind, summary, .DoStatus, [], [], .error .ErrNoState, none⟩
  (t, { st with lastTaskId := st.lastTaskId + 1 })

/-- Modelled from the spec: `hookstate.HookTask`: a new `run-hook` task that
carries the hook setup. -/
def hookstate.HookTask (st : State) (summary : String) (hooksup : HookSetup) : Task × State :=
  let r := st.NewTask "run-hook" summary
  ({ r.1 with hookSetup := some hooksup }, r.2)

/-- Modelled from the spec: `st.NewChange` followed by `chg.AddAll` of a task
set: the next change ID, the tasks in order; tasks in `DoStatus` make the
change report `DoStatus`, and a change without tasks reports `HoldStatus`. -/
def State.NewChangeWith (st : State) (kind summary : String) (tasks : List Task) : Change × State :=
  let status := if tasks.isEmpty then Status.HoldStatus else Status.DoStatus
  let chg : Change := ⟨st.lastChangeId + 1, kind, summary, status, tasks⟩
  (chg, { st with lastChangeId := st.lastChangeId + 1, changes := st.changes ++ [chg] })

/-- Modelled from the spec: `config.Transaction.GetMaybe` on a snap: the
configuration stored for it, all unset when there is none. -/
def State.snapConfig (st : State) (snapName : String) : SnapConfig :=
  match st.config.find? (fun e => e.1 == snapName) with
  | some e => e.2
  | none => SnapConfig.unset

/-- Modelled from the spec: `assertstate.Add`: the assertion is appended unless
the check of the database (an argument) refuses it. -/
def assertstate.Add (check : asserts.Database → asserts.Assertion → Option Err)
    (st : State) (a : asserts.Assertion) : Option Err × State :=
  match check st.db a with
  | some e => (some e, st)
  | none => (none, { st with db := { st.db with assertions := st.db.assertions ++ [a] } })

/-! ## The device manager -/

/-- The struct `DeviceManager`; `keypairMgr` is the content of the key pair
store and the task runner is left out. -/
structure DeviceManager where
  state : State
  keypairMgr : List asserts.PrivateKey
  bootOkRan : Bool
  bootRevisionsUpdated : Bool
  lastBecomeOperationalAttempt : Time
  becomeOperationalBackoff : Duration
  deriving DecidableEq, Repr

/-- The manager that `Manager` returns on a state: an opened key pair store,
no boot action run and both backoff fields zero. -/
def Manager (s : State) (keys : List asserts.PrivateKey) : DeviceManager :=
  ⟨s, keys, false, false, 0, 0⟩

/-- The method `changeInFlight`. -/
def DeviceManager.changeInFlight (m : DeviceManager) (kind : String) : Bool :=
  m.state.changes.any (fun chg => chg.Kind == kind && !chg.Status.Ready)

/-- The function `incEnsureOperationalAttempts`; the Go `int` of the counter is
64 bits wide, so `cur + 1` wraps as an `int64` does. -/
def incEnsureOperationalAttempts (st : State) : State :=
  let cur := st.attemptsCache.getD 0
  { st with attemptsCache := some (wrapInt64 (cur + 1)) }

/-- The function `ensureOperationalAttempts`. -/
def ensureOperationalAttempts (st : State) : Int :=
  st.attemptsCache.getD 0

/-- The method `ensureOperationalShouldBackoff`: the returned flag and the
manager after the call. -/
def DeviceManager.ensureOperationalShouldBackoff (m : DeviceManager) (now : Time) :
    Bool × DeviceManager :=
  if !(Time.IsZero m.lastBecomeOperationalAttempt) &&
      Time.After (Time.Add m.lastBecomeOperationalAttempt m.becomeOperationalBackoff) now then
    (true, m)
  else
    let m1 : DeviceManager :=
      if m.becomeOperationalBackoff = 0 then
        { m with becomeOperationalBackoff := 5 * minute }
      else
        let newBackoff := Duration.mul m.becomeOperationalBackoff 2
        let newBackoff := if newBackoff > 12 * hour then 24 * hour else newBackoff
        { m with becomeOperationalBackoff := newBackoff }
    (false, { m1 with lastBecomeOperationalAttempt := now })

/-- The method `ensureOperational`, with the value of `time.Now()` as an
argument: the returned error and the manager after the call. -/
def DeviceManager.ensureOperational (m : DeviceManager) (now : Time) :
    Option Err × DeviceManager :=
  match auth.Device m.state with
  | .error err => (some err, m)
  | .ok device =>
    if device.Serial ≠ "" then (none, m)
    else if device.Brand = "" ∨ device.Model = "" then (none, m)
    else if m.changeInFlight "become-operational" then (none, m)
    else
      match m.state.gadget with
      | .error .ErrNoState => (none, m)
      | .error err => (some err, m)
      | .ok gadgetInfo =>
        let r := m.ensureOperationalShouldBackoff now
        if r.1 then (none, r.2)
        else
          let m := r.2
          let st := incEnsureOperationalAttempts m.state
          let hook : Option Task × State :=
            if gadgetInfo.Hooks.contains "prepare-device" then
              let h := hookstate.HookTask st "Run prepare-device hook" ⟨gadgetInfo.Name, "prepare-device"⟩
              (some h.1, h.2)
            else (none, st)
          let prepareDevice := hook.1
          let tasks : List Task := prepareDevice.toList
          let g := hook.2.NewTask "generate-device-key" "Generate device key"
          let genKey : Task :=
            match prepareDevice with
            | some p => g.1.WaitFor p
            | none => g.1
          let tasks := tasks ++ [genKey]
          let q := g.2.NewTask "request-serial" "Request device serial"
          let requestSerial : Task := q.1.WaitFor genKey
          let tasks := tasks ++ [requestSerial]
          let c := q.2.NewChangeWith "become-operational" "Initialize device" tasks
          (none, { m with state := c.2 })

/-! ## HTTP and the collaborators outside the package -/

/-- An HTTP request as the package builds it. -/
structure http.Request where
  Method : String
  URL : String
  Header : List (String × String)
  Body : String
  deriving DecidableEq, Repr

/-- The call `req.Header.Set(k, v)`. -/
def http.Request.SetHeader (req : http.Request) (k v : String) : http.Request :=
  { req with Header := req.Header.filter (fun e => e.1 != k) ++ [(k, v)] }

/-- An HTTP response as the package reads it; `ContentType` is
`resp.Header.Get("Content-Type")`. -/
structure http.Response where
  StatusCode : Int
  ContentType : String
  Body : String
  deriving DecidableEq, Repr

/-- The struct `serverError`; an entry of `Errors` is a pointer, so it can be nil. -/
inductive serverError where
  | mk (Message : String) (Errors : List (Option serverError))

/-- The field `Message` of a `serverError`. -/
def serverError.Message : serverError → String
  | .mk m _ => m

/-- The field `Errors` of a `serverError`. -/
def serverError.Errors : serverError → List (Option serverError)
  | .mk _ es => es

/-- The struct `requestIDResp`. -/
structure requestIDResp where
  RequestID : String
  deriving DecidableEq, Repr

/-- A call that leaves the process: an HTTP round trip of the serial protocol,
or a fetch of an assertion from the snap store. -/
inductive NetCall where
  | http (req : http.Request)
  | store (assertType : String) (key : String)
  deriving DecidableEq, Repr

/-- The collaborators of the package whose code is elsewhere, as arguments. `Do`
answers the HTTP call made after the given number of earlier calls. -/
structure Env where
  /-- The call `client.Do`: a transport error or a response. -/
  Do : Nat → http.Request → Except String http.Response
  /-- Whether `http.NewRequest` accepts a URL. -/
  validRequestURL : String → Bool
  /-- The call `httputil.UserAgent()`. -/
  UserAgent : String
  /-- Decoding a JSON body into a `serverError`; `none` is a decoding error. -/
  decodeServerError : String → Option serverError
  /-- Decoding a JSON body into a `requestIDResp`. -/
  decodeRequestID : String → Except String requestIDResp
  /-- The call `asserts.Decode` on a stored text. -/
  Decode : String → Except String asserts.Assertion
  /-- The call `asserts.NewDecoder(body).Decode()`. -/
  DecoderDecode : String → Except String asserts.Assertion
  /-- The text `string(asserts.Encode(serial))`. -/
  EncodeSerial : asserts.Serial → String
  /-- The call `asserts.EncodePublicKey` on the public part of a key. -/
  EncodePublicKey : asserts.PrivateKey → Except String String
  /-- The call `asserts.SignWithoutAuthority` for a serial-request, followed by
  `asserts.Encode`: from the headers, the body and the key to the signed text. -/
  SignSerialRequest : List (String × String) → String → asserts.PrivateKey → Except Err String
  /-- The call `url.Parse`. -/
  urlParse : String → Except String String
  /-- The call `baseURL.Parse(ref)`, rendered with `String()`. -/
  urlResolve : String → String → Except String String
  /-- The call `sto.Assertion(asserts.AccountKeyType, [keyID], nil)`. -/
  storeAccountKey : String → Except Err asserts.Assertion
  /-- The check `assertstate.Add` makes before it stores an assertion. -/
  checkAdd : asserts.Database → asserts.Assertion → Option Err
  /-- The value of `osutil.GetenvBool("SNAPPY_USE_STAGING_STORE")` at start. -/
  useStaging : Bool
  /-- The package variable `repeatRequestSerial`. -/
  repeatRequestSerial : String
  /-- The variable `release.OnClassic`. -/
  OnClassic : Bool
  /-- The variable `release.Series`. -/
  Series : String

/-- The function `deviceAPIBaseURL`. -/
def deviceAPIBaseURL (env : Env) : String :=
  if env.useStaging then "https://myapps.developer.staging.ubuntu.com/identity/api/v1/"
  else "https://myapps.developer.ubuntu.com/identity/api/v1/"

/-- The package variable `retryInterval`. -/
def retryInterval : Duration := 60 * second

/-- The package variable `requestIDURL`. -/
def requestIDURL (env : Env) : String := deviceAPIBaseURL env ++ "request-id"

/-- The package variable `serialRequestURL`. -/
def serialRequestURL (env : Env) : String := deviceAPIBaseURL env ++ "devices"

/-- The constant `asserts.MediaType`. -/
def asserts.MediaType : String := "application/x.ubuntu.assertion"

/-- The method `keyPair`. -/
def DeviceManager.keyPair (m : DeviceManager) : Except Err asserts.PrivateKey :=
  match auth.Device m.state with
  | .error err => .error err
  | .ok device =>
    if device.KeyID = "" then .error .ErrNoState
    else
      match m.keypairMgr.find? (fun k => k.ID == device.KeyID) with
      | none => .error (.other ("cannot read device key pair: cannot find key pair"))
      | some privKey => .ok privKey

/-- The function `retryErr`, given the formatted reason: the returned error and
the task with the reason logged. -/
def retryErr (t : Task) (reason : String) : Err × Task :=
  (.Retry retryInterval, t.Errorf reason)

/-- The function `retryBadStatus`: the returned error and the task after the
call, or the panic it ends in. -/
def retryBadStatus (env : Env) (t : Task) (reason : String) (resp : http.Response) :
    Except Panic (Err × Task) :=
  if resp.StatusCode > 500 then
    .ok (retryErr t (reason ++ ": unexpected status " ++ toString resp.StatusCode))
  else
    let unexpected : Except Panic (Err × Task) :=
      .ok (.other (reason ++ ": unexpected status " ++ toString resp.StatusCode), t)
    if resp.ContentType = "application/json" then
      match env.decodeServerError resp.Body with
      | none => unexpected
      | some srvErr =>
        let msg : Except Panic String :=
          if srvErr.Message = "" then
            match srvErr.Errors with
            | [] => .ok srvErr.Message
            | some e :: _ => .ok e.Message
            | none :: _ => .error .nilDereference
          else .ok srvErr.Message
        match msg with
        | .error p => .error p
        | .ok msg =>
          if msg ≠ "" then .ok (.other (reason ++ ": " ++ msg), t)
          else unexpected
    else unexpected

/-- The struct `serialRequestConfig`. -/
structure serialRequestConfig where
  requestIDURL : String
  serialRequestURL : String
  headers : List (String × String)
  proposedSerial : String
  body : String
  deriving DecidableEq, Repr

/-- The method `applyHeaders`. -/
def serialRequestConfig.applyHeaders (cfg : serialRequestConfig) (req : http.Request) :
    http.Request :=
  cfg.headers.foldl (fun r kv => r.SetHeader kv.1 kv.2) req

/-! ## The serial protocol -/

/-- The function `prepareSerialRequest`: the returned text or error, the task
and the log of calls afterwards, or the panic it ends in. -/
def prepareSerialRequest (env : Env) (t : Task) (privKey : asserts.PrivateKey)
    (device : DeviceState) (cfg : serialRequestConfig) (calls : List NetCall) :
    Except Panic (Except Err String × Task × List NetCall) :=
  if !env.validRequestURL cfg.requestIDURL then
    .ok (.error (.other ("internal error: cannot create request-id request " ++
      cfg.requestIDURL.quote)), t, calls)
  else
    let req : http.Request := ⟨"POST", cfg.requestIDURL, [], ""⟩
    let req := req.SetHeader "User-Agent" env.UserAgent
    let req := cfg.applyHeaders req
    let calls1 := calls ++ [NetCall.http req]
    match env.Do calls.length req with
    | .error err =>
      let r := retryErr t
        ("cannot retrieve request-id for making a request for a serial: " ++ err)
      .ok (.error r.1, r.2, calls1)
    | .ok resp =>
      if resp.StatusCode ≠ 200 then
        match retryBadStatus env t
            "cannot retrieve request-id for making a request for a serial" resp with
        | .error p => .error p
        | .ok r => .ok (.error r.1, r.2, calls1)
      else
        match env.decodeRequestID resp.Body with
        | .error err =>
          let r := retryErr t
            ("cannot read response with request-id for making a request for a serial: " ++ err)
          .ok (.error r.1, r.2, calls1)
        | .ok requestID =>
          match env.EncodePublicKey privKey with
          | .error err =>
            .ok (.error (.other ("internal error: cannot encode device public key: " ++ err)),
              t, calls1)
          | .ok encodedPubKey =>
            let headers : List (String × String) :=
              [("brand-id", device.Brand), ("model", device.Model),
               ("request-id", requestID.RequestID), ("device-key", encodedPubKey)]
            let headers :=
              if cfg.proposedSerial ≠ "" then headers ++ [("serial", cfg.proposedSerial)]
              else headers
            match env.SignSerialRequest headers cfg.body privKey with
            | .error err => .ok (.error err, t, calls1)
            | .ok serialReq => .ok (.ok serialReq, t, calls1)

/-- The function `submitSerialRequest`: the returned serial or error, the task
and the log of calls afterwards, or the panic it ends in. -/
def submitSerialRequest (env : Env) (t : Task) (serialRequest : String)
    (cfg : serialRequestConfig) (calls : List NetCall) :
    Except Panic (Except Err asserts.Serial × Task × List NetCall) :=
  if !env.validRequestURL cfg.serialRequestURL then
    .ok (.error (.other ("internal error: cannot create serial-request request " ++
      cfg.serialRequestURL.quote)), t, calls)
  else
    let req : http.Request := ⟨"POST", cfg.serialRequestURL, [], serialRequest⟩
    let req := req.SetHeader "User-Agent" env.UserAgent
    let req := cfg.applyHeaders req
    let req := req.SetHeader "Content-Type" asserts.MediaType
    let calls1 := calls ++ [NetCall.http req]
    match env.Do calls.length req with
    | .error err =>
      let r := retryErr t ("cannot deliver device serial request: " ++ err)
      .ok (.error r.1, r.2, calls1)
    | .ok resp =>
      if resp.StatusCode = 200 ∨ resp.StatusCode = 201 then
        match env.DecoderDecode resp.Body with
        | .error err =>
          let r := retryErr t ("cannot read response to request for a serial: " ++ err)
          .ok (.error r.1, r.2, calls1)
        | .ok (.serial serial) => .ok (.ok serial, t, calls1)
        | .ok got =>
          .ok (.error (.other ("cannot use device serial assertion of type " ++
            got.TypeName.quote)), t, calls1)
      else if resp.StatusCode = 202 then
        .ok (.error .errPoll, t, calls1)
      else
        match retryBadStatus env t "cannot deliver device serial request" resp with
        | .error p => .error p
        | .ok r => .ok (.error r.1, r.2, calls1)

/-- The function `getSerial`: the returned serial or error, the task and the
log of calls afterwards, or the panic it ends in. -/
def getSerial (env : Env) (t : Task) (privKey : asserts.PrivateKey) (device : DeviceState)
    (cfg : serialRequestConfig) (calls : List NetCall) :
    Except Panic (Except Err asserts.Serial × Task × List NetCall) :=
  let loaded : Except Err serialSetup :=
    match t.serialSetup with
    | .ok v => .ok v
    | .error .ErrNoState => .ok ⟨"", ""⟩
    | .error err => .error err
  match loaded with
  | .error err => .ok (.error err, t, calls)
  | .ok serialSup =>
    if serialSup.Serial ≠ "" then
      match env.Decode serialSup.Serial with
      | .error err =>
        .ok (.error (.other ("internal error: cannot decode previously saved serial: " ++ err)),
          t, calls)
      | .ok (.serial a) => .ok (.ok a, t, calls)
      | .ok _ => .error .typeAssertion
    else
      let prepared : Except Panic (Except Err serialSetup × Task × List NetCall) :=
        if serialSup.SerialRequest = "" then
          match prepareSerialRequest env t privKey device cfg calls with
          | .error p => .error p
          | .ok (.error err, t1, calls1) => .ok (.error err, t1, calls1)
          | .ok (.ok serialRequest, t1, calls1) =>
            .ok (.ok { serialSup with SerialRequest := serialRequest }, t1, calls1)
        else .ok (.ok serialSup, t, calls)
      match prepared with
      | .error p => .error p
      | .ok (.error err, t1, calls1) => .ok (.error err, t1, calls1)
      | .ok (.ok serialSup, t1, calls1) =>
        match submitSerialRequest env t1 serialSup.SerialRequest cfg calls1 with
        | .error p => .error p
        | .ok (.error .errPoll, t2, calls2) =>
          .ok (.error .errPoll, t2.SetSerialSetup serialSup, calls2)
        | .ok (.error err, t2, calls2) => .ok (.error err, t2, calls2)
        | .ok (.ok serial, t2, calls2) =>
          let keyID := privKey.ID
          if serial.BrandID ≠ device.Brand ∨ serial.Model ≠ device.Model ∨
              serial.DeviceKeyID ≠ keyID then
            .ok (.error (.other ("obtained serial assertion does not match provided device " ++
              "identity information (brand, model, key id): " ++ serial.BrandID ++ " / " ++
              serial.Model ++ " / " ++ serial.DeviceKeyID ++ " != " ++ device.Brand ++ " / " ++
              device.Model ++ " / " ++ keyID)), t2, calls2)
          else
            let serialSup := { serialSup with Serial := env.EncodeSerial serial }
            let t3 := t2.SetSerialSetup serialSup
            if env.repeatRequestSerial = "after-got-serial" then
              .ok (.error (.Retry 0), t3, calls2)
            else .ok (.ok serial, t3, calls2)

/-- The function `getSerialRequestConfig`. -/
def getSerialRequestConfig (env : Env) (st : State) : Except Err serialRequestConfig :=
  match st.gadget with
  | .error err => .error (.other ("cannot find gadget snap and its name: " ++ err.Error))
  | .ok gadgetInfo =>
    let tr := st.snapConfig gadgetInfo.Name
    match tr.deviceServiceURL with
    | .error err => .error err
    | .ok svcURL =>
      if svcURL ≠ "" then
        match env.urlParse svcURL with
        | .error err =>
          .error (.other ("cannot parse device registration base URL " ++ svcURL.quote ++
            ": " ++ err))
        | .ok baseURL =>
          match tr.deviceServiceHeaders with
          | .error err => .error err
          | .ok headers =>
            match env.urlResolve baseURL "request-id" with
            | .error err =>
              .error (.other ("cannot build /request-id URL from " ++ baseURL ++ ": " ++ err))
            | .ok reqIDURL =>
              match tr.registrationBody with
              | .error err => .error err
              | .ok bodyStr =>
                match env.urlResolve baseURL "serial" with
                | .error err =>
                  .error (.other ("cannot build /serial URL from " ++ baseURL ++ ": " ++ err))
                | .ok serialURL =>
                  match tr.registrationProposedSerial with
                  | .error err => .error err
                  | .ok proposedSerial =>
                    .ok ⟨reqIDURL, serialURL, headers, proposedSerial, bodyStr⟩
      else .ok ⟨requestIDURL env, serialRequestURL env, [], "", ""⟩

/-! ## Task handlers and identity accessors -/

/-- The handler `doRequestSerial`: the returned error, the manager, the task and
the log of calls afterwards, or the panic it ends in. -/
def DeviceManager.doRequestSerial (env : Env) (m : DeviceManager) (t : Task)
    (calls : List NetCall) :
    Except Panic (Option Err × DeviceManager × Task × List NetCall) :=
  let st := m.state
  match getSerialRequestConfig env st with
  | .error err => .ok (some err, m, t, calls)
  | .ok cfg =>
    match auth.Device st with
    | .error err => .ok (some err, m, t, calls)
    | .ok device =>
      match m.keyPair with
      | .error .ErrNoState =>
        .ok (some (.other "internal error: cannot find device key pair"), m, t, calls)
      | .error err => .ok (some err, m, t, calls)
      | .ok privKey =>
        let found : Except Err (List asserts.Serial) :=
          match st.db.FindManySerials device.Brand device.Model privKey.ID with
          | .ok l => .ok l
          | .error .ErrNotFound => .ok []
          | .error err => .error err
        match found with
        | .error err => .ok (some err, m, t, calls)
        | .ok [serial0] =>
          let device := { device with Serial := serial0.Serial }
          match auth.SetDevice st device with
          | (some err, st1) => .ok (some err, { m with state := st1 }, t, calls)
          | (none, st1) => .ok (none, { m with state := st1 }, t.SetStatus .DoneStatus, calls)
        | .ok (_ :: _ :: _) =>
          .ok (some (.other
            "internal error: multiple serial assertions for the same device key"), m, t, calls)
        | .ok [] =>
          match getSerial env t privKey device cfg calls with
          | .error p => .error p
          | .ok (.error .errPoll, t1, calls1) =>
            .ok (some (.Retry retryInterval), m,
              t1.Logf "Will poll for device serial assertion in 60 seconds", calls1)
          | .ok (.error err, t1, calls1) => .ok (some err, m, t1, calls1)
          | .ok (.ok serial, t1, calls1) =>
            let errAcctKey := env.storeAccountKey serial.SignKeyID
            let calls2 := calls1 ++ [NetCall.store "account-key" serial.SignKeyID]
            let keyAdded : Except Err State :=
              match errAcctKey with
              | .error _ => .ok st
              | .ok a =>
                match assertstate.Add env.checkAdd st a with
                | (none, st1) => .ok st1
                | (some (.UnacceptedUpdate _), st1) => .ok st1
                | (some err, _) => .error err
            match keyAdded with
            | .error err => .ok (some err, m, t1, calls2)
            | .ok st1 =>
              match assertstate.Add env.checkAdd st1 (.serial serial) with
              | (some err, st2) =>
                match errAcctKey with
                | .error e =>
                  .ok (some (.Retry retryInterval), { m with state := st2 },
                    t1.Errorf ("cannot fetch signing key for the serial: " ++ e.Error), calls2)
                | .ok _ => .ok (some err, { m with state := st2 }, t1, calls2)
              | (none, st2) =>
                if env.repeatRequestSerial = "after-add-serial" then
                  .ok (some (.Retry 0), { m with state := st2 }, t1, calls2)
                else
                  let device := { device with Serial := serial.Serial }
                  match auth.SetDevice st2 device with
                  | (some err, st3) => .ok (some err, { m with state := st3 }, t1, calls2)
                  | (none, st3) =>
                    .ok (none, { m with state := st3 }, t1.SetStatus .DoneStatus, calls2)

/-- The handler `doMarkSeeded`. -/
def DeviceManager.doMarkSeeded (m : DeviceManager) : Option Err × DeviceManager :=
  (none, { m with state := { m.state with seeded := .ok true } })

/-- The function `Model`: the model assertion of the device. -/
def Model (env : Env) (st : State) : Except Err asserts.Model :=
  match auth.Device st with
  | .error err => .error err
  | .ok device =>
    if device.Brand = "" ∨ device.Model = "" then .error .ErrNoState
    else
      match st.db.FindModel env.Series device.Brand device.Model with
      | .error .ErrNotFound => .error .ErrNoState
      | .error err => .error err
      | .ok a => .ok a

/-- The function `Serial`: the serial assertion of the device. -/
def Serial (st : State) : Except Err asserts.Serial :=
  match auth.Device st with
  | .error err => .error err
  | .ok device =>
    if device.Serial = "" then .error .ErrNoState
    else
      match st.db.FindSerial device.Brand device.Model device.Serial with
      | .error .ErrNotFound => .error .ErrNoState
      | .error err => .error err
      | .ok a => .ok a

/-- The function `canAutoRefresh`: the returned flag and error. -/
def canAutoRefresh (env : Env) (st : State) : Bool × Option Err :=
  let seeded : Bool :=
    match st.seeded with
    | .ok b => b
    | .error _ => false
  if !seeded then (false, none)
  else
    match Model env st with
    | .error .ErrNoState => (true, none)
    | .error err => (false, some err)
    | .ok _ =>
      if ensureOperationalAttempts st ≥ 3 then (true, none)
      else
        match Serial st with
        | .error .ErrNoState => (false, none)
        | .error err => (false, some err)
        | .ok _ => (true, none)

/-! ## Key generation, the snap check and `Ensure` -/

/-- The Go type `snapstate.Flags`, an integer of flag bits. -/
abbrev snapstate.Flags := Int

/-- The package variable `keyLength`. -/
def keyLength : Nat := 4096

/-- Further collaborators whose code is elsewhere, as arguments: the key
generator and the key pair store, the snap declarations, the seed loader, the
boot loader and the task runner. -/
structure Host where
  /-- The call `rsa.GenerateKey(rand.Reader, bits)`, wrapped as a private key,
  after the given number of earlier generations; the ID of the public key of a
  generated key is never empty. -/
  GenerateKey : Nat → Nat → Except String { k : asserts.PrivateKey // k.ID ≠ "" }
  /-- The failure, if any, of `keypairMgr.Put` of a key on a store. -/
  Put : List asserts.PrivateKey → asserts.PrivateKey → Option String
  /-- The call `assertstate.SnapDeclaration(st, snapID)` followed by
  `PublisherID()`. -/
  SnapDeclarationPublisher : State → String → Except String String
  /-- The variable `populateStateFromSeed`: the task sets or the error, and the
  state it leaves. -/
  populateStateFromSeed : State → Except Err (List (List Task)) × State
  /-- The call `partition.FindBootloader()`. -/
  FindBootloader : Except String String
  /-- The call `partition.MarkBootSuccessful(bootloader)`. -/
  MarkBootSuccessful : String → Option Err
  /-- The call `snapstate.UpdateBootRevisions(st)`. -/
  UpdateBootRevisions : State → Option Err × State
  /-- The state after the call `m.runner.Ensure()`. -/
  runnerEnsure : State → State

/-- The handler `doGenerateDeviceKey`, with the number of keys generated so
far: the returned error, the manager, the task and that number afterwards. -/
def DeviceManager.doGenerateDeviceKey (host : Host) (m : DeviceManager) (t : Task)
    (generated : Nat) : Option Err × DeviceManager × Task × Nat :=
  match auth.Device m.state with
  | .error err => (some err, m, t, generated)
  | .ok device =>
    if device.KeyID ≠ "" then (none, m, t, generated)
    else
      match host.GenerateKey generated keyLength with
      | .error err =>
        (some (.other ("cannot generate device key pair: " ++ err)), m, t, generated + 1)
      | .ok keyPair =>
        let privKey := keyPair.val
        match host.Put m.keypairMgr privKey with
        | some err =>
          (some (.other ("cannot store device key pair: " ++ err)), m, t, generated + 1)
        | none =>
          let m1 := { m with keypairMgr := m.keypairMgr ++ [privKey] }
          let device := { device with KeyID := privKey.ID }
          match auth.SetDevice m1.state device with
          | (some err, st1) => (some err, { m1 with state := st1 }, t, generated + 1)
          | (none, st1) =>
            (none, { m1 with state := st1 }, t.SetStatus .DoneStatus, generated + 1)

/-- The function `checkGadgetOrKernel`; `curInfo` and `flags` are not read. -/
def checkGadgetOrKernel (env : Env) (host : Host) (st : State) (snapInfo : snap.Info)
    (_curInfo : Option snap.Info) (_flags : snapstate.Flags) : Option Err :=
  let selected : Except (Option Err)
      (String × Except Err snap.Info × (asserts.Model → String)) :=
    match snapInfo.Typ with
    | .TypeGadget => .ok ("gadget", st.gadget, fun model => model.Gadget)
    | .TypeKernel =>
      if env.OnClassic then .error (some (.other "cannot install a kernel snap on classic"))
      else .ok ("kernel", st.kernel, fun model => model.Kernel)
    | _ => .error none
  match selected with
  | .error result => result
  | .ok (kind, currentInfo, getName) =>
    match Model env st with
    | .error .ErrNoState =>
      some (.other ("cannot install " ++ kind ++ " without model assertion"))
    | .error err => some err
    | .ok model =>
      let publisherCheck : Option Err :=
        if snapInfo.SnapID ≠ "" then
          match host.SnapDeclarationPublisher st snapInfo.SnapID with
          | .error err =>
            some (.other ("internal error: cannot find snap declaration for " ++
              snapInfo.Name.quote ++ ": " ++ err))
          | .ok publisher =>
            if publisher ≠ "canonical" ∧ publisher ≠ model.BrandID then
              some (.other ("cannot install " ++ kind ++ " " ++ snapInfo.Name.quote ++
                " published by " ++ publisher.quote ++ " for model by " ++
                model.BrandID.quote))
            else none
        else none
      match publisherCheck with
      | some err => some err
      | none =>
        match currentInfo with
        | .ok _ => none
        | .error .ErrNoState =>
          let expectedName := getName model
          if expectedName = "" then
            some (.other ("cannot install " ++ kind ++
              " snap on classic if not requested by the model"))
          else if snapInfo.Name ≠ expectedName then
            some (.other ("cannot install " ++ kind ++ " " ++ snapInfo.Name.quote ++
              ", model assertion requests " ++ expectedName.quote))
          else none
        | .error err =>
          some (.other ("cannot find original " ++ kind ++ " snap: " ++ err.Error))

/-- The method `ensureSeedYaml`; the call `EnsureBefore(0)` only asks for an
earlier `Ensure` and changes nothing of the state kept here. -/
def DeviceManager.ensureSeedYaml (host : Host) (m : DeviceManager) :
    Option Err × DeviceManager :=
  let seeded : Except Err Bool :=
    match m.state.seeded with
    | .ok b => .ok b
    | .error .ErrNoState => .ok false
    | .error err => .error err
  match seeded with
  | .error err => (some err, m)
  | .ok seeded =>
    if seeded then (none, m)
    else if m.changeInFlight "seed" then (none, m)
    else
      match host.populateStateFromSeed m.state with
      | (.error err, st1) => (some err, { m with state := st1 })
      | (.ok tsAll, st1) =>
        if tsAll.length = 0 then (none, { m with state := st1 })
        else
          let c := st1.NewChangeWith "seed" "Initialize system state" tsAll.flatten
          (none, { m with state := c.2 })

/-- The method `ensureBootOk`. -/
def DeviceManager.ensureBootOk (env : Env) (host : Host) (m : DeviceManager) :
    Option Err × DeviceManager :=
  if env.OnClassic then (none, m)
  else
    let marked : Except Err DeviceManager :=
      if !m.bootOkRan then
        match host.FindBootloader with
        | .error err => .error (.other ("cannot mark boot successful: " ++ err))
        | .ok bootloader =>
          match host.MarkBootSuccessful bootloader with
          | some err => .error err
          | none => .ok { m with bootOkRan := true }
      else .ok m
    match marked with
    | .error err => (some err, m)
    | .ok m1 =>
      if !m1.bootRevisionsUpdated then
        match host.UpdateBootRevisions m1.state with
        | (some err, st1) => (some err, { m1 with state := st1 })
        | (none, st1) => (none, { m1 with state := st1, bootRevisionsUpdated := true })
      else (none, m1)

/-- The struct `ensureError`. -/
structure ensureError where
  errs : List Err
  deriving DecidableEq, Repr

/-- The method `Error` of `ensureError`. -/
def ensureError.Error (e : ensureError) : String :=
  match e.errs with
  | [err] => "devicemgr: " ++ err.Error
  | errs =>
    String.intercalate (String.singleton (Char.ofNat 10) ++ " - ")
      ("devicemgr:" :: errs.map Err.Error)

/-- The method `Ensure`, with the value `time.Now()` takes in
`ensureOperational` as an argument: the returned error and the manager after
the call. -/
def DeviceManager.Ensure (env : Env) (host : Host) (m : DeviceManager) (now : Time) :
    Option ensureError × DeviceManager :=
  let errs : List Err := []
  let r1 := m.ensureSeedYaml host
  let errs := match r1.1 with
    | some err => errs ++ [err]
    | none => errs
  let r2 := r1.2.ensureOperational now
  let errs := match r2.1 with
    | some err => errs ++ [err]
    | none => errs
  let r3 := r2.2.ensureBootOk env host
  let errs := match r3.1 with
    | some err => errs ++ [err]
    | none => errs
  let m4 := { r3.2 with state := host.runnerEnsure r3.2.state }
  if errs.length > 0 then (some ⟨errs⟩, m4) else (none, m4)

/-! ## Notions used by the properties -/

/-- The allowed attempts of a run of calls of `ensureOperationalShouldBackoff`
at the given times, in order: for each call that returned false, its time and
the backoff in force after it. -/
def DeviceManager.attempts (m : DeviceManager) : List Time → List (Time × Duration)
  | [] => []
  | now :: rest =>
    if (m.ensureOperationalShouldBackoff now).1 then
      DeviceManager.attempts (m.ensureOperationalShouldBackoff now).2 rest
    else
      (now, (m.ensureOperationalShouldBackoff now).2.becomeOperationalBackoff) ::
        DeviceManager.attempts (m.ensureOperationalShouldBackoff now).2 rest

/-- The doubling rule between an allowed attempt `p` and the next one `q`, each
a time with the backoff in force after it. -/
def doublingRule (p q : Time × Duration) : Prop :=
  max (q.1 - p.1) (5 * minute) ≥ q.2 / 2

instance (p q : Time × Duration) : Decidable (doublingRule p q) :=
  inferInstanceAs (Decidable (max (q.1 - p.1) (5 * minute) ≥ q.2 / 2))


/-- The rule that holds between an allowed attempt `p` and the next one `q`:
the backoff set by `p` has elapsed, and the doubling rule holds unless `q` made
the jump from 10 h 40 min to 24 h. -/
def elapsedRule (p q : Time × Duration) : Prop :=
  q.1 - p.1 ≥ p.2 ∧ (doublingRule p q ∨ (p.2 = 640 * minute ∧ q.2 = 24 * hour))

instance (p q : Time × Duration) : Decidable (elapsedRule p q) :=
  inferInstanceAs (Decidable
    (q.1 - p.1 ≥ p.2 ∧ (doublingRule p q ∨ (p.2 = 640 * minute ∧ q.2 = 24 * hour))))

/-- The backoffs an allowed attempt can leave: five minutes doubled up to seven
times, or 24 hours. -/
def attemptBackoff (b : Duration) : Prop :=
  b = 24 * hour ∨ ∃ k : Nat, k ≤ 7 ∧ b = 5 * minute * 2 ^ k

/-- The changes of a kind that are not ready. -/
def DeviceManager.nonReady (m : DeviceManager) (kind : String) : List Change :=
  m.state.changes.filter (fun chg => chg.Kind == kind && !chg.Status.Ready)

/-- At least one precondition of `ensureOperational` fails: the identity has a
serial, the brand or the model is empty, a `become-operational` change is in
flight, no gadget snap is installed, or the backoff has not expired. -/
def DeviceManager.preconditionFails (m : DeviceManager) (now : Time) : Prop :=
  (∃ device, auth.Device m.state = .ok device ∧
      (device.Serial ≠ "" ∨ device.Brand = "" ∨ device.Model = "")) ∨
    m.changeInFlight "become-operational" = true ∨
    m.state.gadget = .error .ErrNoState ∨
    (m.ensureOperationalShouldBackoff now).1 = true

/-- All preconditions of `ensureOperational` pass, with the identity and the
gadget that were read. -/
def DeviceManager.preconditionsPass (m : DeviceManager) (now : Time) (device : DeviceState)
    (gadgetInfo : snap.Info) : Prop :=
  auth.Device m.state = .ok device ∧ device.Serial = "" ∧ device.Brand ≠ "" ∧
    device.Model ≠ "" ∧ m.changeInFlight "become-operational" = false ∧
    m.state.gadget = .ok gadgetInfo ∧ (m.ensureOperationalShouldBackoff now).1 = false

/-- The lookups of the identity and of the assertion database fail, if at all,
only with not-found. -/
def State.failsOnlyNotFound (st : State) : Prop :=
  (∀ e, st.auth = .error e → e = .ErrNoState) ∧ (∀ e, st.db.fault = some e → e = .ErrNotFound)

/-- The message `retryBadStatus` extracts from a decoded server error: the
top-level one, else that of the first entry of the error list. -/
def serverError.firstMessage (srvErr : serverError) : String :=
  if srvErr.Message = "" then
    match srvErr.Errors with
    | some e :: _ => e.Message
    | _ => ""
  else srvErr.Message

/-- The tasks `ensureOperational` creates on a state for a gadget, as the code
builds them one by one: the hook task when the gadget declares the hook, the
key generation task and the serial request task. -/
def becomeOperationalTasks (st : State) (gadgetInfo : snap.Info) : List Task :=
  if gadgetInfo.Hooks.contains "prepare-device" then
    [⟨st.lastTaskId + 1, "run-hook", "Run prepare-device hook", .DoStatus, [], [],
        .error .ErrNoState, some ⟨gadgetInfo.Name, "prepare-device"⟩⟩,
     ⟨st.lastTaskId + 2, "generate-device-key", "Generate device key", .DoStatus,
        [st.lastTaskId + 1], [], .error .ErrNoState, none⟩,
     ⟨st.lastTaskId + 3, "request-serial", "Request device serial", .DoStatus,
        [st.lastTaskId + 2], [], .error .ErrNoState, none⟩]
  else
    [⟨st.lastTaskId + 1, "generate-device-key", "Generate device key", .DoStatus,
        [], [], .error .ErrNoState, none⟩,
     ⟨st.lastTaskId + 2, "request-serial", "Request device serial", .DoStatus,
        [st.lastTaskId + 1], [], .error .ErrNoState, none⟩]

/-- The request `submitSerialRequest` builds for a serial-request text: a POST
to the serial-request URL with the text as its body, the user agent, the
configured headers and the assertion media type. -/
def serialRequestPOST (env : Env) (cfg : serialRequestConfig) (serialRequest : String) :
    http.Request :=
  (cfg.applyHeaders
    ((⟨"POST", cfg.serialRequestURL, [], serialRequest⟩ : http.Request).SetHeader
      "User-Agent" env.UserAgent)).SetHeader "Content-Type" asserts.MediaType

/-- What `t.Get("serial-setup", _)` leaves in the variable `serialSup` of
`getSerial` when it does not fail: the stored value, or the zero value when
nothing is stored. -/
def Task.loadsSerialSetup (t : Task) (serialSup : Devicestate.serialSetup) : Prop :=
  t.serialSetup = .ok serialSup ∨ (t.serialSetup = .error .ErrNoState ∧ serialSup = ⟨"", ""⟩)

/-- The serial-request text `getSerial` submits, with the task and the log of
calls at the time: the stored text when there is one, else the text that
`prepareSerialRequest` returned. -/
def submitsRequest (env : Env) (t : Task) (privKey : asserts.PrivateKey) (device : DeviceState)
    (cfg : serialRequestConfig) (calls : List NetCall) (serialSup : serialSetup)
    (serialRequest : String) (t1 : Task) (calls1 : List NetCall) : Prop :=
  (serialSup.SerialRequest ≠ "" ∧ serialRequest = serialSup.SerialRequest ∧ t1 = t ∧
      calls1 = calls) ∨
    (serialSup.SerialRequest = "" ∧
      prepareSerialRequest env t privKey device cfg calls = .ok (.ok serialRequest, t1, calls1))

/-- The text of the error `getSerial` returns for a serial assertion that does
not match the identity. -/
def mismatchMessage (serial : asserts.Serial) (device : DeviceState) (keyID : String) : String :=
  "obtained serial assertion does not match provided device " ++
    "identity information (brand, model, key id): " ++ serial.BrandID ++ " / " ++
    serial.Model ++ " / " ++ serial.DeviceKeyID ++ " != " ++ device.Brand ++ " / " ++
    device.Model ++ " / " ++ keyID

/-- The part of `getSerial` that follows the call of `submitSerialRequest`, as
a function of what that call returned and of the value of `serialSup` at the
time: keep the request on a poll, check the serial against the identity and
save it. -/
def getSerialAfterSubmit (env : Env) (privKey : asserts.PrivateKey) (device : DeviceState)
    (serialSup : serialSetup)
    (submitted : Except Panic (Except Err asserts.Serial × Task × List NetCall)) :
    Except Panic (Except Err asserts.Serial × Task × List NetCall) :=
  match submitted with
  | .error p => .error p
  | .ok (.error .errPoll, t2, calls2) =>
    .ok (.error .errPoll, t2.SetSerialSetup serialSup, calls2)
  | .ok (.error err, t2, calls2) => .ok (.error err, t2, calls2)
  | .ok (.ok serial, t2, calls2) =>
    if serial.BrandID ≠ device.Brand ∨ serial.Model ≠ device.Model ∨
        serial.DeviceKeyID ≠ privKey.ID then
      .ok (.error (.other (mismatchMessage serial device privKey.ID)), t2, calls2)
    else
      let serialSup := { serialSup with Serial := env.EncodeSerial serial }
      let t3 := t2.SetSerialSetup serialSup
      if env.repeatRequestSerial = "after-got-serial" then
        .ok (.error (.Retry 0), t3, calls2)
      else .ok (.ok serial, t3, calls2)

/-- The invariant of the identity: a serial that is not empty comes with a key
ID that is not empty and with a serial assertion of the database for the
brand, the model and the serial of the identity. -/
def identityBacked (m : DeviceManager) : Prop :=
  ∀ d, auth.Device m.state = .ok d → d.Serial ≠ "" →
    d.KeyID ≠ "" ∧
      ∃ a ∈ asserts.serials m.state.db.assertions,
        a.BrandID = d.Brand ∧ a.Model = d.Model ∧ a.Serial = d.Serial

/-- The invariant of the `serial-setup` of a task: a saved serial that is not
empty is the encoding of a serial assertion for the brand and the model of the
identity. -/
def scratchBacked (encode : asserts.Serial → String) (m : DeviceManager) (t : Task) : Prop :=
  ∀ d sup, auth.Device m.state = .ok d → t.serialSetup = .ok sup → sup.Serial ≠ "" →
    ∃ s, sup.Serial = encode s ∧ s.BrandID = d.Brand ∧ s.Model = d.Model

/-- The managers and tasks reached from a manager and a task by runs of
`doRequestSerial` that return (with an error, a retry or nil), each run with
collaborators and a log of calls of its own, all of them with the same
encoding and decoding of assertions. -/
inductive RequestSerialRuns (encode : asserts.Serial → String)
    (decode : String → Except String asserts.Assertion) (m0 : DeviceManager) (t0 : Task) :
    DeviceManager → Task → Prop where
  | start : RequestSerialRuns encode decode m0 t0 m0 t0
  | run (env : Env) (m m1 : DeviceManager) (t t1 : Task) (calls calls1 : List NetCall)
      (r : Option Err) :
      RequestSerialRuns encode decode m0 t0 m t →
      env.EncodeSerial = encode → env.Decode = decode →
      m.doRequestSerial env t calls = .ok (r, m1, t1, calls1) →
      RequestSerialRuns encode decode m0 t0 m1 t1

/-- The manager after calls of `ensureOperationalShouldBackoff` at the given
times, in order, whatever each call returned. -/
def DeviceManager.afterCalls (m : DeviceManager) : List Time → DeviceManager
  | [] => m
  | now :: rest => DeviceManager.afterCalls (m.ensureOperationalShouldBackoff now).2 rest

/-! ## Sample values -/

/-- A seeded state of brand `canonical`, model `pc`, with the gadget `pc`
installed, no key, no serial and an empty assertion database. -/
def sampleState : State :=
  { auth := .ok ⟨"canonical", "pc", "", ""⟩
    seeded := .ok true
    attemptsCache := none
    lastTaskId := 0
    lastChangeId := 0
    changes := []
    db := ⟨[], none⟩
    gadget := .ok ⟨"pc", "", .TypeGadget, ["prepare-device"]⟩
    kernel := .error .ErrNoState
    config := [] }

/-- A manager on the sample state that never attempted to become operational. -/
def sampleManager : DeviceManager := Manager sampleState []

/-- A manager whose last attempt was at one second, with a backoff of five minutes. -/
def attemptedManager : DeviceManager :=
  { sampleManager with lastBecomeOperationalAttempt := 1 * second,
                       becomeOperationalBackoff := 5 * minute }

/-- The manager after a first full attempt at one second: a `become-operational`
change is in flight. -/
def inFlightManager : DeviceManager := (sampleManager.ensureOperational (1 * second)).2

/-- The manager that attempted at one second, on a state in which the lookup
of the gadget snap fails with an error other than not-found. -/
def gadgetFaultManager : DeviceManager :=
  { attemptedManager with
    state := { sampleState with gadget := .error (.other "cannot read snap state") } }

/-- Collaborators for the samples: the network is unreachable, a body reading
`rejected` decodes to a server error with the message `device rejected`, and
the database accepts every assertion. -/
def sampleEnv : Env :=
  { Do := fun _ _ => .error "network unreachable"
    validRequestURL := fun _ => true
    UserAgent := "snapd"
    decodeServerError := fun body =>
      if body = "rejected" then some (.mk "device rejected" []) else none
    decodeRequestID := fun body => .ok ⟨body⟩
    Decode := fun _ => .error "unexpected EOF"
    DecoderDecode := fun _ => .error "unexpected EOF"
    EncodeSerial := fun serial => serial.Serial
    EncodePublicKey := fun privKey => .ok privKey.ID
    SignSerialRequest := fun _ body _ => .ok body
    urlParse := fun u => .ok u
    urlResolve := fun base ref => .ok (base ++ ref)
    storeAccountKey := fun _ => .error .ErrNotFound
    checkAdd := fun _ _ => none
    useStaging := false
    repeatRequestSerial := ""
    OnClassic := false
    Series := "16" }

/-- A `request-serial` task that is running, with no `serial-setup` yet. -/
def sampleTask : Task :=
  ⟨3, "request-serial", "Request device serial", .DoingStatus, [2], [], .error .ErrNoState, none⟩

/-- A response with status 400 and a JSON error body. -/
def rejectedResponse : http.Response := ⟨400, "application/json", "rejected"⟩

/-- A seeded classic state: no brand and no model are set. -/
def classicState : State := { sampleState with auth := .ok ⟨"", "", "", ""⟩ }

/-- A state in which `seeded` is not set and three attempts were counted. -/
def unseededState : State :=
  { sampleState with seeded := .error .ErrNoState, attemptsCache := some 3 }

/-- The serial assertion `42` of the sample brand and model for the key `key-id`. -/
def sampleSerial : asserts.Serial := ⟨"canonical", "pc", "42", "key-id", "sign-key"⟩

/-- A manager that holds the device key `key-id`, on a state whose assertion
database already holds the serial assertion for that key while the identity
has no serial yet. -/
def storedSerialManager : DeviceManager :=
  Manager { sampleState with auth := .ok ⟨"canonical", "pc", "", "key-id"⟩,
                             db := ⟨[.serial sampleSerial], none⟩ } [⟨"key-id"⟩]

/-- The manager `storedSerialManager` after the serial `42` of the database was
adopted as the serial of the identity. -/
def adoptedSerialManager : DeviceManager :=
  { storedSerialManager with
    state := { storedSerialManager.state with
               auth := .ok ⟨"canonical", "pc", "42", "key-id"⟩ } }

/-- The same manager on a state from which the gadget snap is missing. -/
def storedSerialNoGadget : DeviceManager :=
  { storedSerialManager with
    state := { storedSerialManager.state with gadget := .error .ErrNoState } }

/-- A manager that holds the device key `key-id`, on a state with no serial in
the identity and none in the assertion database. -/
def keyedManager : DeviceManager :=
  Manager { sampleState with auth := .ok ⟨"canonical", "pc", "", "key-id"⟩ } [⟨"key-id"⟩]

/-- Collaborators for which the device service answers every call with status
202 and an empty body. -/
def acceptingEnv : Env :=
  { sampleEnv with Do := fun _ _ => .ok ⟨202, "", ""⟩ }

/-- A running `request-serial` task whose `serial-setup` holds a serial-request
and no serial. -/
def polledTask : Task :=
  { sampleTask with serialSetup := .ok ⟨"signed-request", ""⟩ }

/-- The configuration `getSerialRequestConfig` returns for the sample
collaborators on a state whose gadget sets no device service. -/
def sampleConfig : serialRequestConfig :=
  ⟨requestIDURL sampleEnv, serialRequestURL sampleEnv, [], "", ""⟩

/-- Collaborators for which `http.NewRequest` refuses the URL `:` (it has no
protocol scheme) and the device service would answer 202. -/
def refusingEnv : Env :=
  { acceptingEnv with validRequestURL := fun u => u != ":" }

/-- A configuration whose serial-request URL is `:`. -/
def refusedConfig : serialRequestConfig :=
  ⟨requestIDURL sampleEnv, ":", [], "", ""⟩

/-- A serial assertion of the sample brand and model for another device key. -/
def foreignSerial : asserts.Serial := ⟨"canonical", "pc", "42", "other-key", "sign-key"⟩

/-- Collaborators for which the device service answers every call with status
200 and a body that decodes to the serial assertion for another key. -/
def mismatchEnv : Env :=
  { sampleEnv with Do := fun _ _ => .ok ⟨200, "", "serial"⟩,
                   DecoderDecode := fun _ => .ok (.serial foreignSerial) }

/-- Collaborators for which every stored text decodes to the sample serial
assertion. -/
def savedEnv : Env :=
  { sampleEnv with Decode := fun _ => .ok (.serial sampleSerial) }

/-- A running `request-serial` task whose `serial-setup` holds a serial-request
and a received serial. -/
def savedTask : Task :=
  { sampleTask with serialSetup := .ok ⟨"signed-request", "encoded-serial"⟩ }

/-- Collaborators for which the sample serial was received and saved, the store
delivers its signing key, and the assertion database refuses the serial
assertion with an unaccepted-update error. -/
def crossUpdateEnv : Env :=
  { savedEnv with
    storeAccountKey := fun keyID => .ok (.accountKey keyID)
    checkAdd := fun _ a =>
      match a with
      | .serial _ => some (.UnacceptedUpdate "cross-update not accepted")
      | _ => none }

/-- Further collaborators for the samples: the generator yields the key
`generated-key`, the store takes every key, the seed loader has nothing to
load, the boot loader is found and marks the boot, and the task runner leaves
the state as it is. -/
def sampleHost : Host :=
  { GenerateKey := fun _ _ => .ok ⟨⟨"generated-key"⟩, by decide⟩
    Put := fun _ _ => none
    SnapDeclarationPublisher := fun _ _ => .ok "canonical"
    populateStateFromSeed := fun st => (.ok [], st)
    FindBootloader := .ok "grub"
    MarkBootSuccessful := fun _ => none
    UpdateBootRevisions := fun st => (none, st)
    runnerEnsure := fun st => st }

/-- A `generate-device-key` task that is running. -/
def keyTask : Task :=
  ⟨2, "generate-device-key", "Generate device key", .DoingStatus, [1], [], .error .ErrNoState,
    none⟩

/-- A kernel snap. -/
def kernelSnap : snap.Info := ⟨"pc-kernel", "", .TypeKernel, []⟩

/-- Collaborators of a classic system. -/
def classicEnv : Env := { sampleEnv with OnClassic := true }

/-- A state whose device identity cannot be read. -/
def unreadableState : State :=
  { sampleState with auth := .error (.other "cannot unmarshal state entry") }

/-- A state of the sample brand and model with serial `42`, whose assertion
database holds the model assertion and the serial assertion. -/
def operationalState : State :=
  { sampleState with
    auth := .ok ⟨"canonical", "pc", "42", "key-id"⟩
    db := ⟨[.model ⟨"16", "canonical", "pc", "pc", "pc-kernel"⟩, .serial sampleSerial], none⟩ }

/-- A host whose boot loader cannot be found. -/
def noBootloaderHost : Host := { sampleHost with FindBootloader := .error "no bootloader" }

/-- A gadget snap named `pc`, unasserted. -/
def gadgetSnap : snap.Info := ⟨"pc", "", .TypeGadget, []⟩

/-- A kernel snap that the sample model does not name. -/
def otherKernelSnap : snap.Info := ⟨"other-kernel", "", .TypeKernel, []⟩

/-- An application snap with a snap ID. -/
def appSnap : snap.Info := ⟨"hello", "hello-snap-id", .TypeApp, []⟩

/-- The operational state before any gadget was installed. -/
def noGadgetState : State := { operationalState with gadget := .error .ErrNoState }

/-- The JSON body whose `error_list` holds the one entry `null`. -/
def nullEntryBody : String := "\x7b\"error_list\":[null]\x7d"

/-- Collaborators whose JSON decoder reads `nullEntryBody` as Go does: no
message, and an error list whose one entry is a nil pointer. -/
def nullEntryEnv : Env :=
  { sampleEnv with
    decodeServerError := fun body =>
      if body = nullEntryBody then some (.mk "" [none]) else none }

/-- A response with status 400 and the JSON body `nullEntryBody`. -/
def nullEntryResponse : http.Response := ⟨400, "application/json", nullEntryBody⟩

/-- Collaborators for which the first call is answered 200 with the request-id
`request-1`, every later call fails in transport, and signing yields the text
`signed-request`. -/
def droppingEnv : Env :=
  { sampleEnv with
    Do := fun n _ => if n = 0 then .ok ⟨200, "application/json", "request-1"⟩
      else .error "connection reset"
    SignSerialRequest := fun _ _ _ => .ok "signed-request" }

/-- The manager after a first attempt made at the zero time: the backoff is
five minutes and the last attempt still reads as the zero time. -/
def zeroTimeManager : DeviceManager := (sampleManager.ensureOperationalShouldBackoff 0).2

/-- Times of calls, from one second on, each as late as the backoff set by the
one before: 5, 10, 20, 40, 80, 160, 320 and 640 minutes apart. -/
def jumpTimes : List Time :=
  [1 * second, 1 * second + 5 * minute, 1 * second + 15 * minute, 1 * second + 35 * minute,
   1 * second + 75 * minute, 1 * second + 155 * minute, 1 * second + 315 * minute,
   1 * second + 635 * minute, 1 * second + 1275 * minute]

/-! ## The backoff of `ensureOperational` -/

theorem wrapInt64_exact (x : Int) (h1 : -(2 ^ 63) ≤ x) (h2 : x < 2 ^ 63) : wrapInt64 x = x := by
  show (x + 2 ^ 63) % 2 ^ 64 - 2 ^ 63 = x
  omega

theorem Duration.mul_two_exact (d : Int) (h1 : -(2 ^ 62) ≤ d) (h2 : d < 2 ^ 62) :
    Duration.mul d 2 = 2 * d := by
  show (d * 2 + 2 ^ 63) % 2 ^ 64 - 2 ^ 63 = 2 * d
  omega

theorem shouldBackoff_fst (m : DeviceManager) (now : Time) :
    (m.ensureOperationalShouldBackoff now).1 = true ↔
      (m.lastBecomeOperationalAttempt ≠ 0 ∧
        m.lastBecomeOperationalAttempt + m.becomeOperationalBackoff > now) := by
  unfold DeviceManager.ensureOperationalShouldBackoff Time.IsZero Time.After Time.Add
  split <;> simp_all

theorem shouldBackoff_snd_of_skip (m : DeviceManager) (now : Time)
    (h : (m.ensureOperationalShouldBackoff now).1 = true) :
    (m.ensureOperationalShouldBackoff now).2 = m := by
  unfold DeviceManager.ensureOperationalShouldBackoff at h ⊢
  split <;> simp_all

theorem shouldBackoff_last_of_allowed (m : DeviceManager) (now : Time)
    (h : (m.ensureOperationalShouldBackoff now).1 = false) :
    (m.ensureOperationalShouldBackoff now).2.lastBecomeOperationalAttempt = now := by
  unfold DeviceManager.ensureOperationalShouldBackoff at h ⊢
  split <;> simp_all

theorem shouldBackoff_backoff_of_allowed (m : DeviceManager) (now : Time)
    (h : (m.ensureOperationalShouldBackoff now).1 = false) :
    (m.ensureOperationalShouldBackoff now).2.becomeOperationalBackoff =
      if m.becomeOperationalBackoff = 0 then 5 * minute
      else if Duration.mul m.becomeOperationalBackoff 2 > 12 * hour then 24 * hour
      else Duration.mul m.becomeOperationalBackoff 2 := by
  unfold DeviceManager.ensureOperationalShouldBackoff at h ⊢
  split
  · simp_all
  · by_cases hb : m.becomeOperationalBackoff = 0
    · simp [hb]
    · simp only [hb, if_false]

/-- C1: whenever `ensureOperationalShouldBackoff now` returns false, the last
attempt becomes `now`; a zero backoff becomes five minutes; a non-zero backoff
becomes its double when the double is at most 12 hours and 24 hours when the
double exceeds 12 hours. The double is the Go product `backoff * 2`, which is
the exact double of every backoff from `-2^62` to below `2^62` nanoseconds. -/
theorem ensureOperationalShouldBackoff_allowed (m : DeviceManager) (now : Time)
    (h : (m.ensureOperationalShouldBackoff now).1 = false) :
    (m.ensureOperationalShouldBackoff now).2.lastBecomeOperationalAttempt = now ∧
    (m.becomeOperationalBackoff = 0 →
      (m.ensureOperationalShouldBackoff now).2.becomeOperationalBackoff = 5 * minute) ∧
    (m.becomeOperationalBackoff ≠ 0 → Duration.mul m.becomeOperationalBackoff 2 ≤ 12 * hour →
      (m.ensureOperationalShouldBackoff now).2.becomeOperationalBackoff =
        Duration.mul m.becomeOperationalBackoff 2) ∧
    (m.becomeOperationalBackoff ≠ 0 → Duration.mul m.becomeOperationalBackoff 2 > 12 * hour →
      (m.ensureOperationalShouldBackoff now).2.becomeOperationalBackoff = 24 * hour) ∧
    (-(2 ^ 62) ≤ m.becomeOperationalBackoff → m.becomeOperationalBackoff < 2 ^ 62 →
      Duration.mul m.becomeOperationalBackoff 2 = 2 * m.becomeOperationalBackoff) := by
  refine ⟨shouldBackoff_last_of_allowed m now h, ?_, ?_, ?_, Duration.mul_two_exact _⟩
  · intro hb
    rw [shouldBackoff_backoff_of_allowed m now h, if_pos hb]
  · intro hb hle
    rw [shouldBackoff_backoff_of_allowed m now h, if_neg hb, if_neg (not_lt.mpr hle)]
  · intro hb hgt
    rw [shouldBackoff_backoff_of_allowed m now h, if_neg hb, if_pos hgt]

/-- Witness of C1: the manager that attempted at one second with a backoff of
five minutes is allowed a new attempt at six minutes, and its backoff doubles
to ten minutes. -/
theorem ensureOperationalShouldBackoff_allowed_witness :
    (attemptedManager.ensureOperationalShouldBackoff (6 * minute)).1 = false ∧
    (attemptedManager.ensureOperationalShouldBackoff (6 * minute)).2.lastBecomeOperationalAttempt
      = 6 * minute ∧
    (attemptedManager.ensureOperationalShouldBackoff (6 * minute)).2.becomeOperationalBackoff
      = 10 * minute :=
  ⟨by decide,
   (ensureOperationalShouldBackoff_allowed attemptedManager (6 * minute) (by decide)).1,
   ((ensureOperationalShouldBackoff_allowed attemptedManager (6 * minute) (by decide)).2.2.1
      (by decide) (by decide)).trans (by decide)⟩

/-- Counterexample to C2 as stated: after a first attempt made at the zero
time the last attempt is the zero time and the backoff five minutes, so
`lastAttemptAt + currentBackoff > now` holds at one minute, yet the call at one
minute does not skip. -/
theorem ensureOperationalShouldBackoff_formula_counterexample :
    zeroTimeManager.lastBecomeOperationalAttempt = 0 ∧
    zeroTimeManager.becomeOperationalBackoff = 5 * minute ∧
    ¬ ((zeroTimeManager.ensureOperationalShouldBackoff (1 * minute)).1 = true ↔
        zeroTimeManager.lastBecomeOperationalAttempt + zeroTimeManager.becomeOperationalBackoff
          > 1 * minute) := by
  decide

/-- C2, amended: `ensureOperationalShouldBackoff now` returns true exactly when
the last attempt is not the zero time and `lastAttemptAt + currentBackoff > now`;
a manager that never attempted never skips; and after an attempt at one second
with a backoff of five minutes, a call at two minutes skips and a call at six
minutes does not. -/
theorem ensureOperationalShouldBackoff_skips_iff (m : DeviceManager) (now : Time) :
    ((m.ensureOperationalShouldBackoff now).1 = true ↔
      (m.lastBecomeOperationalAttempt ≠ 0 ∧
        m.lastBecomeOperationalAttempt + m.becomeOperationalBackoff > now)) ∧
    (m.lastBecomeOperationalAttempt = 0 → m.becomeOperationalBackoff = 0 →
      (m.ensureOperationalShouldBackoff now).1 = false) ∧
    (m.lastBecomeOperationalAttempt = 1 * second → m.becomeOperationalBackoff = 5 * minute →
      (m.ensureOperationalShouldBackoff (2 * minute)).1 = true ∧
      (m.ensureOperationalShouldBackoff (6 * minute)).1 = false) := by
  refine ⟨shouldBackoff_fst m now, ?_, ?_⟩
  · intro h0 _
    have h := shouldBackoff_fst m now
    cases hr : (m.ensureOperationalShouldBackoff now).1
    · rfl
    · exact absurd h0 (h.mp hr).1
  · intro hl hb
    constructor
    · rw [shouldBackoff_fst, hl, hb]
      decide
    · have h := shouldBackoff_fst m (6 * minute)
      cases hr : (m.ensureOperationalShouldBackoff (6 * minute)).1
      · rfl
      · have h2 := (h.mp hr).2
        rw [hl, hb] at h2
        exact absurd h2 (by decide)

/-- Witness of C2, amended: the manager that attempted at one second with a
backoff of five minutes skips at two minutes and not at six. -/
theorem ensureOperationalShouldBackoff_skips_iff_witness :
    (attemptedManager.ensureOperationalShouldBackoff (2 * minute)).1 = true ∧
    (attemptedManager.ensureOperationalShouldBackoff (6 * minute)).1 = false :=
  (ensureOperationalShouldBackoff_skips_iff attemptedManager 0).2.2 (by decide) (by decide)

theorem attemptBackoff_cases (b : Duration) (h : attemptBackoff b) :
    b = 5 * minute ∨ b = 10 * minute ∨ b = 20 * minute ∨ b = 40 * minute ∨ b = 80 * minute ∨
      b = 160 * minute ∨ b = 320 * minute ∨ b = 640 * minute ∨ b = 24 * hour := by
  rcases h with h | ⟨k, hk, h⟩
  · simp [h]
  · interval_cases k <;> simp [h, minute, second]

theorem attemptBackoff_step (b : Duration) (h : attemptBackoff b) :
    (Duration.mul b 2 ≤ 12 * hour ∧ Duration.mul b 2 = 2 * b ∧ attemptBackoff (2 * b)) ∨
    (Duration.mul b 2 > 12 * hour ∧ (b = 640 * minute ∨ b = 24 * hour)) := by
  rcases attemptBackoff_cases b h with h | h | h | h | h | h | h | h | h
  · exact .inl ⟨by rw [h]; decide, by rw [h]; decide, .inr ⟨1, by decide, by rw [h]; decide⟩⟩
  · exact .inl ⟨by rw [h]; decide, by rw [h]; decide, .inr ⟨2, by decide, by rw [h]; decide⟩⟩
  · exact .inl ⟨by rw [h]; decide, by rw [h]; decide, .inr ⟨3, by decide, by rw [h]; decide⟩⟩
  · exact .inl ⟨by rw [h]; decide, by rw [h]; decide, .inr ⟨4, by decide, by rw [h]; decide⟩⟩
  · exact .inl ⟨by rw [h]; decide, by rw [h]; decide, .inr ⟨5, by decide, by rw [h]; decide⟩⟩
  · exact .inl ⟨by rw [h]; decide, by rw [h]; decide, .inr ⟨6, by decide, by rw [h]; decide⟩⟩
  · exact .inl ⟨by rw [h]; decide, by rw [h]; decide, .inr ⟨7, by decide, by rw [h]; decide⟩⟩
  · exact .inr ⟨by rw [h]; decide, .inl h⟩
  · exact .inr ⟨by rw [h]; decide, .inr h⟩

theorem attemptBackoff_ne_zero (b : Duration) (h : attemptBackoff b) : b ≠ 0 := by
  rcases attemptBackoff_cases b h with h | h | h | h | h | h | h | h | h <;> rw [h] <;> decide

theorem attempts_cons_skip (m : DeviceManager) (now : Time) (rest : List Time)
    (h : (m.ensureOperationalShouldBackoff now).1 = true) :
    m.attempts (now :: rest) = m.attempts rest := by
  rw [DeviceManager.attempts, if_pos h, shouldBackoff_snd_of_skip m now h]

theorem attempts_cons_allowed (m : DeviceManager) (now : Time) (rest : List Time)
    (h : (m.ensureOperationalShouldBackoff now).1 = false) :
    m.attempts (now :: rest) =
      (now, (m.ensureOperationalShouldBackoff now).2.becomeOperationalBackoff) ::
        (m.ensureOperationalShouldBackoff now).2.attempts rest := by
  rw [DeviceManager.attempts, if_neg (by simp [h])]

theorem attempts_chain (ts : List Time) :
    ∀ m : DeviceManager, m.lastBecomeOperationalAttempt ≠ 0 →
      attemptBackoff m.becomeOperationalBackoff → (∀ t ∈ ts, t ≠ 0) →
      List.Chain elapsedRule (m.lastBecomeOperationalAttempt, m.becomeOperationalBackoff)
        (m.attempts ts) := by
  induction ts with
  | nil => intro m _ _ _; exact List.Chain.nil
  | cons now rest ih =>
    intro m hl hb hts
    have hrest : ∀ t ∈ rest, t ≠ 0 := fun t ht => hts t (List.mem_cons_of_mem _ ht)
    cases hr : (m.ensureOperationalShouldBackoff now).1
    · rw [attempts_cons_allowed m now rest hr]
      have hlast := shouldBackoff_last_of_allowed m now hr
      have hback := shouldBackoff_backoff_of_allowed m now hr
      have hnow : now ≠ 0 := hts now (List.mem_cons_self _ _)
      have helapsed : now - m.lastBecomeOperationalAttempt ≥ m.becomeOperationalBackoff := by
        have hnot : ¬ (m.lastBecomeOperationalAttempt ≠ 0 ∧
            m.lastBecomeOperationalAttempt + m.becomeOperationalBackoff > now) := by
          intro hc
          rw [(shouldBackoff_fst m now).mpr hc] at hr
          exact Bool.noConfusion hr
        have : ¬ (m.lastBecomeOperationalAttempt + m.becomeOperationalBackoff > now) :=
          fun hc => hnot ⟨hl, hc⟩
        exact le_sub_iff_add_le'.mpr (not_lt.mp this)
      rw [if_neg (attemptBackoff_ne_zero _ hb)] at hback
      rcases attemptBackoff_step _ hb with ⟨hle, hex, hnext⟩ | ⟨hgt, hwhich⟩
      · rw [if_neg (not_lt.mpr hle), hex] at hback
        refine List.Chain.cons ⟨helapsed, .inl ?_⟩ ?_
        · show max (now - m.lastBecomeOperationalAttempt) (5 * minute) ≥
            (m.ensureOperationalShouldBackoff now).2.becomeOperationalBackoff / 2
          rw [hback]
          have : (2 * m.becomeOperationalBackoff) / 2 = m.becomeOperationalBackoff :=
            Int.mul_ediv_cancel_left _ (by decide)
          rw [this]
          exact le_trans helapsed (le_max_left _ _)
        · have h := ih (m.ensureOperationalShouldBackoff now).2 (by rw [hlast]; exact hnow)
            (by rw [hback]; exact hnext) hrest
          rw [hlast] at h
          exact h
      · rw [if_pos hgt] at hback
        refine List.Chain.cons ⟨helapsed, ?_⟩ ?_
        · rcases hwhich with h640 | h24
          · exact .inr ⟨h640, hback⟩
          · refine .inl ?_
            show max (now - m.lastBecomeOperationalAttempt) (5 * minute) ≥
              (m.ensureOperationalShouldBackoff now).2.becomeOperationalBackoff / 2
            rw [hback]
            rw [h24] at helapsed
            have h12 : (24 * hour : Int) / 2 ≤ 24 * hour := by decide
            exact le_trans (le_trans h12 helapsed) (le_max_left _ _)
        · have h := ih (m.ensureOperationalShouldBackoff now).2 (by rw [hlast]; exact hnow)
            (by rw [hback]; exact .inl rfl) hrest
          rw [hlast] at h
          exact h
    · rw [attempts_cons_skip m now rest hr]
      exact ih m hl hb hrest

/-- Counterexample to C3 as stated: on a fresh manager, nine calls at
non-decreasing times are all allowed, the last two 640 minutes apart, and the
last leaves a backoff of 24 hours, half of which is 720 minutes; so the doubling
rule fails between the last two attempts. -/
theorem doubling_rule_counterexample :
    List.Sorted (fun a b : Time => a ≤ b) jumpTimes ∧
    sampleManager.attempts jumpTimes =
      [(1 * second, 5 * minute), (1 * second + 5 * minute, 10 * minute),
       (1 * second + 15 * minute, 20 * minute), (1 * second + 35 * minute, 40 * minute),
       (1 * second + 75 * minute, 80 * minute), (1 * second + 155 * minute, 160 * minute),
       (1 * second + 315 * minute, 320 * minute), (1 * second + 635 * minute, 640 * minute),
       (1 * second + 1275 * minute, 24 * hour)] ∧
    ¬ doublingRule (1 * second + 635 * minute, 640 * minute)
        (1 * second + 1275 * minute, 24 * hour) ∧
    ¬ List.Chain' doublingRule (sampleManager.attempts jumpTimes) := by
  have hlist : sampleManager.attempts jumpTimes =
      [(1 * second, 5 * minute), (1 * second + 5 * minute, 10 * minute),
       (1 * second + 15 * minute, 20 * minute), (1 * second + 35 * minute, 40 * minute),
       (1 * second + 75 * minute, 80 * minute), (1 * second + 155 * minute, 160 * minute),
       (1 * second + 315 * minute, 320 * minute), (1 * second + 635 * minute, 640 * minute),
       (1 * second + 1275 * minute, 24 * hour)] := by decide
  have hrule : ¬ doublingRule (1 * second + 635 * minute, 640 * minute)
      (1 * second + 1275 * minute, 24 * hour) := by decide
  refine ⟨by decide, hlist, hrule, ?_⟩
  rw [hlist]
  intro hc
  simp only [List.chain'_cons] at hc
  exact hrule hc.2.2.2.2.2.2.2.1

/-- C3, amended: for every run of calls of `ensureOperationalShouldBackoff` on
a fresh manager at non-decreasing times other than the zero time, and every two
successive allowed calls at `t1` then `t2`: `t2 - t1` is at least the backoff in
force after the call at `t1`, and `max(t2 - t1, 5 min) ≥ b / 2` for the backoff
`b` in force after the call at `t2`, except when that call made the jump from
10 h 40 min to 24 h. -/
theorem successive_attempts_elapsed (m : DeviceManager) (ts : List Time)
    (hlast : m.lastBecomeOperationalAttempt = 0) (hback : m.becomeOperationalBackoff = 0)
    (_hsorted : List.Sorted (fun a b : Time => a ≤ b) ts) (hts : ∀ t ∈ ts, t ≠ 0) :
    List.Chain' elapsedRule (m.attempts ts) := by
  cases ts with
  | nil => exact List.chain'_nil
  | cons now rest =>
    have hr : (m.ensureOperationalShouldBackoff now).1 = false := by
      cases hc : (m.ensureOperationalShouldBackoff now).1
      · rfl
      · exact absurd hlast ((shouldBackoff_fst m now).mp hc).1
    rw [attempts_cons_allowed m now rest hr]
    have h1 := shouldBackoff_last_of_allowed m now hr
    have h2 := shouldBackoff_backoff_of_allowed m now hr
    rw [if_pos hback] at h2
    have h := attempts_chain rest (m.ensureOperationalShouldBackoff now).2
      (by rw [h1]; exact hts now (List.mem_cons_self _ _))
      (by rw [h2]; exact .inr ⟨0, by decide, by decide⟩)
      (fun t ht => hts t (List.mem_cons_of_mem _ ht))
    rw [h1] at h
    exact h

/-- Witness of C3, amended: the nine calls of the counterexample obey the
amended rule. -/
theorem successive_attempts_elapsed_witness :
    List.Chain' elapsedRule (sampleManager.attempts jumpTimes) :=
  successive_attempts_elapsed sampleManager jumpTimes (by decide) (by decide) (by decide)
    (by decide)

/-! ## `ensureOperational` -/

theorem ensureOperational_pass (m : DeviceManager) (now : Time) (device : DeviceState)
    (gadgetInfo : snap.Info) (h : m.preconditionsPass now device gadgetInfo) :
    m.ensureOperational now =
      (none,
       { (m.ensureOperationalShouldBackoff now).2 with
         state :=
           { m.state with
             attemptsCache := some (wrapInt64 (ensureOperationalAttempts m.state + 1))
             lastTaskId := m.state.lastTaskId + (becomeOperationalTasks m.state gadgetInfo).length
             lastChangeId := m.state.lastChangeId + 1
             changes := m.state.changes ++
               [⟨m.state.lastChangeId + 1, "become-operational", "Initialize device", .DoStatus,
                 becomeOperationalTasks m.state gadgetInfo⟩] } }) := by
  obtain ⟨hdev, hserial, hbrand, hmodel, hflight, hgadget, hback⟩ := h
  have hstate : (m.ensureOperationalShouldBackoff now).2.state = m.state := by
    unfold DeviceManager.ensureOperationalShouldBackoff
    split
    · rfl
    · split <;> rfl
  unfold DeviceManager.ensureOperational
  simp only [hdev, hserial, hbrand, hmodel, hflight, hgadget, hback]
  by_cases hh : "prepare-device" ∈ gadgetInfo.Hooks
  · simp [hh, hstate, becomeOperationalTasks, hookstate.HookTask, State.NewTask,
      State.NewChangeWith, Task.WaitFor, incEnsureOperationalAttempts,
      ensureOperationalAttempts, hgadget]
  · simp [hh, hstate, becomeOperationalTasks, hookstate.HookTask, State.NewTask,
      State.NewChangeWith, Task.WaitFor, incEnsureOperationalAttempts,
      ensureOperationalAttempts, hgadget]

theorem ensureOperational_cases (m : DeviceManager) (now : Time) :
    (m.ensureOperational now).2 = m ∨
      ∃ device gadgetInfo, m.preconditionsPass now device gadgetInfo := by
  unfold DeviceManager.preconditionsPass
  by_cases hskip : (m.ensureOperationalShouldBackoff now).1 = true
  · left
    have hm := shouldBackoff_snd_of_skip m now hskip
    unfold DeviceManager.ensureOperational
    split
    · rfl
    · split
      · rfl
      · split
        · rfl
        · split
          · rfl
          · split
            · rfl
            · rfl
            · simp [hskip, hm]
  · have hback : (m.ensureOperationalShouldBackoff now).1 = false := by simpa using hskip
    unfold DeviceManager.ensureOperational
    split
    · left; rfl
    · rename_i device hdev
      split
      · left; rfl
      · rename_i hserial
        split
        · left; rfl
        · rename_i hbm
          split
          · left; rfl
          · rename_i hflight
            split
            · left; rfl
            · left; rfl
            · rename_i gadgetInfo hgadget
              right
              refine ⟨device, gadgetInfo, hdev, by simpa using hserial, ?_, ?_,
                by simpa using hflight, hgadget, hback⟩
              · exact fun hc => hbm (.inl hc)
              · exact fun hc => hbm (.inr hc)

theorem changeInFlight_iff (m : DeviceManager) (kind : String) :
    m.changeInFlight kind = true ↔
      ∃ chg ∈ m.state.changes, chg.Kind = kind ∧ chg.Status.Ready = false := by
  unfold DeviceManager.changeInFlight
  simp [List.any_eq_true]

theorem nonReady_nil_of_not_inFlight (m : DeviceManager) (kind : String)
    (h : m.changeInFlight kind = false) : m.nonReady kind = [] := by
  unfold DeviceManager.changeInFlight at h
  unfold DeviceManager.nonReady
  rw [List.filter_eq_nil_iff]
  intro chg hchg
  rw [List.any_eq_false] at h
  exact h chg hchg

theorem not_pass_of_fails (m : DeviceManager) (now : Time) (device : DeviceState)
    (gadgetInfo : snap.Info) (hf : m.preconditionFails now)
    (hp : m.preconditionsPass now device gadgetInfo) : False := by
  obtain ⟨hdev, hserial, hbrand, hmodel, hflight, hgadget, hback⟩ := hp
  rcases hf with ⟨d, hd, hbad⟩ | hf | hf | hf
  · rw [hdev] at hd
    cases hd
    rcases hbad with hbad | hbad | hbad
    · exact hbad hserial
    · exact hbrand hbad
    · exact hmodel hbad
  · rw [hflight] at hf
    exact Bool.noConfusion hf
  · rw [hgadget] at hf
    cases hf
  · rw [hback] at hf
    exact Bool.noConfusion hf

/-- C4: `changeInFlight K` is true exactly when some change of kind `K` has a
status that is not ready; `ensureOperational` leaves the changes as they are or,
only when no `become-operational` change is in flight, adds one change of that
kind; hence a state with at most one non-ready `become-operational` change has
at most one after `ensureOperational`. -/
theorem become_operational_dedup (m : DeviceManager) (now : Time) (kind : String) :
    (m.changeInFlight kind = true ↔
      ∃ chg ∈ m.state.changes, chg.Kind = kind ∧ chg.Status.Ready = false) ∧
    ((m.ensureOperational now).2.state.changes = m.state.changes ∨
      (m.changeInFlight "become-operational" = false ∧
        ∃ chg : Change, chg.Kind = "become-operational" ∧
          (m.ensureOperational now).2.state.changes = m.state.changes ++ [chg])) ∧
    ((m.nonReady "become-operational").length ≤ 1 →
      ((m.ensureOperational now).2.nonReady "become-operational").length ≤ 1) := by
  refine ⟨changeInFlight_iff m kind, ?_, ?_⟩
  · rcases ensureOperational_cases m now with h | ⟨device, gadgetInfo, h⟩
    · left; rw [h]
    · right
      refine ⟨h.2.2.2.2.1,
        ⟨m.state.lastChangeId + 1, "become-operational", "Initialize device", .DoStatus,
          becomeOperationalTasks m.state gadgetInfo⟩, rfl, ?_⟩
      rw [ensureOperational_pass m now device gadgetInfo h]
  · intro hle
    rcases ensureOperational_cases m now with h | ⟨device, gadgetInfo, h⟩
    · rw [h]; exact hle
    · have hnil := nonReady_nil_of_not_inFlight m _ h.2.2.2.2.1
      unfold DeviceManager.nonReady at hnil ⊢
      rw [ensureOperational_pass m now device gadgetInfo h]
      simp only [List.filter_append, hnil, List.nil_append]
      exact List.length_filter_le _ _

/-- Witness of C4: a manager with one `become-operational` change in flight
still has at most one after `ensureOperational`, also once the backoff expired. -/
theorem become_operational_dedup_witness :
    (inFlightManager.nonReady "become-operational").length = 1 ∧
    ((inFlightManager.ensureOperational (10 * minute)).2.nonReady
      "become-operational").length ≤ 1 :=
  ⟨by decide,
   (become_operational_dedup inFlightManager (10 * minute) "become-operational").2.2
     (by decide)⟩

/-- Counterexample to C6 as stated: the backoff has not expired (last attempt
at one second, backoff five minutes, call at two minutes), so a precondition
fails, yet `ensureOperational` returns the error of the gadget lookup, which it
makes before it looks at the backoff. -/
theorem ensureOperational_nil_counterexample :
    gadgetFaultManager.preconditionFails (2 * minute) ∧
    (gadgetFaultManager.ensureOperational (2 * minute)).1 =
      some (Err.other "cannot read snap state") ∧
    (gadgetFaultManager.ensureOperational (2 * minute)).1 ≠ none :=
  ⟨.inr (.inr (.inr (by decide))), by decide, by decide⟩

/-- C6, amended: in every state in which at least one precondition fails,
`ensureOperational` leaves the manager and its state as they are (changes and
tasks, attempt counter, last attempt, backoff); an error of the identity read
is returned; and it returns nil whenever the identity can be read and the
gadget lookup fails at most with not-found. -/
theorem ensureOperational_frame (m : DeviceManager) (now : Time)
    (h : m.preconditionFails now) :
    (m.ensureOperational now).2 = m ∧
    (∀ e, auth.Device m.state = .error e → (m.ensureOperational now).1 = some e) ∧
    ((∃ device, auth.Device m.state = .ok device) →
      (∀ e, m.state.gadget = .error e → e = .ErrNoState) →
      (m.ensureOperational now).1 = none) := by
  refine ⟨?_, ?_, ?_⟩
  · rcases ensureOperational_cases m now with hc | ⟨device, gadgetInfo, hp⟩
    · exact hc
    · exact (not_pass_of_fails m now device gadgetInfo h hp).elim
  · intro e he
    unfold DeviceManager.ensureOperational
    simp [he]
  · rintro ⟨device, hdev⟩ hg
    rcases ensureOperational_cases m now with _ | ⟨device1, gadgetInfo, hp⟩
    · unfold DeviceManager.ensureOperational
      simp only [hdev]
      split
      · rfl
      · split
        · rfl
        · split
          · rfl
          · split
            · rfl
            · rename_i err hne herr
              exact absurd (hg err herr) hne
            · split <;> rfl
    · exact (not_pass_of_fails m now device1 gadgetInfo h hp).elim

/-- Witness of C6, amended: with a change in flight and the backoff expired,
`ensureOperational` returns nil and changes nothing. -/
theorem ensureOperational_frame_witness :
    inFlightManager.preconditionFails (10 * minute) ∧
    (inFlightManager.ensureOperational (10 * minute)).2 = inFlightManager ∧
    (inFlightManager.ensureOperational (10 * minute)).1 = none :=
  ⟨.inr (.inl (by decide)),
   (ensureOperational_frame inFlightManager (10 * minute) (.inr (.inl (by decide)))).1,
   (ensureOperational_frame inFlightManager (10 * minute) (.inr (.inl (by decide)))).2.2
     ⟨_, rfl⟩
     (by
       intro e he
       have hg : inFlightManager.state.gadget =
           .ok ⟨"pc", "", .TypeGadget, ["prepare-device"]⟩ := by decide
       rw [hg] at he
       cases he)⟩

/-- C7: when all preconditions of `ensureOperational` pass, it returns nil,
raises the attempt counter by one and adds exactly one change, of kind
`become-operational`, whose tasks are in order the `prepare-device` hook task
(present exactly when the gadget declares that hook), `generate-device-key` and
`request-serial`; `request-serial` waits for `generate-device-key`, which waits
for the hook task exactly when there is one. The new counter is the Go sum
`cur + 1` on a 64-bit `int`, which is exactly one more than every counter from
`-2^63` to below `2^63 - 1`. -/
theorem ensureOperational_builds_change (m : DeviceManager) (now : Time)
    (device : DeviceState) (gadgetInfo : snap.Info)
    (h : m.preconditionsPass now device gadgetInfo) :
    (m.ensureOperational now).1 = none ∧
    ensureOperationalAttempts (m.ensureOperational now).2.state =
      wrapInt64 (ensureOperationalAttempts m.state + 1) ∧
    (-(2 ^ 63) ≤ ensureOperationalAttempts m.state →
      ensureOperationalAttempts m.state < 2 ^ 63 - 1 →
      ensureOperationalAttempts (m.ensureOperational now).2.state =
        ensureOperationalAttempts m.state + 1) ∧
    ∃ chg : Change,
      (m.ensureOperational now).2.state.changes = m.state.changes ++ [chg] ∧
      chg.Kind = "become-operational" ∧
      ((gadgetInfo.Hooks.contains "prepare-device" = true ∧
          ∃ hook genKey requestSerial : Task,
            chg.Tasks = [hook, genKey, requestSerial] ∧
            hook.Kind = "run-hook" ∧
            hook.hookSetup = some ⟨gadgetInfo.Name, "prepare-device"⟩ ∧
            hook.WaitTasks = [] ∧
            genKey.Kind = "generate-device-key" ∧ genKey.WaitTasks = [hook.ID] ∧
            requestSerial.Kind = "request-serial" ∧ requestSerial.WaitTasks = [genKey.ID] ∧
            hook.ID ≠ genKey.ID ∧ genKey.ID ≠ requestSerial.ID ∧ hook.ID ≠ requestSerial.ID) ∨
        (gadgetInfo.Hooks.contains "prepare-device" = false ∧
          ∃ genKey requestSerial : Task,
            chg.Tasks = [genKey, requestSerial] ∧
            genKey.Kind = "generate-device-key" ∧ genKey.WaitTasks = [] ∧
            requestSerial.Kind = "request-serial" ∧ requestSerial.WaitTasks = [genKey.ID] ∧
            genKey.ID ≠ requestSerial.ID)) := by
  rw [ensureOperational_pass m now device gadgetInfo h]
  refine ⟨rfl, ?_, ?_, _, rfl, rfl, ?_⟩
  · simp [ensureOperationalAttempts]
  · intro hlo hhi
    simp only [ensureOperationalAttempts, Option.getD_some] at hlo hhi ⊢
    exact wrapInt64_exact _ (by omega) (by omega)
  · cases hh : gadgetInfo.Hooks.contains "prepare-device"
    · right
      refine ⟨rfl,
        ⟨m.state.lastTaskId + 1, "generate-device-key", "Generate device key", .DoStatus,
          [], [], .error .ErrNoState, none⟩,
        ⟨m.state.lastTaskId + 2, "request-serial", "Request device serial", .DoStatus,
          [m.state.lastTaskId + 1], [], .error .ErrNoState, none⟩,
        ?_, rfl, rfl, rfl, rfl, ?_⟩
      · simp only [becomeOperationalTasks, hh]
        rfl
      · simp
    · left
      refine ⟨rfl,
        ⟨m.state.lastTaskId + 1, "run-hook", "Run prepare-device hook", .DoStatus, [], [],
          .error .ErrNoState, some ⟨gadgetInfo.Name, "prepare-device"⟩⟩,
        ⟨m.state.lastTaskId + 2, "generate-device-key", "Generate device key", .DoStatus,
          [m.state.lastTaskId + 1], [], .error .ErrNoState, none⟩,
        ⟨m.state.lastTaskId + 3, "request-serial", "Request device serial", .DoStatus,
          [m.state.lastTaskId + 2], [], .error .ErrNoState, none⟩,
        ?_, rfl, rfl, rfl, rfl, rfl, rfl, rfl, ?_, ?_, ?_⟩
      · simp only [becomeOperationalTasks, hh]
        rfl
      · simp
      · simp
      · simp

/-- Witness of C7: on the sample state, whose gadget declares the hook, a first
call at one second passes every precondition and adds the change with the
three tasks. -/
theorem ensureOperational_builds_change_witness :
    (sampleManager.ensureOperational (1 * second)).1 = none ∧
    ensureOperationalAttempts (sampleManager.ensureOperational (1 * second)).2.state = 1 ∧
    ((sampleManager.ensureOperational (1 * second)).2.state.changes.map
      (fun chg => (chg.Kind, chg.Tasks.map (fun t => (t.ID, t.Kind, t.WaitTasks))))) =
      [("become-operational",
        [(1, "run-hook", []), (2, "generate-device-key", [1]), (3, "request-serial", [2])])] :=
  ⟨(ensureOperational_builds_change sampleManager (1 * second) ⟨"canonical", "pc", "", ""⟩
      ⟨"pc", "", .TypeGadget, ["prepare-device"]⟩
      ⟨by decide, by decide, by decide, by decide, by decide, by decide, by decide⟩).1,
   by decide, by decide⟩

/-! ## The auto-refresh gate -/

theorem Model_error_noState (env : Env) (st : State) (h : st.failsOnlyNotFound) (e : Err)
    (he : Model env st = .error e) : e = .ErrNoState := by
  unfold Model auth.Device at he
  split at he
  · rename_i err herr
    cases he
    exact h.1 _ herr
  · split at he
    · cases he; rfl
    · split at he
      · cases he; rfl
      · rename_i err hne herr
        unfold asserts.Database.FindModel at herr
        split at herr
        · rename_i f hf
          cases herr
          exact absurd (h.2 _ hf) hne
        · split at herr
          · cases herr
          · cases herr
            exact absurd rfl hne
      · cases he

theorem Serial_error_noState (st : State) (h : st.failsOnlyNotFound) (e : Err)
    (he : Serial st = .error e) : e = .ErrNoState := by
  unfold Serial auth.Device at he
  split at he
  · rename_i err herr
    cases he
    exact h.1 _ herr
  · split at he
    · cases he; rfl
    · split at he
      · cases he; rfl
      · rename_i err hne herr
        unfold asserts.Database.FindSerial at herr
        split at herr
        · rename_i f hf
          cases herr
          exact absurd (h.2 _ hf) hne
        · split at herr
          · cases herr
          · cases herr
            exact absurd rfl hne
      · cases he

/-- C5: in every state whose identity and assertion database lookups fail only
with not-found, `canAutoRefresh` returns no error, and returns true exactly when
`seeded` is true and at least one of these holds: `Model` is not ready, `Serial`
succeeds, or the attempt counter is at least three. -/
theorem canAutoRefresh_iff (env : Env) (st : State) (h : st.failsOnlyNotFound) :
    (canAutoRefresh env st).2 = none ∧
    ((canAutoRefresh env st).1 = true ↔
      st.seeded = .ok true ∧
        (Model env st = .error .ErrNoState ∨ (∃ a, Serial st = .ok a) ∨
          ensureOperationalAttempts st ≥ 3)) := by
  have hM := Model_error_noState env st h
  have hS := Serial_error_noState st h
  unfold canAutoRefresh
  cases hseed : st.seeded with
  | error e => simp
  | ok b =>
    cases b with
    | false => simp
    | true =>
      cases hm : Model env st with
      | error e =>
        rw [hm] at hM
        have := hM e rfl
        subst this
        simp
      | ok a =>
        by_cases hatt : ensureOperationalAttempts st ≥ 3
        · simp [hatt]
        · cases hs : Serial st with
          | error e =>
            rw [hs] at hS
            have := hS e rfl
            subst this
            simp [hatt]
          | ok a => simp [hatt]

/-- Witness of C5: a seeded state with no model gives true, and a state in
which `seeded` is not set gives false even with three attempts counted. -/
theorem canAutoRefresh_iff_witness :
    (canAutoRefresh sampleEnv classicState).1 = true ∧
    (canAutoRefresh sampleEnv unseededState).1 = false ∧
    ensureOperationalAttempts unseededState = 3 :=
  ⟨((canAutoRefresh_iff sampleEnv classicState
      ⟨(by intro e he; cases he), (by intro e he; cases he)⟩).2).mpr
      ⟨rfl, .inl (by decide)⟩,
   by decide, by decide⟩

/-! ## Bad HTTP statuses -/

/-- Counterexample to C8 as stated: for a response with status 400 and a JSON
error body carrying a message, `retryBadStatus` returns the plain error built
from the message, which is not a retry, and logs nothing on the task. -/
theorem retryBadStatus_client_error_counterexample :
    retryBadStatus sampleEnv sampleTask "cannot deliver device serial request"
        rejectedResponse =
      .ok (Err.other "cannot deliver device serial request: device rejected", sampleTask) ∧
    ¬ ∃ t, retryBadStatus sampleEnv sampleTask "cannot deliver device serial request"
        rejectedResponse = .ok (Err.Retry (60 * second), t) := by
  have h : retryBadStatus sampleEnv sampleTask "cannot deliver device serial request"
        rejectedResponse =
      .ok (Err.other "cannot deliver device serial request: device rejected", sampleTask) := by
    decide
  refine ⟨h, ?_⟩
  rintro ⟨t, ht⟩
  rw [h] at ht
  cases ht

/-- C8, amended: for every response with a 4xx status and a JSON error body
(Content-Type `application/json`) whose top-level message, or else the message
of its first error-list entry, is not empty, `retryBadStatus` returns the plain
error `<reason>: <message>`, which is not a `state.Retry`, and leaves the task
and its log as they are. -/
theorem retryBadStatus_client_error (env : Env) (t : Task) (reason : String)
    (resp : http.Response) (srvErr : serverError)
    (_hlo : 400 ≤ resp.StatusCode) (hhi : resp.StatusCode ≤ 499)
    (hct : resp.ContentType = "application/json")
    (hdec : env.decodeServerError resp.Body = some srvErr)
    (hmsg : srvErr.firstMessage ≠ "") :
    retryBadStatus env t reason resp =
      .ok (Err.other (reason ++ ": " ++ srvErr.firstMessage), t) ∧
    (Err.other (reason ++ ": " ++ srvErr.firstMessage)).isRetry = false := by
  refine ⟨?_, rfl⟩
  have hcode : ¬ resp.StatusCode > 500 := by
    intro hc
    have h1 : (500 : Int) < resp.StatusCode := hc
    have h2 : resp.StatusCode ≤ (499 : Int) := hhi
    exact absurd (lt_of_lt_of_le h1 h2) (by decide)
  unfold retryBadStatus
  simp only [hcode, if_false, hct, if_true, hdec]
  unfold serverError.firstMessage at hmsg ⊢
  by_cases hm : srvErr.Message = ""
  · simp only [hm, if_true] at hmsg ⊢
    cases hes : srvErr.Errors with
    | nil => rw [hes] at hmsg; exact absurd rfl hmsg
    | cons e rest =>
      cases e with
      | none => rw [hes] at hmsg; exact absurd rfl hmsg
      | some e =>
        rw [hes] at hmsg
        simp only at hmsg ⊢
        simp [hmsg]
  · simp [hm]

/-- Witness of C8, amended: the response with status 400 whose body decodes to
the message `device rejected`. -/
theorem retryBadStatus_client_error_witness :
    retryBadStatus sampleEnv sampleTask "cannot deliver device serial request"
        rejectedResponse =
      .ok (Err.other ("cannot deliver device serial request" ++ ": " ++
        (serverError.mk "device rejected" []).firstMessage), sampleTask) :=
  (retryBadStatus_client_error sampleEnv sampleTask "cannot deliver device serial request"
    rejectedResponse (.mk "device rejected" []) (by decide) (by decide) rfl rfl
    (by decide)).1

/-- C9: for every response whose status code is greater than 500, whatever its
content type and body, `retryBadStatus` returns a `state.Retry` whose `After` is
`retryInterval`, which is 60 seconds, and logs the unexpected status on the task. -/
theorem retryBadStatus_server_error (env : Env) (t : Task) (reason : String)
    (resp : http.Response) (h : resp.StatusCode > 500) :
    retryBadStatus env t reason resp =
      .ok (Err.Retry retryInterval,
        t.Errorf (reason ++ ": unexpected status " ++ toString resp.StatusCode)) ∧
    retryInterval = 60 * second := by
  refine ⟨?_, rfl⟩
  unfold retryBadStatus retryErr
  simp only [h, if_true]

/-- Witness of C9: a response with status 503 and a JSON error body. -/
theorem retryBadStatus_server_error_witness :
    retryBadStatus sampleEnv sampleTask "cannot deliver device serial request"
        ⟨503, "application/json", "rejected"⟩ =
      .ok (Err.Retry retryInterval,
        sampleTask.Errorf ("cannot deliver device serial request" ++ ": unexpected status " ++
          toString (503 : Int))) :=
  (retryBadStatus_server_error sampleEnv sampleTask "cannot deliver device serial request"
    ⟨503, "application/json", "rejected"⟩ (by decide)).1

/-! ## `doRequestSerial` on a stored serial -/

theorem keyPair_ID (m : DeviceManager) (device : DeviceState) (privKey : asserts.PrivateKey)
    (hdev : auth.Device m.state = .ok device) (hkey : m.keyPair = .ok privKey) :
    privKey.ID = device.KeyID := by
  unfold DeviceManager.keyPair at hkey
  simp only [hdev] at hkey
  split at hkey
  · cases hkey
  · split at hkey
    · cases hkey
    · rename_i k hfind
      cases hkey
      have := List.find?_some hfind
      simpa using this

/-- Counterexample to C10 as stated: the device key exists and the assertion
database holds exactly one serial assertion matching the brand, the model and
the key, but the gadget snap is missing; `doRequestSerial` loads the
serial-request configuration first, returns its error and changes nothing: the
task is not marked done and the identity gets no serial. -/
theorem doRequestSerial_stored_serial_counterexample :
    storedSerialNoGadget.keyPair = .ok ⟨"key-id"⟩ ∧
    storedSerialNoGadget.state.db.FindManySerials "canonical" "pc" "key-id" =
      .ok [sampleSerial] ∧
    storedSerialNoGadget.doRequestSerial sampleEnv sampleTask [] =
      .ok (some (Err.other
        "cannot find gadget snap and its name: no state entry for key"),
        storedSerialNoGadget, sampleTask, []) := by
  decide

/-- C10, amended: in every state in which the serial-request configuration
loads, the device key exists and the assertion database yields exactly one
serial assertion matching the brand, the model and the key ID of the identity,
`doRequestSerial` returns nil, marks the task done, sets the serial of the
identity to that of the assertion, keeps brand, model and key ID, leaves the
assertion database and the rest of the state as they are, and makes no call
over the network. -/
theorem doRequestSerial_stored_serial (env : Env) (m : DeviceManager) (t : Task)
    (calls : List NetCall) (cfg : serialRequestConfig) (device : DeviceState)
    (privKey : asserts.PrivateKey) (serial0 : asserts.Serial)
    (hcfg : getSerialRequestConfig env m.state = .ok cfg)
    (hdev : auth.Device m.state = .ok device)
    (hkey : m.keyPair = .ok privKey)
    (hdb : m.state.db.FindManySerials device.Brand device.Model device.KeyID = .ok [serial0]) :
    m.doRequestSerial env t calls =
      .ok (none,
        { m with state := { m.state with auth := .ok { device with Serial := serial0.Serial } } },
        t.SetStatus .DoneStatus, calls) := by
  have hid := keyPair_ID m device privKey hdev hkey
  have hauth : m.state.auth = .ok device := hdev
  unfold DeviceManager.doRequestSerial
  simp only [hcfg, hdev, hkey, hid, hdb, auth.SetDevice, hauth]

/-- Witness of C10, amended: with the gadget installed, the stored serial `42`
is adopted, the task is done and no call is made. -/
theorem doRequestSerial_stored_serial_witness :
    storedSerialManager.doRequestSerial sampleEnv sampleTask [] =
      .ok (none,
        { storedSerialManager with
          state := { storedSerialManager.state with
                     auth := .ok { (⟨"canonical", "pc", "", "key-id"⟩ : DeviceState) with
                                   Serial := sampleSerial.Serial } } },
        sampleTask.SetStatus .DoneStatus, []) :=
  doRequestSerial_stored_serial sampleEnv storedSerialManager sampleTask []
    ⟨requestIDURL sampleEnv, serialRequestURL sampleEnv, [], "", ""⟩
    ⟨"canonical", "pc", "", "key-id"⟩ ⟨"key-id"⟩ sampleSerial
    (by decide) (by decide) (by decide) (by decide)

/-! ## The serial protocol: accepted, resubmitted and mismatching requests -/

theorem applyHeaders_fields (cfg : serialRequestConfig) (req : http.Request) :
    (cfg.applyHeaders req).Method = req.Method ∧ (cfg.applyHeaders req).URL = req.URL ∧
      (cfg.applyHeaders req).Body = req.Body := by
  unfold serialRequestConfig.applyHeaders
  generalize cfg.headers = hs
  induction hs generalizing req with
  | nil => exact ⟨rfl, rfl, rfl⟩
  | cons kv rest ih =>
    rw [List.foldl_cons]
    have h := ih (req.SetHeader kv.1 kv.2)
    exact h

theorem serialRequestPOST_fields (env : Env) (cfg : serialRequestConfig) (sr : String) :
    (serialRequestPOST env cfg sr).Method = "POST" ∧
      (serialRequestPOST env cfg sr).URL = cfg.serialRequestURL ∧
      (serialRequestPOST env cfg sr).Body = sr := by
  have h := applyHeaders_fields cfg
    ((⟨"POST", cfg.serialRequestURL, [], sr⟩ : http.Request).SetHeader "User-Agent" env.UserAgent)
  exact h

theorem submitSerialRequest_accepted (env : Env) (t : Task) (sr : String)
    (cfg : serialRequestConfig) (calls : List NetCall) (resp : http.Response)
    (hurl : env.validRequestURL cfg.serialRequestURL = true)
    (hdo : env.Do calls.length (serialRequestPOST env cfg sr) = .ok resp)
    (h202 : resp.StatusCode = 202) :
    submitSerialRequest env t sr cfg calls =
      .ok (.error .errPoll, t, calls ++ [NetCall.http (serialRequestPOST env cfg sr)]) := by
  unfold serialRequestPOST at hdo
  unfold submitSerialRequest serialRequestPOST
  simp [hurl, hdo, h202]

theorem getSerial_accepted (env : Env) (t : Task) (privKey : asserts.PrivateKey)
    (device : DeviceState) (cfg : serialRequestConfig) (calls : List NetCall)
    (serialSup : serialSetup) (sr : String) (t1 : Task) (calls1 : List NetCall)
    (resp : http.Response)
    (hsup : t.loadsSerialSetup serialSup) (hser : serialSup.Serial = "")
    (hreq : submitsRequest env t privKey device cfg calls serialSup sr t1 calls1)
    (hurl : env.validRequestURL cfg.serialRequestURL = true)
    (hdo : env.Do calls1.length (serialRequestPOST env cfg sr) = .ok resp)
    (h202 : resp.StatusCode = 202) :
    getSerial env t privKey device cfg calls =
      .ok (.error .errPoll, t1.SetSerialSetup ⟨sr, ""⟩,
        calls1 ++ [NetCall.http (serialRequestPOST env cfg sr)]) := by
  have hsub := submitSerialRequest_accepted env t1 sr cfg calls1 resp hurl hdo h202
  obtain ⟨srq, ser⟩ := serialSup
  simp only at hser
  subst hser
  unfold getSerial
  rcases hsup with hsup | ⟨hsup, hz⟩
  · rcases hreq with ⟨hne, hsr, ht, hc⟩ | ⟨he, hprep⟩
    · simp only at hne hsr
      subst hsr ht hc
      simp [hsup, hne, hsub]
    · simp only at he
      subst he
      simp [hsup, hprep, hsub]
  · cases hz
    rcases hreq with ⟨hne, _, _, _⟩ | ⟨_, hprep⟩
    · exact absurd rfl hne
    · simp [hsup, hprep, hsub]

/-- C11: in every run of `doRequestSerial` in which no serial is stored yet (none
in the assertion database for the key, none in the `serial-setup` of the task)
and the device service answers the serial-request POST with status 202, the
handler returns a `state.Retry` whose `After` is 60 seconds, the `serial-setup`
of the task afterwards holds the very text that was the body of the POST and an
empty serial, and the manager with the identity is as before, so that the
empty serial of the identity stays empty. -/
theorem doRequestSerial_accepted (env : Env) (m : DeviceManager) (t : Task)
    (calls : List NetCall) (cfg : serialRequestConfig) (device : DeviceState)
    (privKey : asserts.PrivateKey) (serialSup : serialSetup) (sr : String) (t1 : Task)
    (calls1 : List NetCall) (resp : http.Response)
    (hcfg : getSerialRequestConfig env m.state = .ok cfg)
    (hdev : auth.Device m.state = .ok device)
    (hkey : m.keyPair = .ok privKey)
    (hdb : m.state.db.FindManySerials device.Brand device.Model device.KeyID =
      .error .ErrNotFound)
    (hsup : t.loadsSerialSetup serialSup) (hser : serialSup.Serial = "")
    (hreq : submitsRequest env t privKey device cfg calls serialSup sr t1 calls1)
    (hurl : env.validRequestURL cfg.serialRequestURL = true)
    (hdo : env.Do calls1.length (serialRequestPOST env cfg sr) = .ok resp)
    (h202 : resp.StatusCode = 202) :
    m.doRequestSerial env t calls =
      .ok (some (.Retry retryInterval), m,
        (t1.SetSerialSetup ⟨sr, ""⟩).Logf "Will poll for device serial assertion in 60 seconds",
        calls1 ++ [NetCall.http (serialRequestPOST env cfg sr)]) ∧
    ((t1.SetSerialSetup ⟨sr, ""⟩).Logf
      "Will poll for device serial assertion in 60 seconds").serialSetup = .ok ⟨sr, ""⟩ ∧
    retryInterval = 60 * second ∧
    (serialRequestPOST env cfg sr).Body = sr := by
  have hid := keyPair_ID m device privKey hdev hkey
  have hget := getSerial_accepted env t privKey device cfg calls serialSup sr t1 calls1 resp
    hsup hser hreq hurl hdo h202
  refine ⟨?_, rfl, rfl, (serialRequestPOST_fields env cfg sr).2.2⟩
  unfold DeviceManager.doRequestSerial
  simp only [hcfg, hdev, hkey, hid, hdb, hget]

/-- Witness of C11: the task holds a serial-request, the service answers 202;
the handler asks to be retried in 60 seconds, the task keeps the request and
the manager is as before. -/
theorem doRequestSerial_accepted_witness :
    keyedManager.doRequestSerial acceptingEnv polledTask [] =
      .ok (some (.Retry retryInterval), keyedManager,
        (polledTask.SetSerialSetup ⟨"signed-request", ""⟩).Logf
          "Will poll for device serial assertion in 60 seconds",
        [] ++ [NetCall.http (serialRequestPOST acceptingEnv sampleConfig "signed-request")]) :=
  (doRequestSerial_accepted acceptingEnv keyedManager polledTask [] sampleConfig
    ⟨"canonical", "pc", "", "key-id"⟩ ⟨"key-id"⟩ ⟨"signed-request", ""⟩ "signed-request"
    polledTask [] ⟨202, "", ""⟩ (by decide) (by decide) (by decide) (by decide)
    (.inl (by decide)) rfl (.inl ⟨by decide, rfl, rfl, rfl⟩) (by decide) (by decide) rfl).1

theorem retryBadStatus_outcome (env : Env) (t : Task) (reason : String)
    (resp : http.Response) :
    (∃ r, retryBadStatus env t reason resp = .ok r) ∨
      retryBadStatus env t reason resp = .error .nilDereference := by
  unfold retryBadStatus
  split
  · exact .inl ⟨_, rfl⟩
  · split
    · split
      · exact .inl ⟨_, rfl⟩
      · rename_i srvErr _
        by_cases hm : srvErr.Message = ""
        · simp only [hm, if_true]
          cases srvErr.Errors with
          | nil => simp
          | cons e rest =>
            cases e with
            | none => exact .inr rfl
            | some e =>
              simp only
              split
              · exact .inl ⟨_, rfl⟩
              · exact .inl ⟨_, rfl⟩
        · simp only [hm, if_false]
          split
          · exact .inl ⟨_, rfl⟩
          · exact .inl ⟨_, rfl⟩
    · exact .inl ⟨_, rfl⟩

theorem submitSerialRequest_outcome (env : Env) (t : Task) (sr : String)
    (cfg : serialRequestConfig) (calls : List NetCall)
    (hurl : env.validRequestURL cfg.serialRequestURL = true) :
    (∃ r t1, submitSerialRequest env t sr cfg calls =
        .ok (r, t1, calls ++ [NetCall.http (serialRequestPOST env cfg sr)])) ∨
      (∃ resp, submitSerialRequest env t sr cfg calls = .error .nilDereference ∧
        env.Do calls.length (serialRequestPOST env cfg sr) = .ok resp) := by
  unfold submitSerialRequest serialRequestPOST
  simp only [hurl, Bool.not_true, Bool.false_eq_true, if_false]
  split
  · exact .inl ⟨_, _, rfl⟩
  · rename_i resp hdo
    split
    · split
      · exact .inl ⟨_, _, rfl⟩
      · exact .inl ⟨_, _, rfl⟩
      · exact .inl ⟨_, _, rfl⟩
    · split
      · exact .inl ⟨_, _, rfl⟩
      · rcases retryBadStatus_outcome env t "cannot deliver device serial request" resp with
          ⟨r, hr⟩ | hp
        · rw [hr]
          exact .inl ⟨_, _, rfl⟩
        · rw [hp]
          exact .inr ⟨resp, rfl, hdo⟩

theorem getSerial_refused (env : Env) (t : Task) (privKey : asserts.PrivateKey)
    (device : DeviceState) (cfg : serialRequestConfig) (calls : List NetCall)
    (serialSup : serialSetup)
    (hsup : t.serialSetup = .ok serialSup) (hreq : serialSup.SerialRequest ≠ "")
    (hser : serialSup.Serial = "") (hurl : env.validRequestURL cfg.serialRequestURL = false) :
    getSerial env t privKey device cfg calls =
      .ok (.error (.other ("internal error: cannot create serial-request request " ++
        cfg.serialRequestURL.quote)), t, calls) := by
  unfold getSerial submitSerialRequest
  simp [hsup, hser, hreq, hurl]

theorem getSerial_submitted (env : Env) (t : Task) (privKey : asserts.PrivateKey)
    (device : DeviceState) (cfg : serialRequestConfig) (calls : List NetCall)
    (serialSup : serialSetup)
    (hsup : t.serialSetup = .ok serialSup) (hreq : serialSup.SerialRequest ≠ "")
    (hser : serialSup.Serial = "") (hurl : env.validRequestURL cfg.serialRequestURL = true) :
    (∃ r t1, getSerial env t privKey device cfg calls =
        .ok (r, t1,
          calls ++ [NetCall.http (serialRequestPOST env cfg serialSup.SerialRequest)])) ∨
      (∃ resp, getSerial env t privKey device cfg calls = .error .nilDereference ∧
        env.Do calls.length (serialRequestPOST env cfg serialSup.SerialRequest) = .ok resp) := by
  rcases submitSerialRequest_outcome env t serialSup.SerialRequest cfg calls hurl with
    ⟨r, t1, hsub⟩ | ⟨resp, hsub, hdo⟩
  · left
    unfold getSerial
    simp only [hsup, hser, hreq, hsub, ne_eq, not_true_eq_false, if_false]
    cases r with
    | error err => cases err <;> exact ⟨_, _, rfl⟩
    | ok serial =>
      simp only
      split
      · exact ⟨_, _, rfl⟩
      · split
        · exact ⟨_, _, rfl⟩
        · exact ⟨_, _, rfl⟩
  · right
    refine ⟨resp, ?_, hdo⟩
    unfold getSerial
    simp [hsup, hser, hreq, hsub]

/-- Counterexample to C12 as stated: the task holds a serial-request and no
serial, but `http.NewRequest` refuses the serial-request URL; `getSerial`
returns an internal error and makes no call, so nothing is submitted. -/
theorem getSerial_resubmits_counterexample :
    polledTask.serialSetup = .ok ⟨"signed-request", ""⟩ ∧
    refusingEnv.validRequestURL refusedConfig.serialRequestURL = false ∧
    getSerial refusingEnv polledTask ⟨"key-id"⟩ ⟨"canonical", "pc", "", "key-id"⟩
        refusedConfig [] =
      .ok (.error (.other ("internal error: cannot create serial-request request " ++
        refusedConfig.serialRequestURL.quote)), polledTask, []) :=
  ⟨rfl, by decide,
   getSerial_refused refusingEnv polledTask ⟨"key-id"⟩ ⟨"canonical", "pc", "", "key-id"⟩
     refusedConfig [] ⟨"signed-request", ""⟩ rfl (by decide) rfl (by decide)⟩

/-- C12, amended: for every task whose `serial-setup` holds a serial-request
that is not empty and an empty serial: when `http.NewRequest` refuses the
serial-request URL, `getSerial` makes no call and returns an internal error;
when it accepts the URL, `getSerial` makes exactly one call, no request-id call
but the serial-request POST, whose body is the stored text, byte for byte (the
run either returns with that one call logged, or panics while reading the error
body of the answer to that POST). -/
theorem getSerial_resubmits (env : Env) (t : Task) (privKey : asserts.PrivateKey)
    (device : DeviceState) (cfg : serialRequestConfig) (calls : List NetCall)
    (serialSup : serialSetup)
    (hsup : t.serialSetup = .ok serialSup) (hreq : serialSup.SerialRequest ≠ "")
    (hser : serialSup.Serial = "") :
    (env.validRequestURL cfg.serialRequestURL = false →
      getSerial env t privKey device cfg calls =
        .ok (.error (.other ("internal error: cannot create serial-request request " ++
          cfg.serialRequestURL.quote)), t, calls)) ∧
    (env.validRequestURL cfg.serialRequestURL = true →
      (serialRequestPOST env cfg serialSup.SerialRequest).Method = "POST" ∧
      (serialRequestPOST env cfg serialSup.SerialRequest).URL = cfg.serialRequestURL ∧
      (serialRequestPOST env cfg serialSup.SerialRequest).Body = serialSup.SerialRequest ∧
      ((∃ r t1, getSerial env t privKey device cfg calls =
          .ok (r, t1,
            calls ++ [NetCall.http (serialRequestPOST env cfg serialSup.SerialRequest)])) ∨
        (∃ resp, getSerial env t privKey device cfg calls = .error .nilDereference ∧
          env.Do calls.length (serialRequestPOST env cfg serialSup.SerialRequest) =
            .ok resp))) :=
  ⟨getSerial_refused env t privKey device cfg calls serialSup hsup hreq hser,
   fun hurl =>
    ⟨(serialRequestPOST_fields env cfg _).1, (serialRequestPOST_fields env cfg _).2.1,
      (serialRequestPOST_fields env cfg _).2.2,
      getSerial_submitted env t privKey device cfg calls serialSup hsup hreq hser hurl⟩⟩

/-- Witness of C12, amended: with the URL accepted and the service answering
202, the one call logged is the POST whose body is the stored text. -/
theorem getSerial_resubmits_witness :
    (serialRequestPOST acceptingEnv sampleConfig "signed-request").Body = "signed-request" ∧
    getSerial acceptingEnv polledTask ⟨"key-id"⟩ ⟨"canonical", "pc", "", "key-id"⟩
        sampleConfig [] =
      .ok (.error .errPoll, polledTask,
        [NetCall.http (serialRequestPOST acceptingEnv sampleConfig "signed-request")]) :=
  ⟨((getSerial_resubmits acceptingEnv polledTask ⟨"key-id"⟩ ⟨"canonical", "pc", "", "key-id"⟩
      sampleConfig [] ⟨"signed-request", ""⟩ rfl (by decide) rfl).2 (by decide)).2.2.1,
   by decide⟩

theorem prepareSerialRequest_ok_task (env : Env) (t : Task) (privKey : asserts.PrivateKey)
    (device : DeviceState) (cfg : serialRequestConfig) (calls : List NetCall) (sr : String)
    (t1 : Task) (calls1 : List NetCall)
    (h : prepareSerialRequest env t privKey device cfg calls = .ok (.ok sr, t1, calls1)) :
    t1 = t := by
  revert h
  simp only [prepareSerialRequest]
  repeat' split
  all_goals
    intro h
    first
      | (cases h; rfl)
      | cases h

theorem submitsRequest_task (env : Env) (t : Task) (privKey : asserts.PrivateKey)
    (device : DeviceState) (cfg : serialRequestConfig) (calls : List NetCall)
    (serialSup : serialSetup) (sr : String) (t1 : Task) (calls1 : List NetCall)
    (h : submitsRequest env t privKey device cfg calls serialSup sr t1 calls1) : t1 = t := by
  rcases h with ⟨_, _, ht, _⟩ | ⟨_, hprep⟩
  · exact ht
  · exact prepareSerialRequest_ok_task env t privKey device cfg calls sr t1 calls1 hprep

theorem submitSerialRequest_serial (env : Env) (t : Task) (sr : String)
    (cfg : serialRequestConfig) (calls : List NetCall) (resp : http.Response)
    (serial : asserts.Serial)
    (hurl : env.validRequestURL cfg.serialRequestURL = true)
    (hdo : env.Do calls.length (serialRequestPOST env cfg sr) = .ok resp)
    (hstatus : resp.StatusCode = 200 ∨ resp.StatusCode = 201)
    (hdec : env.DecoderDecode resp.Body = .ok (.serial serial)) :
    submitSerialRequest env t sr cfg calls =
      .ok (.ok serial, t, calls ++ [NetCall.http (serialRequestPOST env cfg sr)]) := by
  unfold serialRequestPOST at hdo
  unfold submitSerialRequest serialRequestPOST
  simp [hurl, hdo, hstatus, hdec]

theorem getSerial_of_submitted (env : Env) (t : Task) (privKey : asserts.PrivateKey)
    (device : DeviceState) (cfg : serialRequestConfig) (calls : List NetCall)
    (serialSup : serialSetup) (sr : String) (t1 : Task) (calls1 : List NetCall)
    (resp : http.Response) (serial : asserts.Serial)
    (hsup : t.loadsSerialSetup serialSup) (hser : serialSup.Serial = "")
    (hreq : submitsRequest env t privKey device cfg calls serialSup sr t1 calls1)
    (hurl : env.validRequestURL cfg.serialRequestURL = true)
    (hdo : env.Do calls1.length (serialRequestPOST env cfg sr) = .ok resp)
    (hstatus : resp.StatusCode = 200 ∨ resp.StatusCode = 201)
    (hdec : env.DecoderDecode resp.Body = .ok (.serial serial)) :
    getSerial env t privKey device cfg calls =
      if serial.BrandID ≠ device.Brand ∨ serial.Model ≠ device.Model ∨
          serial.DeviceKeyID ≠ privKey.ID then
        .ok (.error (.other (mismatchMessage serial device privKey.ID)), t1,
          calls1 ++ [NetCall.http (serialRequestPOST env cfg sr)])
      else if env.repeatRequestSerial = "after-got-serial" then
        .ok (.error (.Retry 0), t1.SetSerialSetup ⟨sr, env.EncodeSerial serial⟩,
          calls1 ++ [NetCall.http (serialRequestPOST env cfg sr)])
      else
        .ok (.ok serial, t1.SetSerialSetup ⟨sr, env.EncodeSerial serial⟩,
          calls1 ++ [NetCall.http (serialRequestPOST env cfg sr)]) := by
  have hsub := submitSerialRequest_serial env t1 sr cfg calls1 resp serial hurl hdo hstatus hdec
  obtain ⟨srq, ser⟩ := serialSup
  simp only at hser
  subst hser
  unfold getSerial mismatchMessage
  rcases hsup with hsup | ⟨hsup, hz⟩
  · rcases hreq with ⟨hne, hsr, ht, hc⟩ | ⟨he, hprep⟩
    · simp only at hne hsr
      subst hsr ht hc
      simp [hsup, hne, hsub]
    · simp only at he
      subst he
      simp [hsup, hprep, hsub]
  · cases hz
    rcases hreq with ⟨hne, _, _, _⟩ | ⟨_, hprep⟩
    · exact absurd rfl hne
    · simp [hsup, hprep, hsub]

/-- C13: whenever the serial assertion freshly returned by the device service
(answer 200 or 201 to the serial-request POST, decoding to a serial assertion)
differs from the brand, the model or the key ID of the caller, `getSerial`
returns a plain error, not a `state.Retry`, and writes nothing: the task
is as before the call, with its `serial-setup`; and `doRequestSerial` then
returns that error with the manager, hence the identity, as before. -/
theorem getSerial_mismatch (env : Env) (t : Task) (privKey : asserts.PrivateKey)
    (device : DeviceState) (cfg : serialRequestConfig) (calls : List NetCall)
    (serialSup : serialSetup) (sr : String) (t1 : Task) (calls1 : List NetCall)
    (resp : http.Response) (serial : asserts.Serial)
    (hsup : t.loadsSerialSetup serialSup) (hser : serialSup.Serial = "")
    (hreq : submitsRequest env t privKey device cfg calls serialSup sr t1 calls1)
    (hurl : env.validRequestURL cfg.serialRequestURL = true)
    (hdo : env.Do calls1.length (serialRequestPOST env cfg sr) = .ok resp)
    (hstatus : resp.StatusCode = 200 ∨ resp.StatusCode = 201)
    (hdec : env.DecoderDecode resp.Body = .ok (.serial serial))
    (hmis : serial.BrandID ≠ device.Brand ∨ serial.Model ≠ device.Model ∨
      serial.DeviceKeyID ≠ privKey.ID) :
    getSerial env t privKey device cfg calls =
      .ok (.error (.other (mismatchMessage serial device privKey.ID)), t,
        calls1 ++ [NetCall.http (serialRequestPOST env cfg sr)]) ∧
    (Err.other (mismatchMessage serial device privKey.ID)).isRetry = false ∧
    (∀ m : DeviceManager, getSerialRequestConfig env m.state = .ok cfg →
      auth.Device m.state = .ok device → m.keyPair = .ok privKey →
      m.state.db.FindManySerials device.Brand device.Model device.KeyID = .error .ErrNotFound →
      m.doRequestSerial env t calls =
        .ok (some (.other (mismatchMessage serial device privKey.ID)), m, t,
          calls1 ++ [NetCall.http (serialRequestPOST env cfg sr)])) := by
  have ht := submitsRequest_task env t privKey device cfg calls serialSup sr t1 calls1 hreq
  have hget := getSerial_of_submitted env t privKey device cfg calls serialSup sr t1 calls1
    resp serial hsup hser hreq hurl hdo hstatus hdec
  rw [if_pos hmis, ht] at hget
  refine ⟨hget, rfl, ?_⟩
  intro m hcfg hdev hkey hdb
  have hid := keyPair_ID m device privKey hdev hkey
  unfold DeviceManager.doRequestSerial
  simp only [hcfg, hdev, hkey, hid, hdb, hget]

/-- Witness of C13: the service returns the serial assertion for another key;
`getSerial` fails with a plain error and the task keeps its `serial-setup`. -/
theorem getSerial_mismatch_witness :
    getSerial mismatchEnv polledTask ⟨"key-id"⟩ ⟨"canonical", "pc", "", "key-id"⟩
        sampleConfig [] =
      .ok (.error (.other (mismatchMessage foreignSerial ⟨"canonical", "pc", "", "key-id"⟩
        "key-id")), polledTask,
        [] ++ [NetCall.http (serialRequestPOST mismatchEnv sampleConfig "signed-request")]) :=
  (getSerial_mismatch mismatchEnv polledTask ⟨"key-id"⟩ ⟨"canonical", "pc", "", "key-id"⟩
    sampleConfig [] ⟨"signed-request", ""⟩ "signed-request" polledTask [] ⟨200, "", "serial"⟩
    foreignSerial (.inl rfl) rfl (.inl ⟨by decide, rfl, rfl, rfl⟩) (by decide) (by decide)
    (.inl rfl) rfl (.inr (.inr (by decide)))).1

/-! ## `doRequestSerial` after the serial was obtained -/

/-- C17: for every task whose `serial-setup` holds a serial that is not empty
and decodes to a serial assertion, `getSerial` returns that assertion, leaves
the task as it is and makes no call at all, whatever the stored serial-request
is. -/
theorem getSerial_saved_serial (env : Env) (t : Task) (privKey : asserts.PrivateKey)
    (device : DeviceState) (cfg : serialRequestConfig) (calls : List NetCall)
    (serialSup : serialSetup) (a : asserts.Serial)
    (hsup : t.serialSetup = .ok serialSup) (hser : serialSup.Serial ≠ "")
    (hdec : env.Decode serialSup.Serial = .ok (.serial a)) :
    getSerial env t privKey device cfg calls = .ok (.ok a, t, calls) := by
  unfold getSerial
  simp [hsup, hser, hdec]

/-- Witness of C17: the saved serial decodes to the sample serial assertion,
which is returned with no call made. -/
theorem getSerial_saved_serial_witness :
    getSerial savedEnv savedTask ⟨"key-id"⟩ ⟨"canonical", "pc", "", "key-id"⟩
        sampleConfig [] = .ok (.ok sampleSerial, savedTask, []) :=
  getSerial_saved_serial savedEnv savedTask ⟨"key-id"⟩ ⟨"canonical", "pc", "", "key-id"⟩
    sampleConfig [] ⟨"signed-request", "encoded-serial"⟩ sampleSerial rfl (by decide) rfl

/-- Counterexample to C14 as stated: the serial was obtained, its signing key
is fetched and stored, and adding the serial assertion fails with an
unaccepted-update error; `doRequestSerial` returns that error, the task is not
marked done and the identity gets no serial. -/
theorem doRequestSerial_cross_update_counterexample :
    keyedManager.doRequestSerial crossUpdateEnv savedTask [] =
      .ok (some (.UnacceptedUpdate "cross-update not accepted"),
        { keyedManager with
          state := { keyedManager.state with db := ⟨[.accountKey "sign-key"], none⟩ } },
        savedTask, [NetCall.store "account-key" "sign-key"]) ∧
    savedTask.Status ≠ .DoneStatus ∧
    auth.Device keyedManager.state = .ok ⟨"canonical", "pc", "", "key-id"⟩ := by
  decide

/-- C14, amended: in every run of `doRequestSerial` in which adding the obtained
serial assertion to the assertion database fails with an unaccepted-update
error, the handler does not go on: it returns `state.Retry` with `After` 60
seconds when fetching the signing key had failed, and that error otherwise
(also when adding the fetched signing key itself was refused as an unaccepted
update, which is tolerated); it writes no serial to the identity and does not
mark the task done. -/
theorem doRequestSerial_cross_update (env : Env) (m : DeviceManager) (t : Task)
    (calls : List NetCall) (cfg : serialRequestConfig) (device : DeviceState)
    (privKey : asserts.PrivateKey) (serial : asserts.Serial) (t1 : Task)
    (calls1 : List NetCall) (msg : String)
    (hcfg : getSerialRequestConfig env m.state = .ok cfg)
    (hdev : auth.Device m.state = .ok device)
    (hkey : m.keyPair = .ok privKey)
    (hdb : m.state.db.FindManySerials device.Brand device.Model device.KeyID =
      .error .ErrNotFound)
    (hget : getSerial env t privKey device cfg calls = .ok (.ok serial, t1, calls1)) :
    (∀ e, env.storeAccountKey serial.SignKeyID = .error e →
      env.checkAdd m.state.db (.serial serial) = some (.UnacceptedUpdate msg) →
      m.doRequestSerial env t calls =
        .ok (some (.Retry retryInterval), m,
          t1.Errorf ("cannot fetch signing key for the serial: " ++ e.Error),
          calls1 ++ [NetCall.store "account-key" serial.SignKeyID])) ∧
    (∀ a st1, env.storeAccountKey serial.SignKeyID = .ok a →
      (assertstate.Add env.checkAdd m.state a = (none, st1) ∨
        ∃ msg1, assertstate.Add env.checkAdd m.state a = (some (.UnacceptedUpdate msg1), st1)) →
      env.checkAdd st1.db (.serial serial) = some (.UnacceptedUpdate msg) →
      m.doRequestSerial env t calls =
        .ok (some (.UnacceptedUpdate msg), { m with state := st1 }, t1,
          calls1 ++ [NetCall.store "account-key" serial.SignKeyID]) ∧
      auth.Device st1 = .ok device) ∧
    retryInterval = 60 * second ∧
    (∀ reason, (t1.Errorf reason).Status = t1.Status) := by
  have hid := keyPair_ID m device privKey hdev hkey
  refine ⟨?_, ?_, rfl, fun _ => rfl⟩
  · intro e hfetch hadd
    unfold DeviceManager.doRequestSerial
    simp only [hcfg, hdev, hkey, hid, hdb, hget, hfetch, assertstate.Add, hadd]
  · intro a st1 hfetch hkeyadd hadd
    have hst1 : auth.Device st1 = .ok device := by
      have hsame : st1.auth = m.state.auth := by
        unfold assertstate.Add at hkeyadd
        rcases hkeyadd with h | ⟨msg1, h⟩
        · split at h
          · cases h
          · cases h
            rfl
        · split at h
          · cases h
            rfl
          · cases h
      unfold auth.Device at hdev ⊢
      rw [hsame]
      exact hdev
    refine ⟨?_, hst1⟩
    unfold DeviceManager.doRequestSerial
    rcases hkeyadd with h | ⟨msg1, h⟩
    · simp only [hcfg, hdev, hkey, hid, hdb, hget, hfetch, h]
      simp only [assertstate.Add, hadd]
    · simp only [hcfg, hdev, hkey, hid, hdb, hget, hfetch, h]
      simp only [assertstate.Add, hadd]

/-- Witness of C14, amended: the run of the counterexample, in which the signing
key was fetched and stored and the serial assertion refused. -/
theorem doRequestSerial_cross_update_witness :
    keyedManager.doRequestSerial crossUpdateEnv savedTask [] =
      .ok (some (.UnacceptedUpdate "cross-update not accepted"),
        { keyedManager with
          state := { keyedManager.state with db := ⟨[.accountKey "sign-key"], none⟩ } },
        savedTask, [] ++ [NetCall.store "account-key" sampleSerial.SignKeyID]) :=
  ((doRequestSerial_cross_update crossUpdateEnv keyedManager savedTask [] sampleConfig
    ⟨"canonical", "pc", "", "key-id"⟩ ⟨"key-id"⟩ sampleSerial savedTask []
    "cross-update not accepted" (by decide) (by decide) (by decide) (by decide)
    (by decide)).2.1 (.accountKey "sign-key")
    { keyedManager.state with db := ⟨[.accountKey "sign-key"], none⟩ } rfl (.inl (by decide))
    rfl).1

/-! ## `doGenerateDeviceKey` -/

theorem doGenerateDeviceKey_none_keyID (host : Host) (m : DeviceManager) (t : Task)
    (generated : Nat) (m1 : DeviceManager) (t1 : Task) (g1 : Nat)
    (h : m.doGenerateDeviceKey host t generated = (none, m1, t1, g1)) :
    ∃ d1, auth.Device m1.state = .ok d1 ∧ d1.KeyID ≠ "" := by
  revert h
  simp only [DeviceManager.doGenerateDeviceKey, auth.Device, auth.SetDevice]
  cases hauth : m.state.auth with
  | error e => intro h; cases h
  | ok device =>
    simp only
    by_cases hk : device.KeyID = ""
    · simp only [hk, ne_eq, not_true_eq_false, if_false]
      cases hgen : host.GenerateKey generated keyLength with
      | error e => intro h; cases h
      | ok keyPair =>
        simp only
        cases hput : host.Put m.keypairMgr keyPair.val with
        | some e => intro h; cases h
        | none =>
          simp only [hauth]
          intro h
          cases h
          exact ⟨_, rfl, keyPair.property⟩
    · simp only [hk, ne_eq, not_false_eq_true, if_true]
      intro h
      cases h
      exact ⟨device, hauth, hk⟩

/-- C16: in every state whose identity has a key ID that is not empty,
`doGenerateDeviceKey` returns nil without generating a key and leaves the
manager with the key pair store, the identity and the task as they are; hence
after a run that returned nil, a second run, with whatever collaborators,
changes nothing. -/
theorem doGenerateDeviceKey_noop (host : Host) (m : DeviceManager) (t : Task)
    (generated : Nat) :
    (∀ device, auth.Device m.state = .ok device → device.KeyID ≠ "" →
      m.doGenerateDeviceKey host t generated = (none, m, t, generated)) ∧
    (∀ m1 t1 g1, m.doGenerateDeviceKey host t generated = (none, m1, t1, g1) →
      ∀ host2 : Host, m1.doGenerateDeviceKey host2 t1 g1 = (none, m1, t1, g1)) := by
  have hnoop : ∀ (h : Host) (m : DeviceManager) (t : Task) (g : Nat) (device : DeviceState),
      auth.Device m.state = .ok device → device.KeyID ≠ "" →
      m.doGenerateDeviceKey h t g = (none, m, t, g) := by
    intro h m t g device hdev hk
    unfold DeviceManager.doGenerateDeviceKey
    simp [hdev, hk]
  refine ⟨hnoop host m t generated, ?_⟩
  intro m1 t1 g1 hrun host2
  obtain ⟨d1, hd1, hk1⟩ := doGenerateDeviceKey_none_keyID host m t generated m1 t1 g1 hrun
  exact hnoop host2 m1 t1 g1 d1 hd1 hk1

/-- Witness of C16: on a manager whose identity has the key `key-id` nothing
changes and no key is generated; and after a first run that generated a key, a
second run changes nothing. -/
theorem doGenerateDeviceKey_noop_witness :
    keyedManager.doGenerateDeviceKey sampleHost keyTask 0 = (none, keyedManager, keyTask, 0) ∧
    (sampleManager.doGenerateDeviceKey sampleHost keyTask 0).2.2.2 = 1 ∧
    (sampleManager.doGenerateDeviceKey sampleHost keyTask 0).2.1.doGenerateDeviceKey sampleHost
        (sampleManager.doGenerateDeviceKey sampleHost keyTask 0).2.2.1 1 =
      (none, (sampleManager.doGenerateDeviceKey sampleHost keyTask 0).2.1,
        (sampleManager.doGenerateDeviceKey sampleHost keyTask 0).2.2.1, 1) :=
  ⟨(doGenerateDeviceKey_noop sampleHost keyedManager keyTask 0).1 ⟨"canonical", "pc", "", "key-id"⟩
      rfl (by decide),
   by decide,
   (doGenerateDeviceKey_noop sampleHost sampleManager keyTask 0).2 _ _ _ (by decide) sampleHost⟩

/-! ## `checkGadgetOrKernel` on classic -/

/-- C18: on a classic system, for every state, every snap of type kernel and
every flags value, `checkGadgetOrKernel` fails with the error
`cannot install a kernel snap on classic`, whatever the model. -/
theorem checkGadgetOrKernel_kernel_on_classic (env : Env) (host : Host) (st : State)
    (snapInfo : snap.Info) (curInfo : Option snap.Info) (flags : snapstate.Flags)
    (hclassic : env.OnClassic = true) (hkernel : snapInfo.Typ = .TypeKernel) :
    checkGadgetOrKernel env host st snapInfo curInfo flags =
      some (.other "cannot install a kernel snap on classic") := by
  unfold checkGadgetOrKernel
  simp [hclassic, hkernel]

/-- Witness of C18: a kernel snap on a classic system, on a state with no model
assertion and on one with the model assertion. -/
theorem checkGadgetOrKernel_kernel_on_classic_witness :
    checkGadgetOrKernel classicEnv sampleHost sampleState kernelSnap none 0 =
      some (.other "cannot install a kernel snap on classic") ∧
    checkGadgetOrKernel classicEnv sampleHost operationalState kernelSnap none 0 =
      some (.other "cannot install a kernel snap on classic") :=
  ⟨checkGadgetOrKernel_kernel_on_classic classicEnv sampleHost sampleState kernelSnap none 0
      rfl rfl,
   checkGadgetOrKernel_kernel_on_classic classicEnv sampleHost operationalState kernelSnap none 0
      rfl rfl⟩

/-! ## `Model` and `Serial` -/

theorem find_spec {α : Type} (l : List α) (p : α → Bool) :
    (l.find? p = none ∧ ¬ ∃ a ∈ l, p a = true) ∨
      (∃ a, l.find? p = some a ∧ a ∈ l ∧ p a = true) := by
  cases h : l.find? p with
  | none =>
    left
    refine ⟨rfl, ?_⟩
    rintro ⟨a, ha, hp⟩
    rw [List.find?_eq_none] at h
    exact h a ha hp
  | some a => exact .inr ⟨a, rfl, List.mem_of_find?_eq_some h, List.find?_some h⟩

theorem Model_eq (env : Env) (st : State) (device : DeviceState)
    (hdev : auth.Device st = .ok device) (hdb : st.db.fault = none) :
    Model env st =
      if device.Brand = "" ∨ device.Model = "" then .error .ErrNoState
      else
        match (asserts.models st.db.assertions).find?
          (fun a => a.Series == env.Series && a.BrandID == device.Brand &&
            a.Model == device.Model) with
        | some a => .ok a
        | none => .error .ErrNoState := by
  unfold Model asserts.Database.FindModel
  simp only [hdev, hdb]
  split
  · rfl
  · cases (asserts.models st.db.assertions).find?
      (fun a => a.Series == env.Series && a.BrandID == device.Brand &&
        a.Model == device.Model) <;> rfl

theorem Serial_eq (st : State) (device : DeviceState)
    (hdev : auth.Device st = .ok device) (hdb : st.db.fault = none) :
    Serial st =
      if device.Serial = "" then .error .ErrNoState
      else
        match (asserts.serials st.db.assertions).find?
          (fun a => a.BrandID == device.Brand && a.Model == device.Model &&
            a.Serial == device.Serial) with
        | some a => .ok a
        | none => .error .ErrNoState := by
  unfold Serial asserts.Database.FindSerial
  simp only [hdev, hdb]
  split
  · rfl
  · cases (asserts.serials st.db.assertions).find?
      (fun a => a.BrandID == device.Brand && a.Model == device.Model &&
        a.Serial == device.Serial) <;> rfl

/-- Counterexample to C19 as stated: the lookups of the assertion database do
not fail, but the device identity cannot be read; `Model` and `Serial` return
the error of that read, which is neither `state.ErrNoState` nor an assertion. -/
theorem Model_notReady_counterexample :
    unreadableState.db.fault = none ∧
    Model sampleEnv unreadableState = .error (.other "cannot unmarshal state entry") ∧
    Serial unreadableState = .error (.other "cannot unmarshal state entry") ∧
    Model sampleEnv unreadableState ≠ .error .ErrNoState ∧
    Serial unreadableState ≠ .error .ErrNoState := by
  decide

theorem Model_Serial_readable (env : Env) (st : State) (device : DeviceState)
    (hdev : auth.Device st = .ok device) (hdb : st.db.fault = none) :
    (Model env st = .error .ErrNoState ↔
      device.Brand = "" ∨ device.Model = "" ∨
        ¬ ∃ a ∈ asserts.models st.db.assertions,
          a.Series = env.Series ∧ a.BrandID = device.Brand ∧ a.Model = device.Model) ∧
    (Model env st = .error .ErrNoState ∨
      ∃ a ∈ asserts.models st.db.assertions, Model env st = .ok a ∧
        a.Series = env.Series ∧ a.BrandID = device.Brand ∧ a.Model = device.Model) ∧
    (Serial st = .error .ErrNoState ↔
      device.Serial = "" ∨
        ¬ ∃ a ∈ asserts.serials st.db.assertions,
          a.BrandID = device.Brand ∧ a.Model = device.Model ∧ a.Serial = device.Serial) ∧
    (Serial st = .error .ErrNoState ∨
      ∃ a ∈ asserts.serials st.db.assertions, Serial st = .ok a ∧
        a.BrandID = device.Brand ∧ a.Model = device.Model ∧ a.Serial = device.Serial) := by
  rw [Model_eq env st device hdev hdb, Serial_eq st device hdev hdb]
  refine ⟨?_, ?_, ?_, ?_⟩
  · by_cases hbm : device.Brand = "" ∨ device.Model = ""
    · rw [if_pos hbm]
      rcases hbm with h | h
      · simp [h]
      · simp [h]
    · rw [if_neg hbm]
      have hb : device.Brand ≠ "" := fun h => hbm (.inl h)
      have hm : device.Model ≠ "" := fun h => hbm (.inr h)
      rcases find_spec (asserts.models st.db.assertions)
          (fun a => a.Series == env.Series && a.BrandID == device.Brand &&
            a.Model == device.Model) with ⟨hnone, hno⟩ | ⟨a, hsome, _, hp⟩
      · rw [hnone]
        simp only [true_iff]
        right; right
        rintro ⟨a, ha, h1, h2, h3⟩
        exact hno ⟨a, ha, by simp [h1, h2, h3]⟩
      · rw [hsome]
        constructor
        · intro h; cases h
        · rintro (h | h | h)
          · exact absurd h hb
          · exact absurd h hm
          · exfalso
            apply h
            simp only [Bool.and_eq_true, beq_iff_eq] at hp
            exact ⟨a, by assumption, hp.1.1, hp.1.2, hp.2⟩
  · by_cases hbm : device.Brand = "" ∨ device.Model = ""
    · rw [if_pos hbm]; exact .inl rfl
    · rw [if_neg hbm]
      rcases find_spec (asserts.models st.db.assertions)
          (fun a => a.Series == env.Series && a.BrandID == device.Brand &&
            a.Model == device.Model) with ⟨hnone, _⟩ | ⟨a, hsome, ha, hp⟩
      · rw [hnone]; exact .inl rfl
      · rw [hsome]
        simp only [Bool.and_eq_true, beq_iff_eq] at hp
        exact .inr ⟨a, ha, rfl, hp.1.1, hp.1.2, hp.2⟩
  · by_cases hs : device.Serial = ""
    · rw [if_pos hs]
      simp [hs]
    · rw [if_neg hs]
      rcases find_spec (asserts.serials st.db.assertions)
          (fun a => a.BrandID == device.Brand && a.Model == device.Model &&
            a.Serial == device.Serial) with ⟨hnone, hno⟩ | ⟨a, hsome, ha, hp⟩
      · rw [hnone]
        simp only [true_iff]
        right
        rintro ⟨a, ha, h1, h2, h3⟩
        exact hno ⟨a, ha, by simp [h1, h2, h3]⟩
      · rw [hsome]
        constructor
        · intro h; cases h
        · rintro (h | h)
          · exact absurd h hs
          · exfalso
            apply h
            simp only [Bool.and_eq_true, beq_iff_eq] at hp
            exact ⟨a, ha, hp.1.1, hp.1.2, hp.2⟩
  · by_cases hs : device.Serial = ""
    · rw [if_pos hs]; exact .inl rfl
    · rw [if_neg hs]
      rcases find_spec (asserts.serials st.db.assertions)
          (fun a => a.BrandID == device.Brand && a.Model == device.Model &&
            a.Serial == device.Serial) with ⟨hnone, _⟩ | ⟨a, hsome, ha, hp⟩
      · rw [hnone]; exact .inl rfl
      · rw [hsome]
        simp only [Bool.and_eq_true, beq_iff_eq] at hp
        exact .inr ⟨a, ha, rfl, hp.1.1, hp.1.2, hp.2⟩

theorem Model_Serial_unreadable (env : Env) (st : State) (e : Err)
    (h : auth.Device st = .error e) : Model env st = .error e ∧ Serial st = .error e := by
  unfold Model Serial
  rw [h]
  exact ⟨rfl, rfl⟩

/-- C19, amended: in every state whose device identity can be read and whose
assertion database lookups fail only with not-found: `Model` fails with
`state.ErrNoState` exactly when the brand is empty, or the model is empty, or
the database holds no model assertion for the series, the brand and the model,
and otherwise returns such an assertion of the database; `Serial` fails with
`state.ErrNoState` exactly when the serial of the identity is empty or the
database holds no serial assertion for the brand, the model and the serial, and
otherwise returns such an assertion of the database. In every state whose
device identity cannot be read, `Model` and `Serial` both return the error of
that read. -/
theorem Model_Serial_notReady (env : Env) (st : State) :
    (∀ device, auth.Device st = .ok device → st.db.fault = none →
      (Model env st = .error .ErrNoState ↔
        device.Brand = "" ∨ device.Model = "" ∨
          ¬ ∃ a ∈ asserts.models st.db.assertions,
            a.Series = env.Series ∧ a.BrandID = device.Brand ∧ a.Model = device.Model) ∧
      (Model env st = .error .ErrNoState ∨
        ∃ a ∈ asserts.models st.db.assertions, Model env st = .ok a ∧
          a.Series = env.Series ∧ a.BrandID = device.Brand ∧ a.Model = device.Model) ∧
      (Serial st = .error .ErrNoState ↔
        device.Serial = "" ∨
          ¬ ∃ a ∈ asserts.serials st.db.assertions,
            a.BrandID = device.Brand ∧ a.Model = device.Model ∧ a.Serial = device.Serial) ∧
      (Serial st = .error .ErrNoState ∨
        ∃ a ∈ asserts.serials st.db.assertions, Serial st = .ok a ∧
          a.BrandID = device.Brand ∧ a.Model = device.Model ∧ a.Serial = device.Serial)) ∧
    (∀ e, auth.Device st = .error e → Model env st = .error e ∧ Serial st = .error e) :=
  ⟨fun device hdev hdb => Model_Serial_readable env st device hdev hdb,
   fun e h => Model_Serial_unreadable env st e h⟩

/-- Witness of C19, amended: on the state of serial `42` whose database holds
the model and the serial assertion, both accessors return them; on the sample
state, with an empty database, `Model` is not ready; on the state whose
identity cannot be read, both return the error of the read. -/
theorem Model_Serial_notReady_witness :
    Model sampleEnv operationalState = .ok ⟨"16", "canonical", "pc", "pc", "pc-kernel"⟩ ∧
    Serial operationalState = .ok sampleSerial ∧
    Model sampleEnv sampleState = .error .ErrNoState ∧
    Model sampleEnv unreadableState = .error (.other "cannot unmarshal state entry") ∧
    Serial unreadableState = .error (.other "cannot unmarshal state entry") :=
  ⟨by decide, by decide,
   ((Model_Serial_notReady sampleEnv sampleState).1 ⟨"canonical", "pc", "", ""⟩ rfl rfl).1.mpr
     (.inr (.inr (by rintro ⟨a, ha, _⟩; cases ha))),
   (Model_Serial_notReady sampleEnv unreadableState).2 _ rfl⟩

/-! ## `Ensure` -/

/-- C20: `Ensure` runs `ensureSeedYaml`, then `ensureOperational` on the manager
that leaves, then `ensureBootOk` on the manager that leaves, whatever each of
them returned, and then drives the task runner once; it returns nil exactly
when all three returned nil, and otherwise an `ensureError` whose errors are
exactly those returned, in that order. -/
theorem Ensure_accumulates (env : Env) (host : Host) (m : DeviceManager) (now : Time) :
    (m.Ensure env host now).2 =
      { (((m.ensureSeedYaml host).2.ensureOperational now).2.ensureBootOk env host).2 with
        state := host.runnerEnsure
          (((m.ensureSeedYaml host).2.ensureOperational now).2.ensureBootOk env host).2.state } ∧
    ((m.Ensure env host now).1 = none ↔
      (m.ensureSeedYaml host).1 = none ∧
      ((m.ensureSeedYaml host).2.ensureOperational now).1 = none ∧
      (((m.ensureSeedYaml host).2.ensureOperational now).2.ensureBootOk env host).1 = none) ∧
    ((m.Ensure env host now).1 = none ∨
      (m.Ensure env host now).1 =
        some ⟨(m.ensureSeedYaml host).1.toList ++
          ((m.ensureSeedYaml host).2.ensureOperational now).1.toList ++
          (((m.ensureSeedYaml host).2.ensureOperational now).2.ensureBootOk env host).1.toList⟩) := by
  simp only [DeviceManager.Ensure]
  generalize m.ensureSeedYaml host = r1
  obtain ⟨e1, m1⟩ := r1
  simp only
  generalize m1.ensureOperational now = r2
  obtain ⟨e2, m2⟩ := r2
  simp only
  generalize m2.ensureBootOk env host = r3
  obtain ⟨e3, m3⟩ := r3
  cases e1 <;> cases e2 <;> cases e3 <;> simp

/-- Witness of C20: on a host with no boot loader, the first two steps return
nil and the third fails; `Ensure` returns exactly that one error, and the
change made by `ensureOperational` is kept. -/
theorem Ensure_accumulates_witness :
    (sampleManager.Ensure sampleEnv noBootloaderHost (1 * second)).1 =
      some ⟨[.other "cannot mark boot successful: no bootloader"]⟩ ∧
    ((sampleManager.Ensure sampleEnv noBootloaderHost (1 * second)).2.nonReady
      "become-operational").length = 1 ∧
    ((sampleManager.Ensure sampleEnv sampleHost (1 * second)).1 = none ↔
      (sampleManager.ensureSeedYaml sampleHost).1 = none ∧
      ((sampleManager.ensureSeedYaml sampleHost).2.ensureOperational (1 * second)).1 = none ∧
      (((sampleManager.ensureSeedYaml sampleHost).2.ensureOperational
        (1 * second)).2.ensureBootOk sampleEnv sampleHost).1 = none) :=
  ⟨by decide, by decide,
   (Ensure_accumulates sampleEnv sampleHost sampleManager (1 * second)).2.1⟩

/-! ## The serial of the identity is backed by the assertion database -/

theorem retryBadStatus_setup (env : Env) (t : Task) (reason : String) (resp : http.Response)
    (r : Err × Task) (h : retryBadStatus env t reason resp = .ok r) :
    r.2.serialSetup = t.serialSetup := by
  revert h
  simp only [retryBadStatus, retryErr]
  repeat' split
  all_goals
    intro h
    first
      | (cases h; rfl)
      | cases h

theorem prepareSerialRequest_setup (env : Env) (t : Task) (privKey : asserts.PrivateKey)
    (device : DeviceState) (cfg : serialRequestConfig) (calls : List NetCall)
    (r : Except Err String) (t1 : Task) (calls1 : List NetCall)
    (h : prepareSerialRequest env t privKey device cfg calls = .ok (r, t1, calls1)) :
    t1.serialSetup = t.serialSetup := by
  revert h
  simp only [prepareSerialRequest, retryErr]
  repeat' split
  all_goals
    intro h
    first
      | (cases h; rfl)
      | (cases h; exact retryBadStatus_setup _ _ _ _ _ (by assumption))
      | cases h

theorem submitSerialRequest_setup (env : Env) (t : Task) (sr : String)
    (cfg : serialRequestConfig) (calls : List NetCall)
    (r : Except Err asserts.Serial) (t1 : Task) (calls1 : List NetCall)
    (h : submitSerialRequest env t sr cfg calls = .ok (r, t1, calls1)) :
    t1.serialSetup = t.serialSetup := by
  revert h
  simp only [submitSerialRequest, retryErr]
  repeat' split
  all_goals
    intro h
    first
      | (cases h; rfl)
      | (cases h; exact retryBadStatus_setup _ _ _ _ _ (by assumption))
      | cases h

theorem getSerial_eq_afterSubmit (env : Env) (t : Task) (privKey : asserts.PrivateKey)
    (device : DeviceState) (cfg : serialRequestConfig) (calls : List NetCall)
    (serialSup : serialSetup) (sr : String) (t1 : Task) (calls1 : List NetCall)
    (hsup : t.loadsSerialSetup serialSup) (hser : serialSup.Serial = "")
    (hreq : submitsRequest env t privKey device cfg calls serialSup sr t1 calls1) :
    getSerial env t privKey device cfg calls =
      getSerialAfterSubmit env privKey device ⟨sr, ""⟩
        (submitSerialRequest env t1 sr cfg calls1) := by
  obtain ⟨srq, ser⟩ := serialSup
  simp only at hser
  subst hser
  unfold getSerial getSerialAfterSubmit mismatchMessage
  rcases hsup with hsup | ⟨hsup, hz⟩
  · rcases hreq with ⟨hne, hsr, ht, hc⟩ | ⟨he, hprep⟩
    · simp only at hne hsr
      subst hsr ht hc
      simp [hsup, hne]
    · simp only at he
      subst he
      simp [hsup, hprep]
  · cases hz
    rcases hreq with ⟨hne, _, _, _⟩ | ⟨_, hprep⟩
    · exact absurd rfl hne
    · simp [hsup, hprep]

theorem getSerialAfterSubmit_outcome (env : Env) (privKey : asserts.PrivateKey)
    (device : DeviceState) (cfg : serialRequestConfig) (sr : String) (tp : Task)
    (cp : List NetCall) (res : Except Err asserts.Serial) (t1 : Task) (calls1 : List NetCall)
    (h : getSerialAfterSubmit env privKey device ⟨sr, ""⟩
      (submitSerialRequest env tp sr cfg cp) = .ok (res, t1, calls1)) :
    (t1.serialSetup = tp.serialSetup ∧ ∀ serial, res ≠ .ok serial) ∨
    (∃ sr1, t1.serialSetup = .ok ⟨sr1, ""⟩ ∧ ∀ serial, res ≠ .ok serial) ∨
    (∃ sr1 serial, t1.serialSetup = .ok ⟨sr1, env.EncodeSerial serial⟩ ∧
      serial.BrandID = device.Brand ∧ serial.Model = device.Model ∧
      (res = .ok serial ∨ res = .error (.Retry 0))) := by
  cases hsub : submitSerialRequest env tp sr cfg cp with
  | error p =>
    rw [hsub] at h
    simp [getSerialAfterSubmit] at h
  | ok v =>
    obtain ⟨r, t2, c2⟩ := v
    have hset := submitSerialRequest_setup env tp sr cfg cp r t2 c2 hsub
    rw [hsub] at h
    cases r with
    | error err =>
      cases err <;> simp only [getSerialAfterSubmit, Except.ok.injEq, Prod.mk.injEq] at h
      case errPoll =>
        obtain ⟨h1, h2, _⟩ := h
        subst h1 h2
        exact .inr (.inl ⟨sr, rfl, fun _ hc => by cases hc⟩)
      all_goals
        obtain ⟨h1, h2, _⟩ := h
        subst h1 h2
        exact .inl ⟨hset, fun _ hc => by cases hc⟩
    | ok serial =>
      simp only [getSerialAfterSubmit] at h
      by_cases hmis : serial.BrandID ≠ device.Brand ∨ serial.Model ≠ device.Model ∨
          serial.DeviceKeyID ≠ privKey.ID
      · rw [if_pos hmis] at h
        simp only [Except.ok.injEq, Prod.mk.injEq] at h
        obtain ⟨h1, h2, _⟩ := h
        subst h1 h2
        exact .inl ⟨hset, fun _ hc => by cases hc⟩
      · rw [if_neg hmis] at h
        have hb : serial.BrandID = device.Brand := by
          by_contra hc
          exact hmis (.inl hc)
        have hm : serial.Model = device.Model := by
          by_contra hc
          exact hmis (.inr (.inl hc))
        by_cases hrep : env.repeatRequestSerial = "after-got-serial"
        · rw [if_pos hrep] at h
          simp only [Except.ok.injEq, Prod.mk.injEq] at h
          obtain ⟨h1, h2, _⟩ := h
          subst h1 h2
          exact .inr (.inr ⟨sr, serial, rfl, hb, hm, .inr rfl⟩)
        · rw [if_neg hrep] at h
          simp only [Except.ok.injEq, Prod.mk.injEq] at h
          obtain ⟨h1, h2, _⟩ := h
          subst h1 h2
          exact .inr (.inr ⟨sr, serial, rfl, hb, hm, .inl rfl⟩)

theorem getSerial_of_prepare (env : Env) (t : Task) (privKey : asserts.PrivateKey)
    (device : DeviceState) (cfg : serialRequestConfig) (calls : List NetCall)
    (serialSup : serialSetup)
    (hsup : t.loadsSerialSetup serialSup) (hser : serialSup.Serial = "")
    (hq : serialSup.SerialRequest = "") :
    getSerial env t privKey device cfg calls =
      match prepareSerialRequest env t privKey device cfg calls with
      | .error p => .error p
      | .ok (.error err, t1, calls1) => .ok (.error err, t1, calls1)
      | .ok (.ok sr, t1, calls1) =>
        getSerialAfterSubmit env privKey device ⟨sr, ""⟩
          (submitSerialRequest env t1 sr cfg calls1) := by
  cases hprep : prepareSerialRequest env t privKey device cfg calls with
  | error p =>
    obtain ⟨srq, ser⟩ := serialSup
    simp only at hser hq
    subst hser hq
    unfold getSerial
    rcases hsup with hsup | ⟨hsup, _⟩ <;> simp [hsup, hprep]
  | ok v =>
    obtain ⟨r, tp, cp⟩ := v
    cases r with
    | error err =>
      obtain ⟨srq, ser⟩ := serialSup
      simp only at hser hq
      subst hser hq
      unfold getSerial
      rcases hsup with hsup | ⟨hsup, _⟩ <;> simp [hsup, hprep]
    | ok sr =>
      simp only
      exact getSerial_eq_afterSubmit env t privKey device cfg calls serialSup sr tp cp hsup hser
        (.inr ⟨hq, hprep⟩)

theorem getSerial_network (env : Env) (t : Task) (privKey : asserts.PrivateKey)
    (device : DeviceState) (cfg : serialRequestConfig) (calls : List NetCall)
    (serialSup : serialSetup) (res : Except Err asserts.Serial) (t1 : Task)
    (calls1 : List NetCall)
    (hload : t.loadsSerialSetup serialSup) (hser : serialSup.Serial = "")
    (h : getSerial env t privKey device cfg calls = .ok (res, t1, calls1)) :
    (t1.serialSetup = t.serialSetup ∧ ∀ serial, res ≠ .ok serial) ∨
    (∃ sr, t1.serialSetup = .ok ⟨sr, ""⟩ ∧ ∀ serial, res ≠ .ok serial) ∨
    (∃ sr serial, t1.serialSetup = .ok ⟨sr, env.EncodeSerial serial⟩ ∧
      serial.BrandID = device.Brand ∧ serial.Model = device.Model ∧
      (res = .ok serial ∨ res = .error (.Retry 0))) := by
  by_cases hq : serialSup.SerialRequest = ""
  · rw [getSerial_of_prepare env t privKey device cfg calls serialSup hload hser hq] at h
    cases hprep : prepareSerialRequest env t privKey device cfg calls with
    | error p =>
      rw [hprep] at h
      cases h
    | ok v =>
      obtain ⟨r, tp, cp⟩ := v
      have hset := prepareSerialRequest_setup env t privKey device cfg calls r tp cp hprep
      rw [hprep] at h
      cases r with
      | error err =>
        simp only [Except.ok.injEq, Prod.mk.injEq] at h
        obtain ⟨h1, h2, _⟩ := h
        subst h1 h2
        exact .inl ⟨hset, fun _ hc => by cases hc⟩
      | ok sr =>
        simp only at h
        have ho := getSerialAfterSubmit_outcome env privKey device cfg sr tp cp res t1 calls1 h
        rw [hset] at ho
        exact ho
  · rw [getSerial_eq_afterSubmit env t privKey device cfg calls serialSup
      serialSup.SerialRequest t calls hload hser (.inl ⟨hq, rfl, rfl, rfl⟩)] at h
    exact getSerialAfterSubmit_outcome env privKey device cfg _ t calls res t1 calls1 h

theorem getSerial_backed (env : Env) (encode : asserts.Serial → String)
    (decode : String → Except String asserts.Assertion)
    (henc : env.EncodeSerial = encode) (hdec : env.Decode = decode)
    (hcodec : ∀ s a, decode (encode s) = .ok (.serial a) →
      a.BrandID = s.BrandID ∧ a.Model = s.Model)
    (t : Task) (privKey : asserts.PrivateKey) (device : DeviceState)
    (cfg : serialRequestConfig) (calls : List NetCall)
    (res : Except Err asserts.Serial) (t1 : Task) (calls1 : List NetCall)
    (hscr : ∀ sup, t.serialSetup = .ok sup → sup.Serial ≠ "" →
      ∃ s, sup.Serial = encode s ∧ s.BrandID = device.Brand ∧ s.Model = device.Model)
    (h : getSerial env t privKey device cfg calls = .ok (res, t1, calls1)) :
    (∀ sup, t1.serialSetup = .ok sup → sup.Serial ≠ "" →
      ∃ s, sup.Serial = encode s ∧ s.BrandID = device.Brand ∧ s.Model = device.Model) ∧
    (∀ serial, res = .ok serial →
      serial.BrandID = device.Brand ∧ serial.Model = device.Model) := by
  have hnet : ∀ serialSup : serialSetup, t.loadsSerialSetup serialSup → serialSup.Serial = "" →
      (∀ sup, t1.serialSetup = .ok sup → sup.Serial ≠ "" →
        ∃ s, sup.Serial = encode s ∧ s.BrandID = device.Brand ∧ s.Model = device.Model) ∧
      (∀ serial, res = .ok serial →
        serial.BrandID = device.Brand ∧ serial.Model = device.Model) := by
    intro serialSup hload hser
    rcases getSerial_network env t privKey device cfg calls serialSup res t1 calls1 hload hser h
      with ⟨hset, hres⟩ | ⟨sr, hset, hres⟩ | ⟨sr, serial, hset, hb, hm, hres⟩
    · refine ⟨?_, fun serial hc => absurd hc (hres serial)⟩
      intro sup hsup hne
      rw [hset] at hsup
      exact hscr sup hsup hne
    · refine ⟨?_, fun serial hc => absurd hc (hres serial)⟩
      intro sup hsup hne
      rw [hset] at hsup
      cases hsup
      exact absurd rfl hne
    · constructor
      · intro sup hsup _
        rw [hset] at hsup
        cases hsup
        exact ⟨serial, by rw [henc], hb, hm⟩
      · intro serial1 hc
        rcases hres with hres | hres
        · rw [hres] at hc
          cases hc
          exact ⟨hb, hm⟩
        · rw [hres] at hc
          cases hc
  cases hs : t.serialSetup with
  | error e =>
    by_cases he : e = .ErrNoState
    · subst he
      exact hnet ⟨"", ""⟩ (.inr ⟨hs, rfl⟩) rfl
    · have hget : getSerial env t privKey device cfg calls = .ok (.error e, t, calls) := by
        unfold getSerial
        cases e <;> simp [hs] at he ⊢
      rw [hget] at h
      simp only [Except.ok.injEq, Prod.mk.injEq] at h
      obtain ⟨h1, h2, _⟩ := h
      subst h1 h2
      exact ⟨hscr, fun _ hc => by cases hc⟩
  | ok sup =>
    by_cases hser : sup.Serial = ""
    · exact hnet sup (.inl hs) hser
    · obtain ⟨s, hs1, hsb, hsm⟩ := hscr sup hs hser
      unfold getSerial at h
      simp only [hs, hser, ne_eq, not_false_eq_true, if_true] at h
      cases hd : env.Decode sup.Serial with
      | error e =>
        rw [hd] at h
        simp only [Except.ok.injEq, Prod.mk.injEq] at h
        obtain ⟨h1, h2, _⟩ := h
        subst h1 h2
        exact ⟨hscr, fun _ hc => by cases hc⟩
      | ok a =>
        rw [hd] at h
        cases a with
        | serial a =>
          simp only [Except.ok.injEq, Prod.mk.injEq] at h
          obtain ⟨h1, h2, _⟩ := h
          subst h1 h2
          refine ⟨hscr, ?_⟩
          intro serial hc
          cases hc
          rw [hdec, hs1] at hd
          obtain ⟨h1, h2⟩ := hcodec s _ hd
          exact ⟨h1.trans hsb, h2.trans hsm⟩
        | model a => cases h
        | accountKey k => cases h
        | other n => cases h

theorem serials_mem_append (l : List asserts.Assertion) (a : asserts.Assertion)
    (s : asserts.Serial) (h : s ∈ asserts.serials l) : s ∈ asserts.serials (l ++ [a]) := by
  induction l with
  | nil => cases h
  | cons x rest ih =>
    cases x with
    | serial b =>
      simp only [asserts.serials, List.cons_append, List.mem_cons] at h ⊢
      exact h.imp id ih
    | model b => exact ih h
    | accountKey b => exact ih h
    | other b => exact ih h

theorem serials_mem_self (l : List asserts.Assertion) (s : asserts.Serial) :
    s ∈ asserts.serials (l ++ [.serial s]) := by
  induction l with
  | nil => simp [asserts.serials]
  | cons x rest ih =>
    cases x with
    | serial b =>
      simp only [asserts.serials, List.cons_append, List.mem_cons]
      exact .inr ih
    | model b => exact ih
    | accountKey b => exact ih
    | other b => exact ih

theorem assertstate_Add_auth (check : asserts.Database → asserts.Assertion → Option Err)
    (st : State) (a : asserts.Assertion) :
    (assertstate.Add check st a).2.auth = st.auth ∧
      ∀ s ∈ asserts.serials st.db.assertions,
        s ∈ asserts.serials (assertstate.Add check st a).2.db.assertions := by
  unfold assertstate.Add
  split
  · exact ⟨rfl, fun _ hs => hs⟩
  · exact ⟨rfl, fun s hs => serials_mem_append _ a s hs⟩

theorem assertstate_Add_serial (check : asserts.Database → asserts.Assertion → Option Err)
    (st : State) (s : asserts.Serial)
    (h : (assertstate.Add check st (.serial s)).1 = none) :
    s ∈ asserts.serials (assertstate.Add check st (.serial s)).2.db.assertions := by
  unfold assertstate.Add at h ⊢
  split
  · rename_i e he
    rw [he] at h
    cases h
  · exact serials_mem_self _ s

theorem FindManySerials_mem (db : asserts.Database) (brand model keyID : String)
    (l : List asserts.Serial) (h : db.FindManySerials brand model keyID = .ok l)
    (s : asserts.Serial) (hs : s ∈ l) :
    s ∈ asserts.serials db.assertions ∧ s.BrandID = brand ∧ s.Model = model := by
  unfold asserts.Database.FindManySerials at h
  split at h
  · cases h
  · split at h
    · cases h
    · rename_i hne
      cases h
      have := List.mem_filter.mp hs
      simp only [Bool.and_eq_true, beq_iff_eq, and_assoc] at this
      exact ⟨this.1, this.2.1, this.2.2.1⟩

theorem keyPair_keyID_ne (m : DeviceManager) (device : DeviceState)
    (privKey : asserts.PrivateKey)
    (hdev : auth.Device m.state = .ok device) (hkey : m.keyPair = .ok privKey) :
    device.KeyID ≠ "" := by
  unfold DeviceManager.keyPair at hkey
  simp only [hdev] at hkey
  split at hkey
  · cases hkey
  · assumption

theorem SetDevice_ok (st : State) (device0 device : DeviceState)
    (h : auth.Device st = .ok device0) :
    auth.SetDevice st device = (none, { st with auth := .ok device }) := by
  have h' : st.auth = .ok device0 := h
  unfold auth.SetDevice
  rw [h']

theorem identityBacked_set (m1 : DeviceManager) (device : DeviceState) (s : asserts.Serial)
    (hauth : auth.Device m1.state = .ok { device with Serial := s.Serial })
    (hkey : device.KeyID ≠ "") (hmem : s ∈ asserts.serials m1.state.db.assertions)
    (hb : s.BrandID = device.Brand) (hm : s.Model = device.Model) : identityBacked m1 := by
  intro d hd _
  rw [hauth] at hd
  cases hd
  exact ⟨hkey, s, hmem, hb, hm, rfl⟩

theorem identityBacked_grow (m m1 : DeviceManager)
    (hauth : auth.Device m1.state = auth.Device m.state)
    (hsub : ∀ a ∈ asserts.serials m.state.db.assertions,
      a ∈ asserts.serials m1.state.db.assertions)
    (h : identityBacked m) : identityBacked m1 := by
  intro d hd hne
  rw [hauth] at hd
  obtain ⟨hk, a, ha, hrest⟩ := h d hd hne
  exact ⟨hk, a, hsub a ha, hrest⟩

theorem scratchBacked_intro (encode : asserts.Serial → String) (m1 : DeviceManager)
    (t1 : Task) (device : DeviceState)
    (h : ∀ d, auth.Device m1.state = .ok d → d.Brand = device.Brand ∧ d.Model = device.Model)
    (hs : ∀ sup, t1.serialSetup = .ok sup → sup.Serial ≠ "" →
      ∃ s, sup.Serial = encode s ∧ s.BrandID = device.Brand ∧ s.Model = device.Model) :
    scratchBacked encode m1 t1 := by
  intro d sup hd hsup hne
  obtain ⟨hb, hm⟩ := h d hd
  rw [hb, hm]
  exact hs sup hsup hne

theorem doRequestSerial_backed (env : Env) (encode : asserts.Serial → String)
    (decode : String → Except String asserts.Assertion)
    (henc : env.EncodeSerial = encode) (hdec : env.Decode = decode)
    (hcodec : ∀ s a, decode (encode s) = .ok (.serial a) →
      a.BrandID = s.BrandID ∧ a.Model = s.Model)
    (m m1 : DeviceManager) (t t1 : Task) (calls calls1 : List NetCall) (r : Option Err)
    (hid : identityBacked m) (hscr : scratchBacked encode m t)
    (h : m.doRequestSerial env t calls = .ok (r, m1, t1, calls1)) :
    identityBacked m1 ∧ scratchBacked encode m1 t1 := by
  have hsame : ∀ x : Option Err, ∀ c : List NetCall,
      (Except.ok (x, m, t, c) : Except Panic _) = .ok (r, m1, t1, calls1) →
      identityBacked m1 ∧ scratchBacked encode m1 t1 := by
    intro x c hx
    simp only [Except.ok.injEq, Prod.mk.injEq] at hx
    obtain ⟨-, rfl, rfl, -⟩ := hx
    exact ⟨hid, hscr⟩
  unfold DeviceManager.doRequestSerial at h
  cases hcfg : getSerialRequestConfig env m.state with
  | error err => simp only [hcfg] at h; exact hsame _ _ h
  | ok cfg =>
  cases hdev : auth.Device m.state with
  | error err => simp only [hcfg, hdev] at h; exact hsame _ _ h
  | ok device =>
  cases hkp : m.keyPair with
  | error err =>
    simp only [hcfg, hdev, hkp] at h
    split at h <;> first | exact hsame _ _ h | (rename_i heq; cases heq)
  | ok privKey =>
  have hkne := keyPair_keyID_ne m device privKey hdev hkp
  have hdevd : ∀ d, auth.Device m.state = .ok d → d.Brand = device.Brand ∧ d.Model = device.Model := by
    intro d hd
    rw [hdev] at hd
    cases hd
    exact ⟨rfl, rfl⟩
  have hauth : m.state.auth = .ok device := hdev
  have hfin : ∀ (st1 : State) (t2 t3 : Task) (x : Option Err) (c : List NetCall),
      (Except.ok (x, { m with state := st1 }, t3, c) : Except Panic _) =
        .ok (r, m1, t1, calls1) →
      st1.auth = m.state.auth →
      (∀ s ∈ asserts.serials m.state.db.assertions, s ∈ asserts.serials st1.db.assertions) →
      t3.serialSetup = t2.serialSetup →
      (∀ sup, t2.serialSetup = .ok sup → sup.Serial ≠ "" →
        ∃ s, sup.Serial = encode s ∧ s.BrandID = device.Brand ∧ s.Model = device.Model) →
      identityBacked m1 ∧ scratchBacked encode m1 t1 := by
    intro st1 t2 t3 x c hx ha hsub hts hb1
    simp only [Except.ok.injEq, Prod.mk.injEq] at hx
    obtain ⟨-, rfl, rfl, -⟩ := hx
    refine ⟨identityBacked_grow m _ ha hsub hid, scratchBacked_intro encode _ _ device ?_ ?_⟩
    · intro d hd
      have hd' : st1.auth = .ok d := hd
      rw [ha, hauth] at hd'
      cases hd'
      exact ⟨rfl, rfl⟩
    · rw [hts]
      exact hb1
  have hset : ∀ (st1 : State) (t2 t3 : Task) (x : Option Err) (c : List NetCall)
      (s : asserts.Serial),
      (Except.ok (x, { m with state := { st1 with auth := .ok { device with Serial := s.Serial } } },
        t3, c) : Except Panic _) = .ok (r, m1, t1, calls1) →
      s ∈ asserts.serials st1.db.assertions → s.BrandID = device.Brand → s.Model = device.Model →
      t3.serialSetup = t2.serialSetup →
      (∀ sup, t2.serialSetup = .ok sup → sup.Serial ≠ "" →
        ∃ s, sup.Serial = encode s ∧ s.BrandID = device.Brand ∧ s.Model = device.Model) →
      identityBacked m1 ∧ scratchBacked encode m1 t1 := by
    intro st1 t2 t3 x c s hx hmem hsb hsm hts hb1
    simp only [Except.ok.injEq, Prod.mk.injEq] at hx
    obtain ⟨-, rfl, rfl, -⟩ := hx
    refine ⟨identityBacked_set _ device s rfl hkne hmem hsb hsm,
      scratchBacked_intro encode _ _ device ?_ ?_⟩
    · intro d hd
      cases hd
      exact ⟨rfl, rfl⟩
    · rw [hts]
      exact hb1
  have hfetch : (m.state.db.FindManySerials device.Brand device.Model privKey.ID =
        .error .ErrNotFound ∨
      m.state.db.FindManySerials device.Brand device.Model privKey.ID = .ok []) →
      identityBacked m1 ∧ scratchBacked encode m1 t1 := by
    intro hf
    rcases hf with hf | hf <;> simp only [hcfg, hdev, hkp, hf] at h <;>
    (cases hget : getSerial env t privKey device cfg calls with
     | error p => simp [hget] at h
     | ok x =>
      obtain ⟨res, t2, calls2⟩ := x
      obtain ⟨hb1, hb2⟩ := getSerial_backed env encode decode henc hdec hcodec t privKey device
        cfg calls res t2 calls2 (fun sup hs hne => hscr device sup hdev hs hne) hget
      cases res with
      | error e =>
        have hm : m1 = m ∧ t1.serialSetup = t2.serialSetup := by
          cases e <;> simp only [hget, Except.ok.injEq, Prod.mk.injEq] at h <;>
            obtain ⟨-, rfl, rfl, -⟩ := h <;> exact ⟨rfl, rfl⟩
        obtain ⟨rfl, hts⟩ := hm
        exact ⟨hid, scratchBacked_intro encode _ _ device hdevd (by rw [hts]; exact hb1)⟩
      | ok serial =>
        obtain ⟨hsb, hsm⟩ := hb2 serial rfl
        simp only [hget] at h
        split at h
        · simp only [Except.ok.injEq, Prod.mk.injEq] at h
          obtain ⟨-, rfl, rfl, -⟩ := h
          exact ⟨hid, scratchBacked_intro encode _ _ device hdevd hb1⟩
        · rename_i st1 hka
          have hst1 : st1.auth = m.state.auth ∧
              ∀ s ∈ asserts.serials m.state.db.assertions,
                s ∈ asserts.serials st1.db.assertions := by
            split at hka
            · cases hka
              exact ⟨rfl, fun _ hs => hs⟩
            · rename_i a _
              have hadd := assertstate_Add_auth env.checkAdd m.state a
              split at hka
              · rename_i st1' heq
                cases hka
                rw [heq] at hadd
                exact hadd
              · rename_i msg st1' heq
                cases hka
                rw [heq] at hadd
                exact hadd
              · cases hka
          obtain ⟨hst1a, hst1s⟩ := hst1
          have h2 := assertstate_Add_auth env.checkAdd st1 (.serial serial)
          have h2s := assertstate_Add_serial env.checkAdd st1 serial
          generalize assertstate.Add env.checkAdd st1 (.serial serial) = r2 at h h2 h2s
          obtain ⟨e2, st2⟩ := r2
          simp only at h h2 h2s
          obtain ⟨h2a, h2m⟩ := h2
          have hst2a : st2.auth = m.state.auth := h2a.trans hst1a
          have hst2s : ∀ s ∈ asserts.serials m.state.db.assertions,
              s ∈ asserts.serials st2.db.assertions := fun s hs => h2m s (hst1s s hs)
          cases e2 with
          | some err =>
            simp only at h
            split at h
            · exact hfin st2 t2 _ _ _ h hst2a hst2s rfl hb1
            · exact hfin st2 t2 _ _ _ h hst2a hst2s rfl hb1
          | none =>
            simp only at h
            split at h
            · exact hfin st2 t2 _ _ _ h hst2a hst2s rfl hb1
            · rw [SetDevice_ok st2 device _ (hst2a.trans hauth)] at h
              simp only at h
              exact hset st2 t2 _ _ _ serial h (h2s rfl) hsb hsm rfl hb1)
  cases hfind : m.state.db.FindManySerials device.Brand device.Model privKey.ID with
  | error e =>
    cases e <;> first
      | exact hfetch (.inl hfind)
      | (simp only [hcfg, hdev, hkp, hfind] at h; exact hsame _ _ h)
  | ok l =>
    match l, hfind with
    | [], hfind => exact hfetch (.inr hfind)
    | [serial0], hfind =>
      obtain ⟨hmem, hsb, hsm⟩ := FindManySerials_mem _ _ _ _ _ hfind serial0
        (List.mem_singleton.mpr rfl)
      simp only [hcfg, hdev, hkp, hfind] at h
      rw [SetDevice_ok m.state device _ hdev] at h
      simp only at h
      have hself : ∀ sup, t.serialSetup = .ok sup → sup.Serial ≠ "" →
          ∃ s, sup.Serial = encode s ∧ s.BrandID = device.Brand ∧ s.Model = device.Model :=
        fun sup hs hne => hscr device sup hdev hs hne
      exact hset m.state t _ _ _ serial0 h hmem hsb hsm rfl hself
    | _ :: _ :: _, hfind =>
      simp only [hcfg, hdev, hkp, hfind] at h
      exact hsame _ _ h

/-! ## The invariant of the identity under `doRequestSerial` -/

/-- C15: start from a manager whose identity has an empty serial and from a
task with no `serial-setup`, and run `doRequestSerial` any number of times,
each run returning nil, an error or a retry, with an encoding of assertions
whose decoding, when it yields a serial assertion, keeps the brand and the
model. In every manager reached, a serial of the identity that is not empty
comes with a key ID that is not empty and with a serial assertion in the
assertion database whose brand, model and serial are those of the identity. -/
theorem doRequestSerial_identity_backed (encode : asserts.Serial → String)
    (decode : String → Except String asserts.Assertion)
    (hcodec : ∀ s a, decode (encode s) = .ok (.serial a) →
      a.BrandID = s.BrandID ∧ a.Model = s.Model)
    (m0 m : DeviceManager) (t0 t : Task)
    (hserial : ∀ d, auth.Device m0.state = .ok d → d.Serial = "")
    (hsetup : t0.serialSetup = .error .ErrNoState)
    (hruns : RequestSerialRuns encode decode m0 t0 m t) :
    identityBacked m := by
  have hboth : identityBacked m ∧ scratchBacked encode m t := by
    induction hruns with
    | start =>
      constructor
      · intro d hd hne
        exact absurd (hserial d hd) hne
      · intro d sup _ hsup _
        rw [hsetup] at hsup
        cases hsup
    | run env m m1 t t1 calls calls1 r _ henc hdec hrun ih =>
      exact doRequestSerial_backed env encode decode henc hdec hcodec m m1 t t1 calls calls1 r
        ih.1 ih.2 hrun
  exact hboth.1

/-- Witness of C15: the identity has no serial and the task no `serial-setup`;
one run adopts the serial `42` stored for the device key, and the identity
reached is backed by that assertion. -/
theorem doRequestSerial_identity_backed_witness :
    sampleTask.serialSetup = .error .ErrNoState ∧
    storedSerialManager.doRequestSerial sampleEnv sampleTask [] =
      .ok (none, adoptedSerialManager, sampleTask.SetStatus .DoneStatus, []) ∧
    identityBacked adoptedSerialManager :=
  ⟨rfl, by decide,
    doRequestSerial_identity_backed sampleEnv.EncodeSerial sampleEnv.Decode
      (fun _ _ h => by cases h)
      storedSerialManager adoptedSerialManager sampleTask (sampleTask.SetStatus .DoneStatus)
      (fun d hd => by cases hd; rfl) rfl
      (.run sampleEnv storedSerialManager adoptedSerialManager sampleTask
        (sampleTask.SetStatus .DoneStatus) [] [] none .start rfl rfl (by decide))⟩

/-! ## The check of gadget and kernel snaps against the model -/

theorem checkGadgetOrKernel_first (env : Env) (host : Host) (st : State)
    (snapInfo : snap.Info) (curInfo : Option snap.Info) (flags : snapstate.Flags)
    (kind : String) (getName : asserts.Model → String) (model : asserts.Model)
    (hmodel : Model env st = .ok model)
    (hpub : snapInfo.SnapID = "" ∨
      ∃ publisher, host.SnapDeclarationPublisher st snapInfo.SnapID = .ok publisher ∧
        (publisher = "canonical" ∨ publisher = model.BrandID))
    (hsel : checkGadgetOrKernel env host st snapInfo curInfo flags =
      match Model env st with
      | .error .ErrNoState =>
        some (.other ("cannot install " ++ kind ++ " without model assertion"))
      | .error err => some err
      | .ok model =>
        match (if snapInfo.SnapID ≠ "" then
            match host.SnapDeclarationPublisher st snapInfo.SnapID with
            | .error err =>
              some (Err.other ("internal error: cannot find snap declaration for " ++
                snapInfo.Name.quote ++ ": " ++ err))
            | .ok publisher =>
              if publisher ≠ "canonical" ∧ publisher ≠ model.BrandID then
                some (.other ("cannot install " ++ kind ++ " " ++ snapInfo.Name.quote ++
                  " published by " ++ publisher.quote ++ " for model by " ++
                  model.BrandID.quote))
              else none
          else none) with
        | some err => some err
        | none =>
          if getName model = "" then
            some (.other ("cannot install " ++ kind ++
              " snap on classic if not requested by the model"))
          else if snapInfo.Name ≠ getName model then
            some (.other ("cannot install " ++ kind ++ " " ++ snapInfo.Name.quote ++
              ", model assertion requests " ++ (getName model).quote))
          else none) :
    checkGadgetOrKernel env host st snapInfo curInfo flags = none ↔
      getName model ≠ "" ∧ snapInfo.Name = getName model := by
  rw [hsel, hmodel]
  have hnone : (if snapInfo.SnapID ≠ "" then
      match host.SnapDeclarationPublisher st snapInfo.SnapID with
      | .error err =>
        some (Err.other ("internal error: cannot find snap declaration for " ++
          snapInfo.Name.quote ++ ": " ++ err))
      | .ok publisher =>
        if publisher ≠ "canonical" ∧ publisher ≠ model.BrandID then
          some (.other ("cannot install " ++ kind ++ " " ++ snapInfo.Name.quote ++
            " published by " ++ publisher.quote ++ " for model by " ++
            model.BrandID.quote))
        else none
    else none) = none := by
    rcases hpub with hid | ⟨publisher, hp, hok⟩
    · simp [hid]
    · by_cases hid : snapInfo.SnapID = ""
      · simp [hid]
      · simp only [ne_eq, hid, not_false_eq_true, if_true, hp]
        rcases hok with hok | hok <;> simp [hok]
  simp only [hnone]
  by_cases hn : getName model = ""
  · simp [hn]
  · by_cases he : snapInfo.Name = getName model
    · simp [hn, he]
    · simp [hn, he]

/-- C21: for a gadget snap, and for a kernel snap on a system that is not
classic, when `Model` returns a model assertion, the publisher check passes
(the snap has no snap ID, or its publisher is `canonical` or the brand of the
model) and no snap of that kind is installed, `checkGadgetOrKernel` returns nil
exactly when the model names a gadget (a kernel) that is not empty and the name
of the snap equals it; and for a snap that is neither a gadget nor a kernel it
returns nil. -/
theorem checkGadgetOrKernel_model_name (env : Env) (host : Host) (st : State)
    (snapInfo : snap.Info) (curInfo : Option snap.Info) (flags : snapstate.Flags) :
    (∀ model, snapInfo.Typ = .TypeGadget → Model env st = .ok model →
      (snapInfo.SnapID = "" ∨
        ∃ publisher, host.SnapDeclarationPublisher st snapInfo.SnapID = .ok publisher ∧
          (publisher = "canonical" ∨ publisher = model.BrandID)) →
      st.gadget = .error .ErrNoState →
      (checkGadgetOrKernel env host st snapInfo curInfo flags = none ↔
        model.Gadget ≠ "" ∧ snapInfo.Name = model.Gadget)) ∧
    (∀ model, snapInfo.Typ = .TypeKernel → env.OnClassic = false →
      Model env st = .ok model →
      (snapInfo.SnapID = "" ∨
        ∃ publisher, host.SnapDeclarationPublisher st snapInfo.SnapID = .ok publisher ∧
          (publisher = "canonical" ∨ publisher = model.BrandID)) →
      st.kernel = .error .ErrNoState →
      (checkGadgetOrKernel env host st snapInfo curInfo flags = none ↔
        model.Kernel ≠ "" ∧ snapInfo.Name = model.Kernel)) ∧
    (snapInfo.Typ ≠ .TypeGadget → snapInfo.Typ ≠ .TypeKernel →
      checkGadgetOrKernel env host st snapInfo curInfo flags = none) := by
  refine ⟨?_, ?_, ?_⟩
  · intro model htyp hmodel hpub hcur
    refine checkGadgetOrKernel_first env host st snapInfo curInfo flags "gadget"
      (fun model => model.Gadget) model hmodel hpub ?_
    simp only [checkGadgetOrKernel, htyp, hcur]
  · intro model htyp hclassic hmodel hpub hcur
    refine checkGadgetOrKernel_first env host st snapInfo curInfo flags "kernel"
      (fun model => model.Kernel) model hmodel hpub ?_
    simp only [checkGadgetOrKernel, htyp, hclassic, hcur, Bool.false_eq_true, if_false]
  · intro hg hk
    unfold checkGadgetOrKernel
    cases htyp : snapInfo.Typ with
    | TypeGadget => exact absurd htyp hg
    | TypeKernel => exact absurd htyp hk
    | TypeApp => rfl
    | TypeOS => rfl

/-- Witness of C21: on a state with the model assertion naming the gadget `pc`
and the kernel `pc-kernel` and with no gadget and no kernel installed, the
snaps of these names pass, a kernel of another name is refused, and an
application snap passes. -/
theorem checkGadgetOrKernel_model_name_witness :
    checkGadgetOrKernel sampleEnv sampleHost noGadgetState gadgetSnap none 0 = none ∧
    checkGadgetOrKernel sampleEnv sampleHost noGadgetState kernelSnap none 0 = none ∧
    checkGadgetOrKernel sampleEnv sampleHost noGadgetState otherKernelSnap none 0 ≠ none ∧
    checkGadgetOrKernel sampleEnv sampleHost noGadgetState appSnap none 0 = none :=
  ⟨((checkGadgetOrKernel_model_name sampleEnv sampleHost noGadgetState gadgetSnap none 0).1
      ⟨"16", "canonical", "pc", "pc", "pc-kernel"⟩ rfl (by decide) (.inl rfl) rfl).mpr
      ⟨by decide, rfl⟩,
   ((checkGadgetOrKernel_model_name sampleEnv sampleHost noGadgetState kernelSnap none 0).2.1
      ⟨"16", "canonical", "pc", "pc", "pc-kernel"⟩ rfl rfl (by decide) (.inl rfl) rfl).mpr
      ⟨by decide, rfl⟩,
   fun h =>
    absurd (((checkGadgetOrKernel_model_name sampleEnv sampleHost noGadgetState otherKernelSnap
      none 0).2.1 ⟨"16", "canonical", "pc", "pc", "pc-kernel"⟩ rfl rfl (by decide) (.inl rfl)
      rfl).mp h).2 (by decide),
   (checkGadgetOrKernel_model_name sampleEnv sampleHost noGadgetState appSnap none 0).2.2
      (by decide) (by decide)⟩

/-! ## The text of the error for a bad status -/

theorem retryBadStatus_error_text (env : Env) (t : Task) (reason : String)
    (resp : http.Response) (hcode : resp.StatusCode ≤ 500) :
    (resp.ContentType ≠ "application/json" ∨ env.decodeServerError resp.Body = none →
      retryBadStatus env t reason resp =
        .ok (.other (reason ++ ": unexpected status " ++ toString resp.StatusCode), t)) ∧
    (∀ srvErr, resp.ContentType = "application/json" →
      env.decodeServerError resp.Body = some srvErr →
      (srvErr.Message ≠ "" →
        retryBadStatus env t reason resp = .ok (.other (reason ++ ": " ++ srvErr.Message), t)) ∧
      (∀ e rest, srvErr.Message = "" → srvErr.Errors = some e :: rest → e.Message ≠ "" →
        retryBadStatus env t reason resp = .ok (.other (reason ++ ": " ++ e.Message), t)) ∧
      (srvErr.Message = "" →
        (srvErr.Errors = [] ∨ ∃ e rest, srvErr.Errors = some e :: rest ∧ e.Message = "") →
        retryBadStatus env t reason resp =
          .ok (.other (reason ++ ": unexpected status " ++ toString resp.StatusCode), t)) ∧
      (∀ rest, srvErr.Message = "" → srvErr.Errors = none :: rest →
        retryBadStatus env t reason resp = .error .nilDereference)) := by
  have hc : ¬ resp.StatusCode > 500 := not_lt.mpr hcode
  refine ⟨?_, ?_⟩
  · rintro (hct | hdec)
    · unfold retryBadStatus
      simp only [hc, if_false, hct]
    · unfold retryBadStatus
      simp only [hc, if_false, hdec]
      split <;> rfl
  · intro srvErr hct hdec
    refine ⟨?_, ?_, ?_, ?_⟩
    · intro hm
      unfold retryBadStatus
      simp only [hc, if_false, hct, if_true, hdec, hm, ne_eq, not_false_eq_true]
    · intro e rest hm hes he
      unfold retryBadStatus
      simp only [hc, if_false, hct, if_true, hdec, hm, hes, ne_eq, he, not_false_eq_true]
    · intro hm hes
      unfold retryBadStatus
      rcases hes with hes | ⟨e, rest, hes, he⟩
      · simp only [hc, if_false, hct, if_true, hdec, hm, hes, ne_eq, not_true_eq_false]
      · simp only [hc, if_false, hct, if_true, hdec, hm, hes, he, ne_eq, not_true_eq_false]
    · intro rest hm hes
      unfold retryBadStatus
      simp only [hc, if_false, hct, if_true, hdec, hm, hes]

/-- C22, at the failing input: the response has status 400, the content type
`application/json` and a body that decodes with no error to a server error
with no message and an error list whose first entry is nil; `retryBadStatus`
returns no error text, it ends in a nil dereference. -/
theorem retryBadStatus_nil_entry :
    nullEntryResponse.StatusCode ≤ 500 ∧
    nullEntryResponse.ContentType = "application/json" ∧
    nullEntryEnv.decodeServerError nullEntryResponse.Body = some (.mk "" [none]) ∧
    retryBadStatus nullEntryEnv sampleTask "cannot deliver device serial request"
      nullEntryResponse = .error .nilDereference := by
  refine ⟨by decide, rfl, rfl, ?_⟩
  exact ((retryBadStatus_error_text nullEntryEnv sampleTask
    "cannot deliver device serial request" nullEntryResponse (by decide)).2
    (.mk "" [none]) rfl rfl).2.2.2 [] rfl rfl

/-! ## A fresh serial-request that is not accepted -/

theorem retryBadStatus_ne_errPoll (env : Env) (t : Task) (reason : String)
    (resp : http.Response) (r : Err × Task)
    (h : retryBadStatus env t reason resp = .ok r) : r.1 ≠ .errPoll := by
  revert h
  simp only [retryBadStatus, retryErr]
  repeat' split
  all_goals intro h
  all_goals first
    | (cases h; intro hc; cases hc)
    | cases h

theorem submitSerialRequest_errPoll (env : Env) (t : Task) (sr : String)
    (cfg : serialRequestConfig) (calls : List NetCall) (t2 : Task) (c2 : List NetCall)
    (h : submitSerialRequest env t sr cfg calls = .ok (.error .errPoll, t2, c2)) :
    ∃ resp, env.Do calls.length (serialRequestPOST env cfg sr) = .ok resp ∧
      resp.StatusCode = 202 := by
  unfold submitSerialRequest at h
  unfold serialRequestPOST
  split at h
  · cases h
  · simp only at h
    split at h
    · simp [retryErr] at h
    · rename_i resp hdo
      split at h
      · split at h <;> simp [retryErr] at h
      · split at h
        · rename_i h202
          exact ⟨resp, hdo, h202⟩
        · split at h
          · cases h
          · rename_i r hr
            have hne := retryBadStatus_ne_errPoll _ _ _ _ r hr
            simp only [Except.ok.injEq, Prod.mk.injEq, Except.error.injEq] at h
            exact absurd h.1 hne

/-- C23: for every task with no `serial-setup` for which `getSerial` builds a
fresh serial-request (`prepareSerialRequest` returns one): when its submission
returns an error other than the poll error, which only an answer 202 yields,
or a serial assertion that does not match the brand, the model or the key ID,
`getSerial` returns an error with the task the submission left, whose
`serial-setup` is still unset; and on a task with no `serial-setup` every run
of `getSerial` starts with `prepareSerialRequest`, which asks for a new
request-id, and submits what that returns. A submission that panics makes
`getSerial` panic. -/
theorem getSerial_fresh_request_unset (env : Env) (t : Task) (privKey : asserts.PrivateKey)
    (device : DeviceState) (cfg : serialRequestConfig) (calls : List NetCall) (sr : String)
    (tp : Task) (cp : List NetCall)
    (hunset : t.serialSetup = .error .ErrNoState)
    (hprep : prepareSerialRequest env t privKey device cfg calls = .ok (.ok sr, tp, cp)) :
    (∀ e t2 c2, submitSerialRequest env tp sr cfg cp = .ok (.error e, t2, c2) →
      e ≠ .errPoll →
      getSerial env t privKey device cfg calls = .ok (.error e, t2, c2) ∧
        t2.serialSetup = .error .ErrNoState) ∧
    (∀ serial t2 c2, submitSerialRequest env tp sr cfg cp = .ok (.ok serial, t2, c2) →
      (serial.BrandID ≠ device.Brand ∨ serial.Model ≠ device.Model ∨
        serial.DeviceKeyID ≠ privKey.ID) →
      getSerial env t privKey device cfg calls =
          .ok (.error (.other (mismatchMessage serial device privKey.ID)), t2, c2) ∧
        t2.serialSetup = .error .ErrNoState) ∧
    (∀ t2 c2, submitSerialRequest env tp sr cfg cp = .ok (.error .errPoll, t2, c2) →
      ∃ resp, env.Do cp.length (serialRequestPOST env cfg sr) = .ok resp ∧
        resp.StatusCode = 202) ∧
    (∀ p, submitSerialRequest env tp sr cfg cp = .error p →
      getSerial env t privKey device cfg calls = .error p) ∧
    (∀ t2 : Task, t2.serialSetup = .error .ErrNoState →
      ∀ env2 privKey2 device2 cfg2 calls2,
        getSerial env2 t2 privKey2 device2 cfg2 calls2 =
          match prepareSerialRequest env2 t2 privKey2 device2 cfg2 calls2 with
          | .error p => .error p
          | .ok (.error err, t3, calls3) => .ok (.error err, t3, calls3)
          | .ok (.ok sr2, t3, calls3) =>
            getSerialAfterSubmit env2 privKey2 device2 ⟨sr2, ""⟩
              (submitSerialRequest env2 t3 sr2 cfg2 calls3)) := by
  have hget : getSerial env t privKey device cfg calls =
      getSerialAfterSubmit env privKey device ⟨sr, ""⟩
        (submitSerialRequest env tp sr cfg cp) := by
    rw [getSerial_of_prepare env t privKey device cfg calls ⟨"", ""⟩ (.inr ⟨hunset, rfl⟩)
      rfl rfl, hprep]
  have htp : tp.serialSetup = .error .ErrNoState := by
    rw [prepareSerialRequest_setup env t privKey device cfg calls _ tp cp hprep, hunset]
  refine ⟨?_, ?_, ?_, ?_, ?_⟩
  · intro e t2 c2 hsub hne
    refine ⟨?_, ?_⟩
    · rw [hget, hsub]
      cases e <;> first | exact absurd rfl hne | rfl
    · rw [submitSerialRequest_setup env tp sr cfg cp _ t2 c2 hsub, htp]
  · intro serial t2 c2 hsub hmis
    refine ⟨?_, ?_⟩
    · rw [hget, hsub]
      simp only [getSerialAfterSubmit, hmis, if_true]
    · rw [submitSerialRequest_setup env tp sr cfg cp _ t2 c2 hsub, htp]
  · intro t2 c2 hsub
    exact submitSerialRequest_errPoll env tp sr cfg cp t2 c2 hsub
  · intro p hsub
    rw [hget, hsub]
    rfl
  · intro t2 ht2 env2 privKey2 device2 cfg2 calls2
    exact getSerial_of_prepare env2 t2 privKey2 device2 cfg2 calls2 ⟨"", ""⟩
      (.inr ⟨ht2, rfl⟩) rfl rfl

/-- Witness of C23: the request-id is obtained and the serial-request built, then
the submission fails in transport; `getSerial` asks for a retry and the
`serial-setup` of the task is still unset. -/
theorem getSerial_fresh_request_unset_witness :
    getSerial droppingEnv sampleTask ⟨"key-id"⟩ ⟨"canonical", "pc", "", "key-id"⟩
        sampleConfig [] =
      .ok (.error (.Retry retryInterval),
        sampleTask.Errorf "cannot deliver device serial request: connection reset",
        [NetCall.http ⟨"POST", requestIDURL sampleEnv, [("User-Agent", "snapd")], ""⟩,
         NetCall.http (serialRequestPOST droppingEnv sampleConfig "signed-request")]) ∧
    (sampleTask.Errorf "cannot deliver device serial request: connection reset").serialSetup =
      .error .ErrNoState :=
  (getSerial_fresh_request_unset droppingEnv sampleTask ⟨"key-id"⟩
    ⟨"canonical", "pc", "", "key-id"⟩ sampleConfig [] "signed-request" sampleTask
    [NetCall.http ⟨"POST", requestIDURL sampleEnv, [("User-Agent", "snapd")], ""⟩]
    rfl (by decide)).1 (.Retry retryInterval)
    (sampleTask.Errorf "cannot deliver device serial request: connection reset")
    [NetCall.http ⟨"POST", requestIDURL sampleEnv, [("User-Agent", "snapd")], ""⟩,
     NetCall.http (serialRequestPOST droppingEnv sampleConfig "signed-request")]
    (by decide) (by decide)

/-! ## The values of the backoff -/

theorem shouldBackoff_backoff_step (m : DeviceManager) (now : Time)
    (h : m.becomeOperationalBackoff = 0 ∨ attemptBackoff m.becomeOperationalBackoff) :
    attemptBackoff (m.ensureOperationalShouldBackoff now).2.becomeOperationalBackoff ∨
      (m.ensureOperationalShouldBackoff now).2.becomeOperationalBackoff =
        m.becomeOperationalBackoff := by
  cases hr : (m.ensureOperationalShouldBackoff now).1 with
  | true => exact .inr (by rw [shouldBackoff_snd_of_skip m now hr])
  | false =>
    left
    rw [shouldBackoff_backoff_of_allowed m now hr]
    rcases h with h | h
    · rw [if_pos h]
      exact .inr ⟨0, by decide, by simp⟩
    · rw [if_neg (attemptBackoff_ne_zero _ h)]
      rcases attemptBackoff_step _ h with ⟨hle, heq, hnext⟩ | ⟨hgt, _⟩
      · rw [if_neg (not_lt.mpr hle), heq]
        exact hnext
      · rw [if_pos hgt]
        exact .inl rfl

theorem shouldBackoff_backoff_day (m : DeviceManager) (now : Time)
    (h : m.becomeOperationalBackoff = 24 * hour) :
    (m.ensureOperationalShouldBackoff now).2.becomeOperationalBackoff = 24 * hour := by
  cases hr : (m.ensureOperationalShouldBackoff now).1 with
  | true => rw [shouldBackoff_snd_of_skip m now hr, h]
  | false =>
    rw [shouldBackoff_backoff_of_allowed m now hr, h]
    decide

theorem afterCalls_backoff (m : DeviceManager) (times : List Time)
    (h : m.becomeOperationalBackoff = 0 ∨ attemptBackoff m.becomeOperationalBackoff) :
    (m.afterCalls times).becomeOperationalBackoff = 0 ∨
      attemptBackoff (m.afterCalls times).becomeOperationalBackoff := by
  induction times generalizing m with
  | nil => exact h
  | cons now rest ih =>
    refine ih (m.ensureOperationalShouldBackoff now).2 ?_
    rcases shouldBackoff_backoff_step m now h with hs | hs
    · exact .inr hs
    · rw [hs]
      exact h

theorem afterCalls_backoff_day (m : DeviceManager) (times : List Time)
    (h : m.becomeOperationalBackoff = 24 * hour) :
    (m.afterCalls times).becomeOperationalBackoff = 24 * hour := by
  induction times generalizing m with
  | nil => exact h
  | cons now rest ih => exact ih _ (shouldBackoff_backoff_day m now h)

/-- C24: in every manager reached from one with a zero backoff by calls of
`ensureOperationalShouldBackoff` at any times, the backoff is 0, or 24 hours,
or 5 minutes times `2 ^ k` for a `k` from 0 to 7; hence it is at most 24 hours
and is not 12 hours, and when it is 24 hours it is 24 hours after every
further run of calls. -/
theorem backoff_values (m0 : DeviceManager) (times : List Time)
    (h0 : m0.becomeOperationalBackoff = 0) :
    ((m0.afterCalls times).becomeOperationalBackoff = 0 ∨
      (m0.afterCalls times).becomeOperationalBackoff = 24 * hour ∨
      ∃ k : Nat, k ≤ 7 ∧ (m0.afterCalls times).becomeOperationalBackoff = 5 * minute * 2 ^ k) ∧
    (m0.afterCalls times).becomeOperationalBackoff ≤ 24 * hour ∧
    (m0.afterCalls times).becomeOperationalBackoff ≠ 12 * hour ∧
    ((m0.afterCalls times).becomeOperationalBackoff = 24 * hour →
      ∀ later : List Time,
        ((m0.afterCalls times).afterCalls later).becomeOperationalBackoff = 24 * hour) := by
  have h := afterCalls_backoff m0 times (.inl h0)
  refine ⟨h, ?_, ?_, fun hday later => afterCalls_backoff_day _ later hday⟩
  · rcases h with h | h
    · rw [h]
      decide
    · rcases attemptBackoff_cases _ h with h | h | h | h | h | h | h | h | h <;> rw [h] <;>
        decide
  · rcases h with h | h
    · rw [h]
      decide
    · rcases attemptBackoff_cases _ h with h | h | h | h | h | h | h | h | h <;> rw [h] <;>
        decide

set_option maxRecDepth 4000 in
/-- Witness of C24: from the fresh sample manager, nine calls each as late as
the backoff allows lead to a backoff of 24 hours, and two more calls, a day and
two days later, leave it there. -/
theorem backoff_values_witness :
    sampleManager.becomeOperationalBackoff = 0 ∧
    (sampleManager.afterCalls jumpTimes).becomeOperationalBackoff = 24 * hour ∧
    ((sampleManager.afterCalls jumpTimes).afterCalls
      [1 * second + 48 * hour, 1 * second + 96 * hour]).becomeOperationalBackoff = 24 * hour :=
  ⟨rfl, rfl,
    (backoff_values sampleManager jumpTimes rfl).2.2.2 rfl
      [1 * second + 48 * hour, 1 * second + 96 * hour]⟩

end Devicestate
